import Mathlib

/-! VirtIO console driver of the Bao bare-metal guest.

A shallow embedding of `src/core/inc/virtio_memory_pool.h` and
`src/core/virtio_console.c`, and theorems about the embedded functions.

Conventions of the embedding.

* `unsigned long` is 64 bits wide (LP64).  A value of that type is a natural
  number below `ULONG_MOD`, and the C operator `+` on it is `ulong_add`, the sum
  reduced modulo `ULONG_MOD`.
* A pointer is the natural number of the address it holds.  Pointer arithmetic
  `base + k` is the abstract address `base + k`.
* A function returning a pointer that may be `NULL` returns an `Option`: `none`
  is `NULL`.
-/

namespace BaoVirtio

/-! ## Memory pool (`virtio_memory_pool.h`) -/

/-- Number of values of the C type `unsigned long`. -/
def ULONG_MOD : Nat := 2 ^ 64

/-- The C operator `+` on two `unsigned long` operands. -/
def ulong_add (a b : Nat) : Nat := (a + b) % ULONG_MOD

/-- The C `struct virtio_memory_pool`. -/
structure virtio_memory_pool where
  /-- Base address of the memory pool. -/
  base : Nat
  /-- Size of the memory pool. -/
  size : Nat
  /-- Offset of the next available memory. -/
  offset : Nat
deriving DecidableEq, Repr

/-- The C function `virtio_memory_pool_init`: every field of the pool is
overwritten, so the result does not depend on the pool passed in. -/
def virtio_memory_pool_init (base : Nat) (size : Nat) : virtio_memory_pool :=
  { base := base, size := size, offset := 0 }

/-- The C function `virtio_memory_pool_alloc`.  The result is the returned
pointer (`none` for `NULL`) and the pool after the call. -/
def virtio_memory_pool_alloc (pool : virtio_memory_pool) (alloc_size : Nat) :
    Option Nat × virtio_memory_pool :=
  -- Check if the requested allocation size is larger than the pool size
  if alloc_size > pool.size then
    (none, pool)
  -- Check if there is enough space from the current offset to the end of the pool
  else if ulong_add pool.offset alloc_size ≤ pool.size then
    (some (pool.base + pool.offset),
      { pool with offset := ulong_add pool.offset alloc_size })
  -- If we reached the end of the pool, wrap around
  else if alloc_size ≤ pool.offset then
    (some (pool.base + 0), { pool with offset := ulong_add 0 alloc_size })
  -- No sufficient contiguous space available
  else
    (none, pool)

/-- The pool invariant of the data model: `0 <= offset <= size`. -/
def pool_inv (pool : virtio_memory_pool) : Prop :=
  0 ≤ pool.offset ∧ pool.offset ≤ pool.size

instance (pool : virtio_memory_pool) : Decidable (pool_inv pool) := by
  unfold pool_inv; infer_instance

/-! ## Machine integers -/

/-- Number of values of a 16-bit unsigned field. -/
def U16_MOD : Nat := 2 ^ 16

/-- Number of values of the C type `uint32_t`. -/
def U32_MOD : Nat := 2 ^ 32

/-- Number of values of the C type `uint64_t`. -/
def U64_MOD : Nat := 2 ^ 64

/-- Conversion of a `size_t` value to the 32-bit C type `int`, as in
`int data_len = strlen(data)`: the value is reduced modulo `2 ^ 32` and read as
two's complement. -/
def int_of_size (n : Nat) : Int :=
  if n % U32_MOD < 2 ^ 31 then ((n % U32_MOD : Nat) : Int)
  else ((n % U32_MOD : Nat) : Int) - (U32_MOD : Int)

/-- Conversion of an `int` to `unsigned long`, as for the argument `data_len` of
`virtio_memory_pool_alloc`. -/
def ulong_of_int (i : Int) : Nat := (i % (ULONG_MOD : Int)).toNat

/-- Conversion of an `int` to a 32-bit unsigned descriptor length. -/
def u32_of_int (i : Int) : Nat := (i % (U32_MOD : Int)).toNat

/-! ## Constants of the headers that are not under `src/`

`virtio_console.h`, `virtio_mmio.h` and `virtio_queue.h` are not part of the
sources at hand.  The constants they define are parameters of the embedding; the
values of the status bits are those the specification gives. -/

/-- The compile-time constants used by `virtio_console.c`, as parameters. -/
structure Consts where
  /-- Expected content of the `MagicValue` register. -/
  VIRTIO_MAGIC_VALUE : Nat
  /-- Expected content of the `Version` register. -/
  VIRTIO_VERSION_NO_LEGACY : Nat
  /-- Device id of the console. -/
  VIRTIO_CONSOLE_DEVICE_ID : Nat
  /-- The desired feature set, a 64-bit mask. -/
  VIRTIO_CONSOLE_FEATURES : Nat
  /-- Number of 32-bit feature words. -/
  VIRTIO_MMIO_FEATURE_SEL_SIZE : Nat
  /-- Configuration-change bit of the interrupt status. -/
  VIRTIO_MMIO_INT_CONFIG : Nat
  /-- Number of virtqueues of the console. -/
  VIRTIO_CONSOLE_NUM_VQS : Nat
  /-- Index of the receive virtqueue. -/
  VIRTIO_CONSOLE_RX_VQ_IDX : Nat
  /-- Index of the transmit virtqueue. -/
  VIRTIO_CONSOLE_TX_VQ_IDX : Nat
  /-- Size of one receive buffer. -/
  VIRTIO_CONSOLE_RX_BUFFER_SIZE : Nat
  /-- Size of the shared-memory region of one virtqueue. -/
  VIRTQ_SIZE_TOTAL : Nat
  /-- Queue depth `N`: the number of descriptors of a virtqueue. -/
  VIRTQ_NUM_DESC : Nat
  /-- Offset of the available ring inside the region of a virtqueue. -/
  VIRTQ_AVAIL_OFFSET : Nat
  /-- Offset of the used ring inside the region of a virtqueue. -/
  VIRTQ_USED_OFFSET : Nat
  /-- Offset of the memory pool inside the region of a virtqueue. -/
  VIRTQ_POOL_OFFSET : Nat

/-- Modelled from the spec: the status value written to reset the device
(`virtio_mmio.h` is not under `src/`; section 4.3 step 2, "write status = 0"). -/
def RESET : Nat := 0

/-- Modelled from the spec: status bit ACKNOWLEDGE = 1 (section 6). -/
def ACKNOWLEDGE : Nat := 1

/-- Modelled from the spec: status bit DRIVER = 2 (section 6). -/
def DRIVER : Nat := 2

/-- Modelled from the spec: status bit DRIVER_OK = 4 (section 6). -/
def DRIVER_OK : Nat := 4

/-- Modelled from the spec: status bit FEATURES_OK = 8 (section 6). -/
def FEATURES_OK : Nat := 8

/-- Modelled from the spec: status bit FAILED = 128 (section 6). -/
def FAILED : Nat := 128

/-! ## MMIO register block and device -/

/-- Modelled from the spec: the registers of the MMIO block the driver touches
(`struct virtio_mmio_reg` of `virtio_mmio.h` is not under `src/`; section 6).
`Config` is the 32-bit word at the start of the device-specific configuration,
`ConfigMaxNrPorts` the word 4 bytes and `ConfigEmergWr` the word 8 bytes
beyond it. -/
inductive Reg where
  | MagicValue | Version | DeviceID
  | DeviceFeatures | DeviceFeaturesSel | DriverFeatures | DriverFeaturesSel
  | QueueSel | QueueNumMax | QueueReady
  | QueueDescLow | QueueDescHigh | QueueDriverLow | QueueDriverHigh
  | QueueDeviceLow | QueueDeviceHigh
  | QueueNotify | InterruptStatus | InterruptACK | Status
  | Config | ConfigMaxNrPorts | ConfigEmergWr
deriving DecidableEq, Repr

/-- One access of the driver to a register: a read `rd r v` that yielded `v`, a
write `wr r v` of `v`, or a read-modify-write `orw r m v`, the C statement
`r |= m`, which read `v` and wrote `v ||| m`. -/
inductive Access where
  | rd (r : Reg) (v : Nat)
  | wr (r : Reg) (v : Nat)
  | orw (r : Reg) (m : Nat) (v : Nat)
deriving DecidableEq, Repr

/-- The behaviour of the device behind the `volatile` register block: what a read
of a register yields, and how reads and writes change the state of the device. -/
structure Device (σ : Type) where
  /-- Value read from a register, and the state of the device after the read. -/
  read : Reg → σ → Nat × σ
  /-- State of the device after a write. -/
  write : Reg → Nat → σ → σ

/-! ## Virtqueue (`virtio_queue.h`, not under `src/`) -/

/-- Modelled from the spec: a descriptor `{ addr, len, flags, next }` (`struct
virtq_desc` of `virtio_queue.h` is not under `src/`; section 3). -/
structure virtq_desc where
  addr : Nat
  len : Nat
  flags : Nat
  next : Nat
deriving DecidableEq, Repr, Inhabited

/-- Modelled from the spec: the flag bit that marks a descriptor device-writable;
a descriptor without it is device-readable (`virtio_queue.h` is not under `src/`;
section 4.2). -/
def VIRTQ_DESC_F_WRITE : Nat := 2

/-- Modelled from the spec: a virtqueue `{ queue_index, descriptor_table[N],
free_list, avail_ring, used_ring, last_seen_used_index, pool }` (`struct virtq` of
`virtio_queue.h` is not under `src/`; section 3).  `desc`, `avail` and `used` are
the addresses of the three areas, which the handshake publishes; the tables
themselves are total maps from an index to an entry. -/
structure virtq where
  queue_index : Nat
  desc : Nat
  avail : Nat
  used : Nat
  desc_table : Nat → virtq_desc
  free_list : List Nat
  avail_flags : Nat
  avail_idx : Nat
  avail_ring : Nat → Nat
  used_flags : Nat
  used_idx : Nat
  used_ring : Nat → Nat
  last_used_idx : Nat
  pool : virtio_memory_pool

/-- Modelled from the spec: `init(queue_index, memory_region)` "lays out
descriptor table, avail ring, used ring at fixed offsets within memory_region
(sized VIRTQ_SIZE_TOTAL), initializes pool over the remainder, pushes all N
descriptor-ids onto free_list, zeroes ring indices" (`virtq_init` of
`virtio_queue.h` is not under `src/`; section 4.2).  The ids are pushed in
increasing order. -/
def virtq_init (K : Consts) (queue_index : Nat) (memory_region : Nat) : virtq :=
  { queue_index := queue_index
    desc := memory_region
    avail := memory_region + K.VIRTQ_AVAIL_OFFSET
    used := memory_region + K.VIRTQ_USED_OFFSET
    desc_table := fun _ => default
    free_list := (List.range K.VIRTQ_NUM_DESC).foldl (fun stack id => id :: stack) []
    avail_flags := 0
    avail_idx := 0
    avail_ring := fun _ => 0
    used_flags := 0
    used_idx := 0
    used_ring := fun _ => 0
    last_used_idx := 0
    pool := virtio_memory_pool_init (memory_region + K.VIRTQ_POOL_OFFSET)
      (K.VIRTQ_SIZE_TOTAL - K.VIRTQ_POOL_OFFSET) }

/-- Modelled from the spec: `has_free_slots() -> bool`: "free_list non-empty"
(`virtq_has_free_slots` is not under `src/`; section 4.2). -/
def virtq_has_free_slots (vq : virtq) : Bool := !vq.free_list.isEmpty

/-- Modelled from the spec: `get_free_desc_id()` "pops free_list.  Precondition:
non-empty; undefined/fatal if violated" (`virtq_get_free_desc_id` is not under
`src/`; section 4.2).  `none` is the undefined outcome. -/
def virtq_get_free_desc_id (vq : virtq) : Option (Nat × virtq) :=
  match vq.free_list with
  | [] => none
  | id :: rest => some (id, { vq with free_list := rest })

/-- Modelled from the spec: `get_desc_by_id(id)`: "direct indexed access, no
bounds failure mode" (`virtq_get_desc_by_id` is not under `src/`; section 4.2). -/
def virtq_get_desc_by_id (vq : virtq) (id : Nat) : virtq_desc := vq.desc_table id

/-- Store through the descriptor pointer obtained for `id`. -/
def virtq_set_desc (vq : virtq) (id : Nat) (d : virtq_desc) : virtq :=
  { vq with desc_table := Function.update vq.desc_table id d }

/-- Modelled from the spec: `desc_init(desc, addr, len)` "sets addr/len, clears
flags/next" (`virtq_desc_init` is not under `src/`; section 4.2). -/
def virtq_desc_init (_desc : virtq_desc) (addr : Nat) (len : Nat) : virtq_desc :=
  { addr := addr, len := len, flags := 0, next := 0 }

/-- Modelled from the spec: `desc_set_write_only(desc)` "sets the device-writable
flag" (`virtq_desc_set_write_only` is not under `src/`; section 4.2). -/
def virtq_desc_set_write_only (desc : virtq_desc) : virtq_desc :=
  { desc with flags := desc.flags ||| VIRTQ_DESC_F_WRITE }

/-- Modelled from the spec: `desc_set_read_only(desc)` sets the device-readable
flag, that is, the descriptor is no longer device-writable
(`virtq_desc_set_read_only` is not under `src/`; section 4.2). -/
def virtq_desc_set_read_only (desc : virtq_desc) : virtq_desc :=
  { desc with flags := desc.flags - (desc.flags &&& VIRTQ_DESC_F_WRITE) }

/-- A descriptor is device-writable when its flags hold `VIRTQ_DESC_F_WRITE`. -/
def virtq_desc.device_writable (desc : virtq_desc) : Bool :=
  desc.flags &&& VIRTQ_DESC_F_WRITE != 0

/-- Modelled from the spec: `add_avail_buf(id)` "writes id into
avail_ring.ring[avail_ring.index mod N], increments avail_ring.index (wrapping)"
(`virtq_add_avail_buf` is not under `src/`; section 4.2).  The index is a 16-bit
field. -/
def virtq_add_avail_buf (K : Consts) (vq : virtq) (id : Nat) : virtq :=
  { vq with
    avail_ring := Function.update vq.avail_ring (vq.avail_idx % K.VIRTQ_NUM_DESC) id
    avail_idx := (vq.avail_idx + 1) % U16_MOD }

/-- Modelled from the spec: `used_has_buf() -> bool`: "used_ring.index !=
last_seen_used_index" (`virtq_used_has_buf` is not under `src/`; section 4.2). -/
def virtq_used_has_buf (vq : virtq) : Bool := vq.used_idx != vq.last_used_idx

/-- Modelled from the spec: `get_used_buf_id()` "reads
used_ring.ring[last_seen_used_index mod N], advances last_seen_used_index"
(`virtq_get_used_buf_id` is not under `src/`; section 4.2).  The index is a
16-bit field. -/
def virtq_get_used_buf_id (K : Consts) (vq : virtq) : Nat × virtq :=
  (vq.used_ring (vq.last_used_idx % K.VIRTQ_NUM_DESC),
    { vq with last_used_idx := (vq.last_used_idx + 1) % U16_MOD })

/-- Modelled from the spec: `put_free_desc(id)` "pushes id back onto free_list"
(`virtq_put_free_desc` is not under `src/`; section 4.2). -/
def virtq_put_free_desc (vq : virtq) (id : Nat) : virtq :=
  { vq with free_list := id :: vq.free_list }

/-- Number of used entries the driver has not consumed yet: the distance from
`last_used_idx` to `used_idx` in 16-bit arithmetic. -/
def virtq_used_pending (vq : virtq) : Nat :=
  (vq.used_idx % U16_MOD + U16_MOD - vq.last_used_idx % U16_MOD) % U16_MOD

/-! ## Console (`virtio_console.c`) -/

/-- Modelled from the spec: the configuration space `{ cols, rows, max_nr_ports,
emerg_wr }` (`virtio_console.h` is not under `src/`; section 3). -/
structure virtio_console_config where
  cols : Nat
  rows : Nat
  max_nr_ports : Nat
  emerg_wr : Nat
deriving DecidableEq, Repr, Inhabited

/-- Modelled from the spec: the console `{ ready, device_id, mmio,
negotiated_feature_bits, config_space, vqs }` (`struct virtio_console` of
`virtio_console.h` is not under `src/`; section 3).  `mmio_base` is the address
held by the `mmio` pointer; `vqs` is the array of virtqueues. -/
structure virtio_console where
  ready : Bool
  device_id : Nat
  mmio_base : Nat
  negotiated_feature_bits : Nat
  config_space : virtio_console_config
  vqs : Nat → virtq

/-- Everything the driver can read or change: the console structure, the bytes
of memory, the state of the device behind the register block, and the record of
the register accesses made so far, most recent first. -/
structure World (σ : Type) where
  console : virtio_console
  mem : Nat → Nat
  dev : σ
  log : List Access

/-- Read of a 32-bit register. -/
def mmio_read {σ : Type} (D : Device σ) (r : Reg) (w : World σ) : Nat × World σ :=
  let v := (D.read r w.dev).1 % U32_MOD
  (v, { w with dev := (D.read r w.dev).2, log := Access.rd r v :: w.log })

/-- Write of a 32-bit register. -/
def mmio_write {σ : Type} (D : Device σ) (r : Reg) (v : Nat) (w : World σ) : World σ :=
  { w with dev := D.write r (v % U32_MOD) w.dev, log := Access.wr r (v % U32_MOD) :: w.log }

/-- The C statement `r |= m` on a 32-bit register: one read, one write. -/
def mmio_or {σ : Type} (D : Device σ) (r : Reg) (m : Nat) (w : World σ) : World σ :=
  let v := (D.read r w.dev).1 % U32_MOD
  { w with dev := D.write r ((v ||| m) % U32_MOD) (D.read r w.dev).2,
           log := Access.orw r m v :: w.log }

/-- Modelled from the spec: `notify(queue_index)` "writes the queue index to the
notify register" (`virtio_mmio_queue_notify` of `virtio_mmio.h` is not under
`src/`; section 4.3). -/
def virtio_mmio_queue_notify {σ : Type} (D : Device σ) (queue_index : Nat) (w : World σ) :
    World σ :=
  mmio_write D Reg.QueueNotify queue_index w

/-- Store `vq` into `console->vqs[i]`. -/
def set_vq {σ : Type} (w : World σ) (i : Nat) (vq : virtq) : World σ :=
  { w with console := { w.console with vqs := Function.update w.console.vqs i vq } }

/-- Store into `console->config_space`. -/
def set_config_space {σ : Type} (w : World σ) (c : virtio_console_config) : World σ :=
  { w with console := { w.console with config_space := c } }

/-- Store into `console->negotiated_feature_bits`. -/
def set_negotiated_feature_bits {σ : Type} (w : World σ) (bits : Nat) : World σ :=
  { w with console := { w.console with negotiated_feature_bits := bits } }

/-- Body of the feature negotiation loop of `virtio_console_mmio_init` (lines
90-94) for feature word `i`. -/
def negotiate_word {σ : Type} (K : Consts) (D : Device σ) (i : Nat) (w : World σ) : World σ :=
  let w := mmio_write D Reg.DeviceFeaturesSel i w
  let w := mmio_write D Reg.DriverFeaturesSel i w
  let device_features := mmio_read D Reg.DeviceFeatures w
  let acked_features := device_features.1 &&& (K.VIRTIO_CONSOLE_FEATURES >>> (i * 32))
  let w := mmio_write D Reg.DriverFeatures acked_features device_features.2
  set_negotiated_feature_bits w
    (w.console.negotiated_feature_bits ||| ((acked_features <<< (i * 32)) % U64_MOD))

/-- The feature negotiation loop of `virtio_console_mmio_init` (lines 88-95):
`n` iterations are left, the next one is for feature word `i`. -/
def negotiate_features {σ : Type} (K : Consts) (D : Device σ) :
    Nat → Nat → World σ → World σ
  | 0, _, w => w
  | n + 1, i, w => negotiate_features K D n (i + 1) (negotiate_word K D i w)

/-- Body of the queue activation loop of `virtio_console_mmio_init` (lines
120-144) for queue `vq_id`.  The result is `false` when the body left the
function with `return false`. -/
def activate_queue {σ : Type} (K : Consts) (D : Device σ) (vq_id : Nat) (w : World σ) :
    Bool × World σ :=
  let w := mmio_write D Reg.QueueSel vq_id w
  let ready := mmio_read D Reg.QueueReady w
  if ready.1 ≠ 0 then
    (false, mmio_or D Reg.Status FAILED ready.2)
  else
    let queue_num_max := mmio_read D Reg.QueueNumMax ready.2
    if queue_num_max.1 = 0 then
      (false, mmio_or D Reg.Status FAILED queue_num_max.2)
    else
      let w := queue_num_max.2
      let vq := w.console.vqs vq_id
      let w := mmio_write D Reg.QueueDescLow (vq.desc % U64_MOD &&& 0xFFFFFFFF) w
      let w := mmio_write D Reg.QueueDescHigh (((vq.desc % U64_MOD) >>> 32) &&& 0xFFFFFFFF) w
      let w := mmio_write D Reg.QueueDriverLow (vq.avail % U64_MOD &&& 0xFFFFFFFF) w
      let w := mmio_write D Reg.QueueDriverHigh (((vq.avail % U64_MOD) >>> 32) &&& 0xFFFFFFFF) w
      let w := mmio_write D Reg.QueueDeviceLow (vq.used % U64_MOD &&& 0xFFFFFFFF) w
      let w := mmio_write D Reg.QueueDeviceHigh (((vq.used % U64_MOD) >>> 32) &&& 0xFFFFFFFF) w
      (true, mmio_write D Reg.QueueReady 1 w)

/-- The queue activation loop of `virtio_console_mmio_init` (lines 118-145): `n`
iterations are left, the next one is for queue `vq_id`.  The result is `false`
when the loop left the function with `return false`. -/
def activate_queues {σ : Type} (K : Consts) (D : Device σ) :
    Nat → Nat → World σ → Bool × World σ
  | 0, _, w => (true, w)
  | n + 1, vq_id, w =>
    let r := activate_queue K D vq_id w
    if r.1 = false then r else activate_queues K D n (vq_id + 1) r.2

/-- The C function `virtio_console_mmio_init`. -/
def virtio_console_mmio_init {σ : Type} (K : Consts) (D : Device σ) (w : World σ) :
    Bool × World σ :=
  let magic := mmio_read D Reg.MagicValue w
  if magic.1 ≠ K.VIRTIO_MAGIC_VALUE then
    (false, mmio_or D Reg.Status FAILED magic.2)
  else
  let version := mmio_read D Reg.Version magic.2
  if version.1 ≠ K.VIRTIO_VERSION_NO_LEGACY then
    (false, mmio_or D Reg.Status FAILED version.2)
  else
  let device_id := mmio_read D Reg.DeviceID version.2
  if device_id.1 ≠ device_id.2.console.device_id then
    (false, mmio_or D Reg.Status FAILED device_id.2)
  else
  let w := mmio_write D Reg.Status RESET device_id.2
  let w := mmio_or D Reg.Status ACKNOWLEDGE w
  let w := mmio_or D Reg.Status DRIVER w
  let status := mmio_read D Reg.Status w
  if status.1 ≠ (RESET ||| ACKNOWLEDGE ||| DRIVER) then
    (false, mmio_or D Reg.Status FAILED status.2)
  else
  let w := negotiate_features K D K.VIRTIO_MMIO_FEATURE_SEL_SIZE 0 status.2
  if w.console.negotiated_feature_bits ≠ K.VIRTIO_CONSOLE_FEATURES then
    (false, mmio_or D Reg.Status FAILED w)
  else
  let cols := mmio_read D Reg.Config w
  let rows := mmio_read D Reg.Config cols.2
  let max_nr_ports := mmio_read D Reg.ConfigMaxNrPorts rows.2
  let emerg_wr := mmio_read D Reg.ConfigEmergWr max_nr_ports.2
  let w := set_config_space emerg_wr.2
    { cols := cols.1 &&& 0xFFFF
      rows := (rows.1 >>> 16) &&& 0xFFFF
      max_nr_ports := max_nr_ports.1
      emerg_wr := emerg_wr.1 }
  let w := mmio_or D Reg.Status FEATURES_OK w
  let status := mmio_read D Reg.Status w
  if status.1 ≠ (RESET ||| ACKNOWLEDGE ||| DRIVER ||| FEATURES_OK) then
    (false, mmio_or D Reg.Status FAILED status.2)
  else
  let queues := activate_queues K D K.VIRTIO_CONSOLE_NUM_VQS 0 status.2
  if queues.1 = false then
    (false, queues.2)
  else
  let w := mmio_or D Reg.Status DRIVER_OK queues.2
  let status := mmio_read D Reg.Status w
  if status.1 ≠ (RESET ||| ACKNOWLEDGE ||| DRIVER ||| FEATURES_OK ||| DRIVER_OK) then
    (false, mmio_or D Reg.Status FAILED status.2)
  else
    (true, status.2)

/-- The receive pre-fill loop of `virtio_console_init` (lines 21-43), run on the
receive virtqueue.  `fuel` bounds the number of iterations; every iteration pops
one id from the free list, so the length of the free list is enough
(`rx_prefill_loop_fuel`). -/
def rx_prefill_loop (K : Consts) : Nat → virtq → virtq
  | 0, vq => vq
  | fuel + 1, vq =>
    if !virtq_has_free_slots vq then vq
    else
      -- Get the next free descriptor index
      match virtq_get_free_desc_id vq with
      | none => vq
      | some (desc_id, vq) =>
        -- Get the descriptor
        let desc := virtq_get_desc_by_id vq desc_id
        -- Allocate memory for the I/O buffer from the memory pool
        let alloc := virtio_memory_pool_alloc vq.pool K.VIRTIO_CONSOLE_RX_BUFFER_SIZE
        match alloc.1 with
        | none => { vq with pool := alloc.2 }
        | some io_buffer =>
          let vq := { vq with pool := alloc.2 }
          -- Initialize the descriptor
          let desc := virtq_desc_init desc io_buffer K.VIRTIO_CONSOLE_RX_BUFFER_SIZE
          -- Set the descriptor as write only
          let desc := virtq_desc_set_write_only desc
          let vq := virtq_set_desc vq desc_id desc
          -- Add the buffer to the available ring
          let vq := virtq_add_avail_buf K vq desc_id
          rx_prefill_loop K fuel vq

/-- Lines 11-43 of `virtio_console_init`: the part of the function that precedes
the call of `virtio_console_mmio_init`. -/
def virtio_console_init_queues {σ : Type} (K : Consts) (shmem_base : Nat) (mmio_base : Nat)
    (w : World σ) : World σ :=
  let console := { w.console with
    ready := false
    device_id := K.VIRTIO_CONSOLE_DEVICE_ID
    mmio_base := mmio_base
    negotiated_feature_bits := 0 }
  let w := { w with console := console }
  -- Initialize the receive and transmit virtqueues
  let w := set_vq w K.VIRTIO_CONSOLE_RX_VQ_IDX
    (virtq_init K K.VIRTIO_CONSOLE_RX_VQ_IDX shmem_base)
  let w := set_vq w K.VIRTIO_CONSOLE_TX_VQ_IDX
    (virtq_init K K.VIRTIO_CONSOLE_TX_VQ_IDX (shmem_base + K.VIRTQ_SIZE_TOTAL))
  -- Add buffers to the receive queue
  let rx := w.console.vqs K.VIRTIO_CONSOLE_RX_VQ_IDX
  set_vq w K.VIRTIO_CONSOLE_RX_VQ_IDX (rx_prefill_loop K rx.free_list.length rx)

/-- The C function `virtio_console_init`.  `shmem_base` and `mmio_base` are the
two addresses passed in; the device behind `mmio_base` is `D`, in the state
`w.dev`. -/
def virtio_console_init {σ : Type} (K : Consts) (D : Device σ) (shmem_base : Nat)
    (mmio_base : Nat) (w : World σ) : Bool × World σ :=
  let w := virtio_console_init_queues K shmem_base mmio_base w
  -- Initialize the VirtIO MMIO transport
  let ret := virtio_console_mmio_init K D w
  -- Set the device as ready
  (ret.1, { ret.2 with console := { ret.2.console with ready := true } })

/-- The C library function `strcpy(dst, src)`, where `data` is the list of the
bytes of the string `src` that precede its terminating NUL: the bytes of `data`
are stored from `dst` on, followed by a NUL. -/
def strcpy (mem : Nat → Nat) (dst : Nat) (data : List Nat) : Nat → Nat :=
  fun x =>
    if dst ≤ x ∧ x < dst + data.length then data.getD (x - dst) 0
    else if x = dst + data.length then 0
    else mem x

/-- The C library function `strlen(s)` on a string held in memory, scanning at
most `limit` bytes: the number of bytes before the first NUL.  A string with no
NUL among its first `limit` bytes is reported as of length `limit`. -/
def c_strlen (mem : Nat → Nat) : Nat → Nat → Nat
  | _, 0 => 0
  | s, limit + 1 => if mem s = 0 then 0 else c_strlen mem (s + 1) limit + 1

/-- The bytes of the string at address `s`, without the terminating NUL. -/
def c_string (mem : Nat → Nat) (s : Nat) (limit : Nat) : List Nat :=
  (List.range (c_strlen mem s limit)).map (fun i => mem (s + i))

/-- The C library function `strcat(dst, src)` on strings held in memory: the
bytes of the string at `src` are stored after the string at `dst`, followed by a
NUL. -/
def strcat (mem : Nat → Nat) (dst : Nat) (src : Nat) (limit : Nat) : Nat → Nat :=
  strcpy mem (dst + c_strlen mem dst limit) (c_string mem src limit)

/-- The C function `virtio_console_transmit`.  `data` is the list of the bytes of
the string passed in that precede its terminating NUL.  `none` is the undefined
outcome of `virtq_get_free_desc_id` on an empty free list. -/
def virtio_console_transmit {σ : Type} (K : Consts) (D : Device σ) (data : List Nat)
    (w : World σ) : Option (World σ) :=
  let data_len : Int := int_of_size data.length
  if !w.console.ready then
    some w
  else if data_len = 0 then
    some w
  else
    -- Extract the queue that will be used (transmit virtqueue)
    let vq := w.console.vqs K.VIRTIO_CONSOLE_TX_VQ_IDX
    -- Get the next free descriptor index
    match virtq_get_free_desc_id vq with
    | none => none
    | some (desc_id, vq) =>
      -- Get the descriptor
      let desc := virtq_get_desc_by_id vq desc_id
      -- Allocate memory for the I/O buffer from the memory pool
      let alloc := virtio_memory_pool_alloc vq.pool (ulong_of_int data_len)
      match alloc.1 with
      | none => some (set_vq w K.VIRTIO_CONSOLE_TX_VQ_IDX { vq with pool := alloc.2 })
      | some io_buffer =>
        let vq := { vq with pool := alloc.2 }
        -- Copy the data to the I/O buffer
        let w := { w with mem := strcpy w.mem io_buffer data }
        -- Initialize the descriptor
        let desc := virtq_desc_init desc io_buffer (u32_of_int data_len)
        -- Set the descriptor as read only
        let desc := virtq_desc_set_read_only desc
        let vq := virtq_set_desc vq desc_id desc
        -- Add the buffer to the available ring
        let vq := virtq_add_avail_buf K vq desc_id
        let w := set_vq w K.VIRTIO_CONSOLE_TX_VQ_IDX vq
        -- Notify the backend device
        some (virtio_mmio_queue_notify D vq.queue_index w)

/-- Conversion of a 64-bit descriptor address to a `char *`: address 0 is
`NULL`. -/
def ptr_of_addr (a : Nat) : Option Nat := if a = 0 then none else some a

/-- The inner `while (virtq_used_has_buf(vq))` loop of `virtio_console_receive`
(lines 234-266) on the queue `vq` of index `vq_id`.  `fuel` bounds the number of
iterations; every iteration advances `last_used_idx` by one towards `used_idx`,
so `virtq_used_pending vq` is enough.  The state is the queue, the memory and
`received_msg`. -/
def drain_used (K : Consts) (vq_id : Nat) :
    Nat → virtq → (Nat → Nat) → Option Nat → virtq × (Nat → Nat) × Option Nat
  | 0, vq, mem, received_msg => (vq, mem, received_msg)
  | fuel + 1, vq, mem, received_msg =>
    if !virtq_used_has_buf vq then (vq, mem, received_msg)
    else
      -- Get the descriptor ID that the next used ring points to
      let used := virtq_get_used_buf_id K vq
      -- Get the descriptor
      let desc := virtq_get_desc_by_id used.2 used.1
      -- Put the buffer back into the free list
      let vq := virtq_put_free_desc used.2 used.1
      if vq_id = K.VIRTIO_CONSOLE_RX_VQ_IDX then
        let msg := desc.addr
        -- Append the msg to the output buffer
        match received_msg with
        | none => drain_used K vq_id fuel vq mem (ptr_of_addr msg)
        | some r => drain_used K vq_id fuel vq (strcat mem r msg vq.pool.size) (some r)
      else
        drain_used K vq_id fuel vq mem received_msg

/-- The `for` loop over the virtqueues of `virtio_console_receive` (lines
224-267): `n` iterations are left, the next one is for queue `vq_id`. -/
def receive_queues (K : Consts) :
    Nat → Nat → virtio_console → (Nat → Nat) → Option Nat →
      virtio_console × (Nat → Nat) × Option Nat
  | 0, _, console, mem, received_msg => (console, mem, received_msg)
  | n + 1, vq_id, console, mem, received_msg =>
    -- Extract the queue that will to test
    let vq := console.vqs vq_id
    if !virtq_used_has_buf vq then
      receive_queues K n (vq_id + 1) console mem received_msg
    else
      let r := drain_used K vq_id (virtq_used_pending vq) vq mem received_msg
      receive_queues K n (vq_id + 1)
        { console with vqs := Function.update console.vqs vq_id r.1 } r.2.1 r.2.2

/-- The C function `virtio_console_receive`: the returned pointer (`none` for
`NULL`) and the state after the call. -/
def virtio_console_receive {σ : Type} (K : Consts) (D : Device σ) (w : World σ) :
    Option Nat × World σ :=
  if !w.console.ready then
    (none, w)
  else
    -- Read and acknowledge interrupts
    let interrupt_status := mmio_read D Reg.InterruptStatus w
    let w := mmio_write D Reg.InterruptACK interrupt_status.1 interrupt_status.2
    if interrupt_status.1 &&& K.VIRTIO_MMIO_INT_CONFIG ≠ 0 then
      (none, w)
    else
      -- Check if there are used buffers for all the virtqueues
      let r := receive_queues K K.VIRTIO_CONSOLE_NUM_VQS 0 w.console w.mem none
      (r.2.2, { w with console := r.1, mem := r.2.1 })

/-! ## A simulated device -/

/-- State of a simulated device (the test device of section 8 of the
specification): the read-only identification registers, the offered feature
set, the status register, the two selectors, and per queue the ready flag and
the maximum size. -/
structure SimDev where
  magic : Nat
  version : Nat
  device_id : Nat
  features : Nat
  status : Nat
  device_features_sel : Nat
  queue_sel : Nat
  queue_ready : Nat → Nat
  queue_num_max : Nat → Nat
  interrupt_status : Nat
  config : Nat
  config_max_nr_ports : Nat
  config_emerg_wr : Nat

/-- Behaviour of the simulated device: it retains the status written to it,
offers word `DeviceFeaturesSel` of its feature set, and reports the ready flag
and maximum size of the selected queue. -/
def sim_device : Device SimDev where
  read r s :=
    match r with
    | Reg.MagicValue => (s.magic, s)
    | Reg.Version => (s.version, s)
    | Reg.DeviceID => (s.device_id, s)
    | Reg.DeviceFeatures => ((s.features >>> (s.device_features_sel * 32)) % U32_MOD, s)
    | Reg.QueueNumMax => (s.queue_num_max s.queue_sel, s)
    | Reg.QueueReady => (s.queue_ready s.queue_sel, s)
    | Reg.InterruptStatus => (s.interrupt_status, s)
    | Reg.Status => (s.status, s)
    | Reg.Config => (s.config, s)
    | Reg.ConfigMaxNrPorts => (s.config_max_nr_ports, s)
    | Reg.ConfigEmergWr => (s.config_emerg_wr, s)
    | _ => (0, s)
  write r v s :=
    match r with
    | Reg.Status => { s with status := v }
    | Reg.DeviceFeaturesSel => { s with device_features_sel := v }
    | Reg.QueueSel => { s with queue_sel := v }
    | Reg.QueueReady => { s with queue_ready := Function.update s.queue_ready s.queue_sel v }
    | Reg.InterruptACK =>
      { s with interrupt_status := s.interrupt_status - (s.interrupt_status &&& v) }
    | _ => s

/-- The identification registers of the simulated device hold the values the
driver expects. -/
def sim_probe_ok (K : Consts) (s : SimDev) : Prop :=
  s.magic % U32_MOD = K.VIRTIO_MAGIC_VALUE ∧
  s.version % U32_MOD = K.VIRTIO_VERSION_NO_LEGACY ∧
  s.device_id % U32_MOD = K.VIRTIO_CONSOLE_DEVICE_ID

/-- Every queue of the simulated device from `q` on reports `QueueReady == 0` and
`QueueNumMax != 0`. -/
def sim_queues_ok (K : Consts) (s : SimDev) : Prop :=
  ∀ q, q < K.VIRTIO_CONSOLE_NUM_VQS →
    s.queue_ready q % U32_MOD = 0 ∧ s.queue_num_max q % U32_MOD ≠ 0

/-- The driver ORs the FAILED bit into the status register in this access. -/
def Access.sets_failed : Access → Bool
  | Access.wr Reg.Status v => v &&& FAILED != 0
  | Access.orw Reg.Status m _ => m &&& FAILED != 0
  | _ => false

/-- The driver ORs the FEATURES_OK bit into the status register in this access. -/
def Access.sets_features_ok : Access → Bool
  | Access.wr Reg.Status v => v &&& FEATURES_OK != 0
  | Access.orw Reg.Status m _ => m &&& FEATURES_OK != 0
  | _ => false

/-- An example platform: the constants of VirtIO 1.x for a console with two
queues of four descriptors and receive buffers of 64 bytes. -/
def example_consts : Consts :=
  { VIRTIO_MAGIC_VALUE := 0x74726976
    VIRTIO_VERSION_NO_LEGACY := 2
    VIRTIO_CONSOLE_DEVICE_ID := 3
    VIRTIO_CONSOLE_FEATURES := 2 ^ 32
    VIRTIO_MMIO_FEATURE_SEL_SIZE := 2
    VIRTIO_MMIO_INT_CONFIG := 2
    VIRTIO_CONSOLE_NUM_VQS := 2
    VIRTIO_CONSOLE_RX_VQ_IDX := 0
    VIRTIO_CONSOLE_TX_VQ_IDX := 1
    VIRTIO_CONSOLE_RX_BUFFER_SIZE := 64
    VIRTQ_SIZE_TOTAL := 4608
    VIRTQ_NUM_DESC := 4
    VIRTQ_AVAIL_OFFSET := 128
    VIRTQ_USED_OFFSET := 256
    VIRTQ_POOL_OFFSET := 512 }

/-- An example simulated device for `example_consts`, offering the feature set
`features`, before the handshake. -/
def example_sim (features : Nat) : SimDev :=
  { magic := 0x74726976
    version := 2
    device_id := 3
    features := features
    status := 0
    device_features_sel := 0
    queue_sel := 0
    queue_ready := fun _ => 0
    queue_num_max := fun _ => 4
    interrupt_status := 0
    config := 0x00180050
    config_max_nr_ports := 1
    config_emerg_wr := 0 }

/-- An example console structure before `virtio_console_init`. -/
def example_console : virtio_console :=
  { ready := false
    device_id := 0
    mmio_base := 0
    negotiated_feature_bits := 0
    config_space := default
    vqs := fun _ => virtq_init example_consts 0 0 }

/-- An example state: the example console, zeroed memory, the example device
offering `features`, and no register access made yet. -/
def example_world (features : Nat) : World SimDev :=
  { console := example_console
    mem := fun _ => 0
    dev := example_sim features
    log := [] }

/-! ## Predicates on the log of register accesses, and further examples -/

/-- The register an access goes to. -/
def Access.reg : Access → Reg
  | Access.rd r _ => r
  | Access.wr r _ => r
  | Access.orw r _ _ => r

/-- The log `l` extends the log `l0` by accesses that all satisfy `P`. -/
def LogExt (P : Access → Prop) (l0 l : List Access) : Prop :=
  ∃ evs, l = evs ++ l0 ∧ ∀ e ∈ evs, P e

/-- An access that does not touch the status register. -/
def not_status (e : Access) : Prop := e.reg ≠ Reg.Status

/-- An access in which the driver does not OR the FAILED bit into the status. -/
def no_failed (e : Access) : Prop := e.sets_failed = false

/-- Outcome of a handshake step that may fail, relative to the log `l0` it
started from: on failure the most recent access is `Status |= FAILED`, on
success no access since `l0` sets FAILED. -/
def FailedLast {σ : Type} (l0 : List Access) (r : Bool × World σ) : Prop :=
  ∃ evs, r.2.log = evs ++ l0 ∧
    (r.1 = false → ∃ v rest, evs = Access.orw Reg.Status FAILED v :: rest) ∧
    (r.1 = true → ∀ e ∈ evs, e.sets_failed = false)

/-- An example state of a ready console: both queues as `virtq_init` leaves
them, the transmit queue over the region at `0x50001200`. -/
def example_ready_world : World SimDev :=
  { console :=
      { ready := true
        device_id := 3
        mmio_base := 0xa003e00
        negotiated_feature_bits := 2 ^ 32
        config_space := default
        vqs := fun i =>
          if i = 0 then virtq_init example_consts 0 0x50000000
          else virtq_init example_consts 1 0x50001200 }
    mem := fun _ => 0
    dev := example_sim (2 ^ 32)
    log := [] }

/-- The bytes of the string "Hello". -/
def example_hello : List Nat := [72, 101, 108, 108, 111]

/-- The parts of the state that feature negotiation against the simulated device
leaves alone: the status, the offered features and the queue registers of the
device, the virtqueues and the memory. -/
def SimFrame (w w' : World SimDev) : Prop :=
  w'.dev.status = w.dev.status ∧ w'.dev.features = w.dev.features ∧
  w'.dev.queue_ready = w.dev.queue_ready ∧ w'.dev.queue_num_max = w.dev.queue_num_max ∧
  w'.console.vqs = w.console.vqs ∧ w'.mem = w.mem

/-- An access in which the driver does not OR the FEATURES_OK bit into the
status. -/
def no_features_ok (e : Access) : Prop := e.sets_features_ok = false

/-- Number of descriptors published to the avail ring and not yet reclaimed from
the used ring: the distance from `last_used_idx` to `avail_idx` in 16-bit
arithmetic. -/
def virtq_in_flight (vq : virtq) : Nat :=
  (vq.avail_idx % U16_MOD + U16_MOD - vq.last_used_idx % U16_MOD) % U16_MOD

/-- The device marks descriptor `id` used: it writes `id` into
`used_ring.ring[used_ring.index mod N]` and increments `used_ring.index`, a
16-bit field (specification, section 3: the used ring is written by the device
only). -/
def device_mark_used (K : Consts) (vq : virtq) (id : Nat) : virtq :=
  { vq with
    used_ring := Function.update vq.used_ring (vq.used_idx % K.VIRTQ_NUM_DESC) id
    used_idx := (vq.used_idx + 1) % U16_MOD }

/-- The example constants with a region of 520 bytes per queue, which leaves a
pool of 8 bytes. -/
def small_pool_consts : Consts :=
  { example_consts with VIRTQ_SIZE_TOTAL := 520 }

/-- The state after `virtio_console_init` with `small_pool_consts` against the
example device. -/
def small_pool_world : World SimDev :=
  (virtio_console_init small_pool_consts sim_device 0x50000000 0xa003e00
    (example_world (2 ^ 32))).2

/-- The bytes of the string "Hello, world". -/
def example_hello_world : List Nat := [72, 101, 108, 108, 111, 44, 32, 119, 111, 114, 108, 100]

/-- The example ready console with no free descriptor left on the transmit
queue. -/
def example_full_world : World SimDev :=
  set_vq example_ready_world 1 { example_ready_world.console.vqs 1 with free_list := [] }

/-- The example ready console over a memory whose bytes all hold 255. -/
def example_dirty_world : World SimDev :=
  { example_ready_world with mem := fun _ => 255 }

/-- The example ready console after the device has marked descriptor 3 of the
receive queue used and raised both the used-buffer and the configuration-change
interrupt. -/
def example_config_change_world : World SimDev :=
  { set_vq example_ready_world 0
      (device_mark_used example_consts (example_ready_world.console.vqs 0) 3) with
    dev := { example_sim (2 ^ 32) with interrupt_status := 3 } }

/-- The access is a read of the device configuration space. -/
def Access.reads_config : Access → Bool
  | Access.rd Reg.Config _ => true
  | Access.rd Reg.ConfigMaxNrPorts _ => true
  | Access.rd Reg.ConfigEmergWr _ => true
  | _ => false

/-- An access that neither reads the configuration space nor ORs FEATURES_OK into
the status. -/
def before_config (e : Access) : Prop :=
  e.reads_config = false ∧ e.sets_features_ok = false

/-- An access that does not read the configuration space. -/
def no_config_read (e : Access) : Prop := e.reads_config = false

/-- A device like `sim_device` that never retains the FEATURES_OK bit written to
its status register. -/
def forgetful_device : Device SimDev where
  read := sim_device.read
  write r v s :=
    match r with
    | Reg.Status => { s with status := v - (v &&& FEATURES_OK) }
    | _ => sim_device.write r v s

/-- The outcomes of the handshake as to the configuration space, relative to the
log `l0` it started from: either no access read the configuration space or set
FEATURES_OK, or the four configuration reads directly precede `Status |=
FEATURES_OK` and are the only ones, and the negotiated features are the desired
set. -/
def ConfigOrder {σ : Type} (K : Consts) (l0 : List Access) (r : Bool × World σ) : Prop :=
  (∃ evs, r.2.log = evs ++ l0 ∧
    ∀ e ∈ evs, e.reads_config = false ∧ e.sets_features_ok = false) ∨
  (∃ (pre post : List Access) (v emerg_wr max_nr_ports rows cols : Nat),
    r.2.log = post ++ (Access.orw Reg.Status FEATURES_OK v ::
      Access.rd Reg.ConfigEmergWr emerg_wr ::
      Access.rd Reg.ConfigMaxNrPorts max_nr_ports ::
      Access.rd Reg.Config rows ::
      Access.rd Reg.Config cols :: pre) ++ l0 ∧
    (∀ e ∈ pre, e.reads_config = false ∧ e.sets_features_ok = false) ∧
    (∀ e ∈ post, e.reads_config = false) ∧
    r.2.console.negotiated_feature_bits = K.VIRTIO_CONSOLE_FEATURES)

/-- The state in which `virtio_console_receive` is called after the device has
marked descriptor `id` used on queue `q` and moved to the state `s`. -/
def device_returns {σ : Type} (K : Consts) (w : World σ) (q id : Nat) (s : σ) : World σ :=
  set_vq { w with dev := s } q (device_mark_used K (w.console.vqs q) id)

/-- The example ready console with one free descriptor on the transmit queue. -/
def example_one_free_world : World SimDev :=
  set_vq example_ready_world 1 { example_ready_world.console.vqs 1 with free_list := [3] }

/-- The memory holds at address `a` the string of the bytes `s`, none of them
NUL, followed by its terminating NUL. -/
def holds_string (mem : Nat → Nat) (a : Nat) (s : List Nat) : Prop :=
  (∀ i, i < s.length → mem (a + i) = s.getD i 0) ∧ mem (a + s.length) = 0 ∧ ∀ b ∈ s, b ≠ 0

instance (mem : Nat → Nat) (a : Nat) (s : List Nat) : Decidable (holds_string mem a s) := by
  unfold holds_string
  infer_instance

/-- The device fills buffers: for each pair of `fills`, an address and a payload,
it stores the bytes of the payload from the address on, followed by a NUL. -/
def device_fill (mem : Nat → Nat) (fills : List (Nat × List Nat)) : Nat → Nat :=
  fills.foldl (fun m f => strcpy m f.1 f.2) mem

/-- A payload of 60 bytes, each the letter a. -/
def example_long_payload : List Nat := List.replicate 60 97

/-- The console that `virtio_console_init` leaves with the example constants (4
receive buffers of 64 bytes at `0x50000200`, `0x50000240`, `0x50000280` and
`0x500002c0` for the descriptors 3, 2, 1 and 0), after the device has filled
buffers as `fills` says, marked the descriptors of `used` used on the receive
queue in that order, and raised the used-buffer interrupt. -/
def example_filled_world (fills : List (Nat × List Nat)) (used : List Nat) : World SimDev :=
  let w0 := (virtio_console_init example_consts sim_device 0x50000000 0xa003e00
    (example_world (2 ^ 32))).2
  { set_vq w0 0 (used.foldl (device_mark_used example_consts) (w0.console.vqs 0)) with
    mem := device_fill w0.mem fills
    dev := { w0.dev with interrupt_status := 1 } }

/-- The device has filled the buffer of descriptor 3 with 60 letters a, that of
descriptor 1 with "defgh" and that of descriptor 2 with "xy", and has marked the
descriptors of `used` used. -/
def example_overflow_world (used : List Nat) : World SimDev :=
  example_filled_world
    [(0x50000200, example_long_payload), (0x50000280, [100, 101, 102, 103, 104]),
      (0x50000240, [120, 121])] used

/-- The used ring of `vq` holds the ids `ids` as its pending entries, the first at
`last_used_idx`: the indices are 16-bit values, `used_idx` is `ids.length` ahead
of `last_used_idx`, and entry `j` of the pending ones is `ids[j]`. -/
def used_ring_holds (K : Consts) (vq : virtq) (ids : List Nat) : Prop :=
  vq.last_used_idx < U16_MOD ∧ ids.length < U16_MOD ∧
  vq.used_idx = (vq.last_used_idx + ids.length) % U16_MOD ∧
  ∀ j, j < ids.length →
    vq.used_ring (((vq.last_used_idx + j) % U16_MOD) % K.VIRTQ_NUM_DESC) = ids.getD j 0

instance (K : Consts) (vq : virtq) (ids : List Nat) : Decidable (used_ring_holds K vq ids) := by
  unfold used_ring_holds
  infer_instance

/-- The access goes to one of the registers of the queue activation: `QueueSel`,
`QueueNumMax`, `QueueReady` or one of the six address registers. -/
def Access.queue_access (e : Access) : Bool :=
  match e.reg with
  | Reg.QueueSel => true
  | Reg.QueueNumMax => true
  | Reg.QueueReady => true
  | Reg.QueueDescLow => true
  | Reg.QueueDescHigh => true
  | Reg.QueueDriverLow => true
  | Reg.QueueDriverHigh => true
  | Reg.QueueDeviceLow => true
  | Reg.QueueDeviceHigh => true
  | _ => false

/-- An access that goes to none of the registers of the queue activation. -/
def no_queue_access (e : Access) : Prop := e.queue_access = false

/-- The accesses `seg`, newest first, are an activation of queue `q`, whose
descriptor table, avail ring and used ring are those of `vq`: `q` is written to
`QueueSel`, `QueueReady` reads 0, `QueueNumMax` reads a non-zero value, the six
address registers are written, each pair of words below `2^32` and recombining
as `(High << 32) | Low` to the 64-bit address of its area, and `QueueReady = 1`
is written last. -/
def queue_activated (q : Nat) (vq : virtq) (seg : List Access) : Prop :=
  ∃ num_max desc_low desc_high avail_low avail_high used_low used_high : Nat,
    num_max ≠ 0 ∧
    seg =
      [Access.wr Reg.QueueReady 1,
        Access.wr Reg.QueueDeviceHigh used_high,
        Access.wr Reg.QueueDeviceLow used_low,
        Access.wr Reg.QueueDriverHigh avail_high,
        Access.wr Reg.QueueDriverLow avail_low,
        Access.wr Reg.QueueDescHigh desc_high,
        Access.wr Reg.QueueDescLow desc_low,
        Access.rd Reg.QueueNumMax num_max,
        Access.rd Reg.QueueReady 0,
        Access.wr Reg.QueueSel (q % U32_MOD)] ∧
    ((desc_high <<< 32) ||| desc_low = vq.desc % U64_MOD ∧
      desc_low < U32_MOD ∧ desc_high < U32_MOD) ∧
    ((avail_high <<< 32) ||| avail_low = vq.avail % U64_MOD ∧
      avail_low < U32_MOD ∧ avail_high < U32_MOD) ∧
    ((used_high <<< 32) ||| used_low = vq.used % U64_MOD ∧
      used_low < U32_MOD ∧ used_high < U32_MOD)

/-- The accesses `seg`, newest first, are a refused activation of queue `q`: `q`
is written to `QueueSel`, then either `QueueReady` reads a non-zero value, or it
reads 0 and `QueueNumMax` reads 0; the next and last access is
`Status |= FAILED`, and no address register is written. -/
def queue_refused (q : Nat) (seg : List Access) : Prop :=
  ∃ v : Nat,
    (∃ ready : Nat, ready ≠ 0 ∧
      seg =
        [Access.orw Reg.Status FAILED v,
          Access.rd Reg.QueueReady ready,
          Access.wr Reg.QueueSel (q % U32_MOD)]) ∨
    seg =
      [Access.orw Reg.Status FAILED v,
        Access.rd Reg.QueueNumMax 0,
        Access.rd Reg.QueueReady 0,
        Access.wr Reg.QueueSel (q % U32_MOD)]

/-- The outcomes of the handshake as to the queue registers, relative to the log
`l0` it started from and the virtqueues `vqs` of the console: either the
handshake fails before the queue activation and touches no queue register, or it
reaches the queue activation, right after the read-back of the status that
verifies FEATURES_OK, and then activates the queues 0, 1, ... in turn, each as
`queue_activated` says, until all are activated or one is refused as
`queue_refused` says, which ends the handshake with the result false. -/
def QueueActivation {σ : Type} (K : Consts) (vqs : Nat → virtq) (l0 : List Access)
    (r : Bool × World σ) : Prop :=
  (r.1 = false ∧ ∃ evs, r.2.log = evs ++ l0 ∧ ∀ e ∈ evs, e.queue_access = false) ∨
  (∃ (pre : List Access) (segs : List (List Access)) (post : List Access),
    r.2.log = post ++ segs.reverse.flatten ++
      (Access.rd Reg.Status (RESET ||| ACKNOWLEDGE ||| DRIVER ||| FEATURES_OK) :: pre) ++ l0 ∧
    (∀ e ∈ pre, e.queue_access = false) ∧
    segs.length ≤ K.VIRTIO_CONSOLE_NUM_VQS ∧
    (∀ q, q < segs.length → queue_activated q (vqs q) (segs.getD q [])) ∧
    ((segs.length = K.VIRTIO_CONSOLE_NUM_VQS ∧ ∀ e ∈ post, e.queue_access = false) ∨
      (segs.length < K.VIRTIO_CONSOLE_NUM_VQS ∧ r.1 = false ∧
        queue_refused segs.length post)))

/-- An example device like `example_sim` whose queue 1 already reports
`QueueReady == 1`. -/
def example_busy_sim : SimDev :=
  { example_sim (2 ^ 32) with queue_ready := fun q => if q = 1 then 1 else 0 }

/-! ## Facts about machine arithmetic -/

theorem ulong_add_eq_add {a b : Nat} (h : a + b < ULONG_MOD) : ulong_add a b = a + b := by
  unfold ulong_add; exact Nat.mod_eq_of_lt h

theorem ulong_add_zero_left {b : Nat} (h : b < ULONG_MOD) : ulong_add 0 b = b := by
  unfold ulong_add; simpa using Nat.mod_eq_of_lt h

theorem ulong_add_le (a b : Nat) : ulong_add a b ≤ a + b := by
  unfold ulong_add; exact Nat.mod_le _ _

/-- Below `2 ^ 63` the unsigned sum of an offset and a request that are both
within the size is the mathematical sum. -/
theorem ulong_add_eq_of_small {s a b : Nat} (hs : s < 2 ^ 63) (ha : a ≤ s) (hb : b ≤ s) :
    ulong_add a b = a + b := by
  apply ulong_add_eq_add
  have : (2 : Nat) ^ 64 = 2 ^ 63 + 2 ^ 63 := by norm_num
  unfold ULONG_MOD
  omega

theorem int_of_size_small {n : Nat} (h : n < 2 ^ 31) : int_of_size n = (n : Int) := by
  have h1 : n % U32_MOD = n := Nat.mod_eq_of_lt (by unfold U32_MOD; omega)
  simp only [int_of_size, h1]
  rw [if_pos h]

theorem ulong_of_int_natCast {n : Nat} (h : n < 2 ^ 31) : ulong_of_int (n : Int) = n := by
  have h1 : ((n : Int) % (ULONG_MOD : Int)) = (n : Int) := by
    apply Int.emod_eq_of_lt (by omega)
    unfold ULONG_MOD
    push_cast
    omega
  simp [ulong_of_int, h1]

theorem u32_of_int_natCast {n : Nat} (h : n < 2 ^ 31) : u32_of_int (n : Int) = n := by
  have h1 : ((n : Int) % (U32_MOD : Int)) = (n : Int) := by
    apply Int.emod_eq_of_lt (by omega)
    unfold U32_MOD
    push_cast
    omega
  simp [u32_of_int, h1]

theorem acked_testBit (feat F i k : Nat) (hi : i ≤ 1) :
    (((((feat >>> (i * 32)) % U32_MOD) % U32_MOD) &&& (F >>> (i * 32))) <<< (i * 32)
        % U64_MOD).testBit k =
      (decide (32 * i ≤ k ∧ k < 32 * (i + 1)) && feat.testBit k && F.testBit k) := by
  simp only [U32_MOD, U64_MOD, Nat.testBit_mod_two_pow, Nat.testBit_shiftLeft, Nat.testBit_and,
    Nat.testBit_shiftRight, Nat.mod_mod]
  by_cases h1 : i * 32 ≤ k
  · have e : i * 32 + (k - i * 32) = k := by omega
    by_cases h2 : k < 32 * (i + 1)
    · have h3 : k < 64 := by omega
      have h4 : k - i * 32 < 32 := by omega
      have h5 : 32 * i ≤ k := by omega
      simp [h1, h2, h3, h4, h5, e]
    · have h4 : ¬ k - i * 32 < 32 := by omega
      simp [h2, h4]
  · have h5 : ¬ 32 * i ≤ k := by omega
    simp [h1, h5]

theorem features_bits_full {F W : Nat} (hF : F < 2 ^ (32 * W)) (k : Nat) :
    ((Nat.testBit 0 k) || (decide (32 * 0 ≤ k ∧ k < 32 * (0 + W)) && F.testBit k && F.testBit k)) =
      F.testBit k := by
  by_cases hk : k < 32 * W
  · have : 32 * 0 ≤ k ∧ k < 32 * (0 + W) := by omega
    rw [decide_eq_true this]
    cases F.testBit k <;> simp
  · have h2 : F < 2 ^ k := lt_of_lt_of_le hF (Nat.pow_le_pow_right (by decide) (by omega))
    rw [Nat.testBit_lt_two_pow h2]
    simp

/-! ## The loops end by their own condition -/

/-- The fuel of the receive pre-fill loop is enough: with any fuel of at least
the length of the free list the loop gives the result it gives with exactly that
length, so it ends by its own condition or its `break`, never by the bound. -/
theorem rx_prefill_loop_fuel (K : Consts) (fuel : Nat) (vq : virtq)
    (h : vq.free_list.length ≤ fuel) :
    rx_prefill_loop K fuel vq = rx_prefill_loop K vq.free_list.length vq := by
  induction fuel generalizing vq with
  | zero =>
    have h0 : vq.free_list.length = 0 := by omega
    rw [h0]
  | succ fuel ih =>
    cases hfl : vq.free_list with
    | nil =>
      simp [rx_prefill_loop, virtq_has_free_slots, hfl]
    | cons d rest =>
      rw [hfl] at h
      simp only [List.length_cons] at h ⊢
      simp only [rx_prefill_loop, virtq_has_free_slots, virtq_get_free_desc_id, hfl]
      simp only [List.isEmpty_cons, Bool.not_false, Bool.false_eq_true, if_false]
      cases (virtio_memory_pool_alloc vq.pool K.VIRTIO_CONSOLE_RX_BUFFER_SIZE).1 with
      | none => rfl
      | some io_buffer =>
        simp only
        rw [ih _ (by simpa [virtq_add_avail_buf, virtq_set_desc] using Nat.le_of_succ_le_succ h)]
        simp [virtq_add_avail_buf, virtq_set_desc]

/-- The fuel of the used-ring loop is enough: for 16-bit indices, with any fuel of
at least the number of pending used entries the loop gives the result it gives
with exactly that number, so it ends by its own condition, never by the bound. -/
theorem drain_used_fuel (K : Consts) (vq_id fuel : Nat) (vq : virtq) (mem : Nat → Nat)
    (msg : Option Nat) (hu : vq.used_idx < U16_MOD) (hl : vq.last_used_idx < U16_MOD)
    (h : virtq_used_pending vq ≤ fuel) :
    drain_used K vq_id fuel vq mem msg =
      drain_used K vq_id (virtq_used_pending vq) vq mem msg := by
  induction fuel generalizing vq mem msg with
  | zero =>
    have h0 : virtq_used_pending vq = 0 := by omega
    rw [h0]
  | succ fuel ih =>
    by_cases hb : vq.used_idx = vq.last_used_idx
    · have h0 : virtq_used_pending vq = 0 := by
        unfold virtq_used_pending U16_MOD at *
        rw [hb]; omega
      rw [h0]
      simp [drain_used, virtq_used_has_buf, hb]
    · have hp : virtq_used_pending vq =
          virtq_used_pending (virtq_put_free_desc (virtq_get_used_buf_id K vq).2
            (virtq_get_used_buf_id K vq).1) + 1 := by
        simp only [virtq_used_pending, virtq_put_free_desc, virtq_get_used_buf_id]
        unfold U16_MOD at *
        omega
      have hu' : (virtq_put_free_desc (virtq_get_used_buf_id K vq).2
          (virtq_get_used_buf_id K vq).1).used_idx < U16_MOD := hu
      have hl' : (virtq_put_free_desc (virtq_get_used_buf_id K vq).2
          (virtq_get_used_buf_id K vq).1).last_used_idx < U16_MOD := by
        simp only [virtq_put_free_desc, virtq_get_used_buf_id]
        exact Nat.mod_lt _ (by decide)
      rw [hp]
      have hcond : ¬ ((!virtq_used_has_buf vq) = true) := by
        simp [virtq_used_has_buf, hb]
      simp only [drain_used]
      rw [if_neg hcond, if_neg hcond]
      have hf : virtq_used_pending (virtq_put_free_desc (virtq_get_used_buf_id K vq).2
          (virtq_get_used_buf_id K vq).1) ≤ fuel := by omega
      by_cases hrx : vq_id = K.VIRTIO_CONSOLE_RX_VQ_IDX
      · rw [if_pos hrx, if_pos hrx]
        cases msg with
        | none => exact ih _ _ _ hu' hl' hf
        | some r => exact ih _ _ _ hu' hl' hf
      · rw [if_neg hrx, if_neg hrx]
        exact ih _ _ _ hu' hl' hf

/-! ## The log of register accesses -/

theorem LogExt.refl (P : Access → Prop) (l : List Access) : LogExt P l l :=
  ⟨[], by simp, by simp⟩

theorem LogExt.cons {P : Access → Prop} {l0 l : List Access} (h : LogExt P l0 l)
    (e : Access) (he : P e) : LogExt P l0 (e :: l) := by
  obtain ⟨evs, h1, h2⟩ := h
  refine ⟨e :: evs, by simp [h1], ?_⟩
  intro x hx
  rcases List.mem_cons.mp hx with rfl | hx
  · exact he
  · exact h2 x hx

theorem LogExt.mono {P Q : Access → Prop} {l0 l : List Access} (h : LogExt P l0 l)
    (hPQ : ∀ e, P e → Q e) : LogExt Q l0 l := by
  obtain ⟨evs, h1, h2⟩ := h
  exact ⟨evs, h1, fun e he => hPQ e (h2 e he)⟩

theorem LogExt.trans {P : Access → Prop} {l0 l1 l2 : List Access} (h1 : LogExt P l0 l1)
    (h2 : LogExt P l1 l2) : LogExt P l0 l2 := by
  obtain ⟨e1, rfl, p1⟩ := h1
  obtain ⟨e2, rfl, p2⟩ := h2
  refine ⟨e2 ++ e1, by simp, ?_⟩
  intro e he
  rcases List.mem_append.mp he with h | h
  · exact p2 e h
  · exact p1 e h

theorem negotiate_features_log {σ : Type} (K : Consts) (D : Device σ) (n i : Nat) (w : World σ) :
    LogExt not_status w.log (negotiate_features K D n i w).log := by
  induction n generalizing i w with
  | zero => exact LogExt.refl _ _
  | succ n ih =>
    rw [negotiate_features]
    refine LogExt.trans ?_ (ih _ _)
    simp only [negotiate_word, set_negotiated_feature_bits, mmio_write, mmio_read]
    refine LogExt.cons (LogExt.cons (LogExt.cons (LogExt.cons (LogExt.refl _ _) _ ?_) _ ?_) _ ?_) _ ?_ <;>
      simp [not_status, Access.reg]

theorem not_status_no_failed (e : Access) (h : not_status e) : no_failed e := by
  cases e with
  | rd r v => rfl
  | wr r v => cases r <;> first | rfl | exact absurd rfl h
  | orw r m v => cases r <;> first | rfl | exact absurd rfl h

theorem not_status_no_features_ok (e : Access) (h : not_status e) : no_features_ok e := by
  cases e with
  | rd r v => rfl
  | wr r v => cases r <;> first | rfl | exact absurd rfl h
  | orw r m v => cases r <;> first | rfl | exact absurd rfl h

theorem no_features_ok_orw (m v : Nat) (hm : m &&& FEATURES_OK = 0) :
    no_features_ok (Access.orw Reg.Status m v) := by
  simp [no_features_ok, Access.sets_features_ok, hm]

theorem no_features_ok_reset : no_features_ok (Access.wr Reg.Status (RESET % U32_MOD)) := by
  unfold no_features_ok
  decide

theorem failedLast_fail {σ : Type} (D : Device σ) {l0 : List Access} {w : World σ}
    (h : LogExt no_failed l0 w.log) :
    FailedLast l0 (false, mmio_or D Reg.Status FAILED w) := by
  obtain ⟨evs, h1, _⟩ := h
  refine ⟨Access.orw Reg.Status FAILED ((D.read Reg.Status w.dev).1 % U32_MOD) :: evs, ?_, ?_, ?_⟩
  · simp [mmio_or, h1]
  · intro _; exact ⟨_, _, rfl⟩
  · intro h; exact absurd h (by simp)

theorem failedLast_ok {σ : Type} {l0 : List Access} {w : World σ}
    (h : LogExt no_failed l0 w.log) : FailedLast l0 (true, w) := by
  obtain ⟨evs, h1, h2⟩ := h
  exact ⟨evs, h1, fun h => absurd h (by simp), fun _ => h2⟩

theorem logExt_read {σ : Type} (D : Device σ) (r : Reg) {l0 : List Access} {w : World σ}
    (h : LogExt no_failed l0 w.log) : LogExt no_failed l0 (mmio_read D r w).2.log := by
  simp only [mmio_read]
  exact h.cons _ rfl

theorem logExt_write {σ : Type} (D : Device σ) (r : Reg) (v : Nat) {l0 : List Access}
    {w : World σ} (h : LogExt no_failed l0 w.log) (hr : r ≠ Reg.Status ∨ v = 0) :
    LogExt no_failed l0 (mmio_write D r v w).log := by
  simp only [mmio_write]
  refine h.cons _ ?_
  rcases hr with hr | rfl
  · exact not_status_no_failed _ hr
  · cases r <;> rfl

theorem logExt_or {σ : Type} (D : Device σ) (m : Nat) {l0 : List Access}
    {w : World σ} (h : LogExt no_failed l0 w.log) (hm : m &&& FAILED = 0) :
    LogExt no_failed l0 (mmio_or D Reg.Status m w).log := by
  simp only [mmio_or]
  refine h.cons _ ?_
  simp [no_failed, Access.sets_failed, hm]

theorem logExt_set_config {σ : Type} {P : Access → Prop} {l0 : List Access} {w : World σ}
    (c : virtio_console_config) (h : LogExt P l0 w.log) :
    LogExt P l0 (set_config_space w c).log := h

theorem logExt_negotiate {σ : Type} (K : Consts) (D : Device σ) (n i : Nat) {l0 : List Access}
    {w : World σ} (h : LogExt no_failed l0 w.log) :
    LogExt no_failed l0 (negotiate_features K D n i w).log :=
  h.trans ((negotiate_features_log K D n i w).mono not_status_no_failed)

theorem failedLast_activate_queue {σ : Type} (K : Consts) (D : Device σ) (vq_id : Nat)
    {l0 : List Access} {w : World σ} (h : LogExt no_failed l0 w.log) :
    FailedLast l0 (activate_queue K D vq_id w) := by
  unfold activate_queue
  dsimp only
  have h1 := logExt_write D Reg.QueueSel vq_id h (Or.inl (by decide))
  have h2 := logExt_read D Reg.QueueReady h1
  split
  · exact failedLast_fail D h2
  · have h3 := logExt_read D Reg.QueueNumMax h2
    split
    · exact failedLast_fail D h3
    · apply failedLast_ok
      refine logExt_write D _ _ ?_ (Or.inl (by decide))
      refine logExt_write D _ _ ?_ (Or.inl (by decide))
      refine logExt_write D _ _ ?_ (Or.inl (by decide))
      refine logExt_write D _ _ ?_ (Or.inl (by decide))
      refine logExt_write D _ _ ?_ (Or.inl (by decide))
      refine logExt_write D _ _ ?_ (Or.inl (by decide))
      refine logExt_write D _ _ ?_ (Or.inl (by decide))
      exact h3

theorem failedLast_activate {σ : Type} (K : Consts) (D : Device σ) (n vq_id : Nat)
    {l0 : List Access} {w : World σ} (h : LogExt no_failed l0 w.log) :
    FailedLast l0 (activate_queues K D n vq_id w) := by
  induction n generalizing vq_id w with
  | zero => exact failedLast_ok h
  | succ n ih =>
    rw [activate_queues]
    have h1 := failedLast_activate_queue K D vq_id h
    split
    · exact h1
    · rename_i hq
      obtain ⟨evs, e1, _, e3⟩ := h1
      exact ih _ ⟨evs, e1, e3 (by simpa using hq)⟩

theorem failedLast_mmio_init {σ : Type} (K : Consts) (D : Device σ) (w : World σ) :
    FailedLast w.log (virtio_console_mmio_init K D w) := by
  have h0 : LogExt no_failed w.log w.log := LogExt.refl _ _
  unfold virtio_console_mmio_init
  dsimp only
  have h1 := logExt_read D Reg.MagicValue h0
  split
  · exact failedLast_fail D h1
  have h2 := logExt_read D Reg.Version h1
  split
  · exact failedLast_fail D h2
  have h3 := logExt_read D Reg.DeviceID h2
  split
  · exact failedLast_fail D h3
  have h4 := logExt_write D Reg.Status RESET h3 (Or.inr rfl)
  have h5 := logExt_or D ACKNOWLEDGE h4 (by decide)
  have h6 := logExt_or D DRIVER h5 (by decide)
  have h7 := logExt_read D Reg.Status h6
  split
  · exact failedLast_fail D h7
  have h8 := logExt_negotiate K D K.VIRTIO_MMIO_FEATURE_SEL_SIZE 0 h7
  split
  · exact failedLast_fail D h8
  have h9 := logExt_read D Reg.Config h8
  have h10 := logExt_read D Reg.Config h9
  have h11 := logExt_read D Reg.ConfigMaxNrPorts h10
  have h12 := logExt_read D Reg.ConfigEmergWr h11
  generalize (virtio_console_config.mk _ _ _ _) = c
  have h13 := logExt_or D FEATURES_OK (logExt_set_config c h12) (by decide)
  have h14 := logExt_read D Reg.Status h13
  split
  · exact failedLast_fail D h14
  have h15 := failedLast_activate K D K.VIRTIO_CONSOLE_NUM_VQS 0 h14
  split
  · rename_i hq
    obtain ⟨evs, e1, e2, _⟩ := h15
    exact ⟨evs, e1, fun _ => e2 hq, fun h => absurd h (by simp)⟩
  · rename_i hq
    obtain ⟨evs, e1, _, e3⟩ := h15
    have h16 : LogExt no_failed w.log _ := ⟨evs, e1, e3 (by simpa using hq)⟩
    have h17 := logExt_or D DRIVER_OK h16 (by decide)
    have h18 := logExt_read D Reg.Status h17
    split
    · exact failedLast_fail D h18
    · exact failedLast_ok h18

/-! ## The handshake against the simulated device -/

theorem sim_read_dev (r : Reg) (w : World SimDev) : (mmio_read sim_device r w).2.dev = w.dev := by
  cases r <;> rfl

theorem sim_read_console (r : Reg) (w : World SimDev) :
    (mmio_read sim_device r w).2.console = w.console := rfl

theorem sim_read_status (w : World SimDev) :
    (mmio_read sim_device Reg.Status w).1 = w.dev.status % U32_MOD := rfl

theorem sim_or_status (m : Nat) (w : World SimDev) :
    (mmio_or sim_device Reg.Status m w).dev =
      { w.dev with status := (w.dev.status % U32_MOD ||| m) % U32_MOD } := rfl

theorem sim_write_status (v : Nat) (w : World SimDev) :
    (mmio_write sim_device Reg.Status v w).dev = { w.dev with status := v % U32_MOD } := rfl

theorem negotiate_word_sim (K : Consts) (i : Nat) (w : World SimDev) (hi : i ≤ 1) :
    SimFrame w (negotiate_word K sim_device i w) ∧
    ∀ k, (negotiate_word K sim_device i w).console.negotiated_feature_bits.testBit k =
      (w.console.negotiated_feature_bits.testBit k ||
        (decide (32 * i ≤ k ∧ k < 32 * (i + 1)) && w.dev.features.testBit k &&
          K.VIRTIO_CONSOLE_FEATURES.testBit k)) := by
  have hmod : i % U32_MOD = i := Nat.mod_eq_of_lt (by unfold U32_MOD; omega)
  constructor
  · simp [SimFrame, negotiate_word, set_negotiated_feature_bits, mmio_write, mmio_read,
      sim_device]
  · intro k
    simp only [negotiate_word, set_negotiated_feature_bits, mmio_write, mmio_read, sim_device,
      hmod, Nat.testBit_or]
    rw [acked_testBit _ _ i k hi]

/-- Feature negotiation against the simulated device leaves the frame alone; bit
`k` of the negotiated mask is set when it was set before, or when `k` lies in
one of the words negotiated and both the offered and the desired set hold it. -/
theorem negotiate_features_sim (K : Consts) (n i : Nat) (w : World SimDev) (hn : i + n ≤ 2) :
    SimFrame w (negotiate_features K sim_device n i w) ∧
    ∀ k, (negotiate_features K sim_device n i w).console.negotiated_feature_bits.testBit k =
      (w.console.negotiated_feature_bits.testBit k ||
        (decide (32 * i ≤ k ∧ k < 32 * (i + n)) && w.dev.features.testBit k &&
          K.VIRTIO_CONSOLE_FEATURES.testBit k)) := by
  induction n generalizing i w with
  | zero =>
    refine ⟨⟨rfl, rfl, rfl, rfl, rfl, rfl⟩, ?_⟩
    intro k
    have : ¬ (32 * i ≤ k ∧ k < 32 * (i + 0)) := by omega
    simp [negotiate_features, this]
  | succ n ih =>
    have hi : i ≤ 1 := by omega
    rw [negotiate_features]
    obtain ⟨⟨f1, f2, f3, f4, f5, f6⟩, hb⟩ := ih (i + 1) (negotiate_word K sim_device i w) (by omega)
    obtain ⟨⟨g1, g2, g3, g4, g5, g6⟩, gb⟩ := negotiate_word_sim K i w hi
    refine ⟨⟨f1.trans g1, f2.trans g2, f3.trans g3, f4.trans g4, f5.trans g5, f6.trans g6⟩, ?_⟩
    intro k
    rw [hb k, gb k, g2]
    generalize w.console.negotiated_feature_bits.testBit k = b0
    generalize w.dev.features.testBit k = b1
    generalize K.VIRTIO_CONSOLE_FEATURES.testBit k = b2
    by_cases ha : 32 * i ≤ k ∧ k < 32 * (i + 1)
    · have hb : ¬ (32 * (i + 1) ≤ k ∧ k < 32 * (i + 1 + n)) := by omega
      have hc : 32 * i ≤ k ∧ k < 32 * (i + (n + 1)) := by omega
      rw [decide_eq_true ha, decide_eq_false hb, decide_eq_true hc]
      cases b0 <;> cases b1 <;> cases b2 <;> rfl
    · by_cases hb : 32 * (i + 1) ≤ k ∧ k < 32 * (i + 1 + n)
      · have hc : 32 * i ≤ k ∧ k < 32 * (i + (n + 1)) := by omega
        rw [decide_eq_false ha, decide_eq_true hb, decide_eq_true hc]
        cases b0 <;> cases b1 <;> cases b2 <;> rfl
      · have hc : ¬ (32 * i ≤ k ∧ k < 32 * (i + (n + 1))) := by omega
        rw [decide_eq_false ha, decide_eq_false hb, decide_eq_false hc]
        cases b0 <;> cases b1 <;> cases b2 <;> rfl

theorem activate_queue_sim (K : Consts) (vq_id : Nat) (w : World SimDev)
    (hn : vq_id < U32_MOD)
    (hq : w.dev.queue_ready vq_id % U32_MOD = 0 ∧ w.dev.queue_num_max vq_id % U32_MOD ≠ 0) :
    (activate_queue K sim_device vq_id w).1 = true ∧
    (activate_queue K sim_device vq_id w).2.dev.status = w.dev.status ∧
    (activate_queue K sim_device vq_id w).2.dev.queue_num_max = w.dev.queue_num_max ∧
    (∀ q, q ≠ vq_id →
      (activate_queue K sim_device vq_id w).2.dev.queue_ready q = w.dev.queue_ready q) ∧
    LogExt not_status w.log (activate_queue K sim_device vq_id w).2.log := by
  have hmod : vq_id % U32_MOD = vq_id := Nat.mod_eq_of_lt hn
  obtain ⟨hr, hm⟩ := hq
  simp only [activate_queue, mmio_write, mmio_read, sim_device, hmod, hr, hm, ne_eq,
    not_true_eq_false, if_false]
  refine ⟨trivial, trivial, trivial, ?_, ?_⟩
  · intro q hq
    simp [Function.update, hq]
  · refine LogExt.cons (LogExt.cons (LogExt.cons (LogExt.cons (LogExt.cons (LogExt.cons
      (LogExt.cons (LogExt.cons (LogExt.cons (LogExt.cons (LogExt.refl _ _)
        _ ?_) _ ?_) _ ?_) _ ?_) _ ?_) _ ?_) _ ?_) _ ?_) _ ?_) _ ?_ <;>
      simp [not_status, Access.reg]

/-- Queue activation against the simulated device succeeds and leaves the status
register alone when every queue still to be activated reports `QueueReady == 0`
and `QueueNumMax != 0`. -/
theorem activate_queues_sim (K : Consts) (n vq_id : Nat) (w : World SimDev)
    (hn : vq_id + n ≤ U32_MOD)
    (hq : ∀ q, vq_id ≤ q → q < vq_id + n →
      w.dev.queue_ready q % U32_MOD = 0 ∧ w.dev.queue_num_max q % U32_MOD ≠ 0) :
    (activate_queues K sim_device n vq_id w).1 = true ∧
    (activate_queues K sim_device n vq_id w).2.dev.status = w.dev.status ∧
    LogExt not_status w.log (activate_queues K sim_device n vq_id w).2.log := by
  induction n generalizing vq_id w with
  | zero => exact ⟨rfl, rfl, LogExt.refl _ _⟩
  | succ n ih =>
    obtain ⟨a1, a2, a3, a4, a5⟩ :=
      activate_queue_sim K vq_id w (by omega) (hq vq_id (le_refl _) (by omega))
    rw [activate_queues]
    simp only [a1, Bool.true_eq_false, if_false]
    obtain ⟨b1, b2, b3⟩ := ih (vq_id + 1) (activate_queue K sim_device vq_id w).2 (by omega)
      (by
        intro q h1 h2
        rw [a3, a4 q (by omega)]
        exact hq q (by omega) (by omega))
    exact ⟨b1, b2.trans a2, a5.trans b3⟩

theorem mmio_init_sim_ok (K : Consts) (w : World SimDev)
    (hW : K.VIRTIO_MMIO_FEATURE_SEL_SIZE ≤ 2)
    (hF : K.VIRTIO_CONSOLE_FEATURES < 2 ^ (32 * K.VIRTIO_MMIO_FEATURE_SEL_SIZE))
    (hQ : K.VIRTIO_CONSOLE_NUM_VQS ≤ U32_MOD)
    (hprobe : sim_probe_ok K w.dev)
    (hfeat : w.dev.features = K.VIRTIO_CONSOLE_FEATURES)
    (hqueues : sim_queues_ok K w.dev)
    (hid : w.console.device_id = K.VIRTIO_CONSOLE_DEVICE_ID)
    (hbits : w.console.negotiated_feature_bits = 0) :
    (virtio_console_mmio_init K sim_device w).1 = true ∧
    (virtio_console_mmio_init K sim_device w).2.dev.status =
      (ACKNOWLEDGE ||| DRIVER ||| FEATURES_OK ||| DRIVER_OK) := by
  obtain ⟨p1, p2, p3⟩ := hprobe
  unfold virtio_console_mmio_init
  dsimp only
  -- probe
  have e1 : ¬ (mmio_read sim_device Reg.MagicValue w).1 ≠ K.VIRTIO_MAGIC_VALUE :=
    not_not.mpr p1
  rw [if_neg e1]
  generalize hw1 : (mmio_read sim_device Reg.MagicValue w).2 = w1
  have d1 : w1.dev = w.dev := by rw [← hw1]; exact sim_read_dev _ _
  have c1 : w1.console = w.console := by rw [← hw1]; rfl
  have e2 : ¬ (mmio_read sim_device Reg.Version w1).1 ≠ K.VIRTIO_VERSION_NO_LEGACY := by
    apply not_not.mpr
    show w1.dev.version % U32_MOD = _
    rw [d1]; exact p2
  rw [if_neg e2]
  generalize hw2 : (mmio_read sim_device Reg.Version w1).2 = w2
  have d2 : w2.dev = w.dev := by rw [← hw2, sim_read_dev, d1]
  have c2 : w2.console = w.console := by rw [← hw2, sim_read_console, c1]
  have e3 : ¬ (mmio_read sim_device Reg.DeviceID w2).1 ≠
      (mmio_read sim_device Reg.DeviceID w2).2.console.device_id := by
    apply not_not.mpr
    show w2.dev.device_id % U32_MOD = w2.console.device_id
    rw [d2, c2, hid]; exact p3
  rw [if_neg e3]
  generalize hw3 : (mmio_read sim_device Reg.DeviceID w2).2 = w3
  have d3 : w3.dev = w.dev := by rw [← hw3, sim_read_dev, d2]
  have c3 : w3.console = w.console := by rw [← hw3, sim_read_console, c2]
  -- reset, acknowledge, driver
  generalize hw7 : (mmio_read sim_device Reg.Status (mmio_or sim_device Reg.Status DRIVER
    (mmio_or sim_device Reg.Status ACKNOWLEDGE
      (mmio_write sim_device Reg.Status RESET w3)))) = r7
  have e4 : ¬ r7.1 ≠ RESET ||| ACKNOWLEDGE ||| DRIVER := by
    apply not_not.mpr
    rw [← hw7]
    show (((RESET % U32_MOD) % U32_MOD ||| ACKNOWLEDGE) % U32_MOD % U32_MOD ||| DRIVER)
      % U32_MOD % U32_MOD = _
    decide
  rw [if_neg e4]
  have s7 : r7.2.dev.status = 3 := by
    rw [← hw7]
    show (((RESET % U32_MOD) % U32_MOD ||| ACKNOWLEDGE) % U32_MOD % U32_MOD ||| DRIVER)
      % U32_MOD = _
    decide
  have d7 : r7.2.dev.features = w.dev.features ∧ r7.2.dev.queue_ready = w.dev.queue_ready ∧
      r7.2.dev.queue_num_max = w.dev.queue_num_max := by
    rw [← hw7, ← d3]
    exact ⟨rfl, rfl, rfl⟩
  have c7 : r7.2.console = w.console := by rw [← hw7, ← c3]; rfl
  -- feature negotiation
  obtain ⟨⟨f1, _, f3, f4, _, _⟩, fb⟩ :=
    negotiate_features_sim K K.VIRTIO_MMIO_FEATURE_SEL_SIZE 0 r7.2 (by omega)
  have hNbits : (negotiate_features K sim_device K.VIRTIO_MMIO_FEATURE_SEL_SIZE 0
      r7.2).console.negotiated_feature_bits = K.VIRTIO_CONSOLE_FEATURES := by
    apply Nat.eq_of_testBit_eq
    intro k
    rw [fb k, c7, hbits, d7.1, hfeat]
    exact features_bits_full hF k
  rw [if_neg (not_not.mpr hNbits)]
  generalize hN : negotiate_features K sim_device K.VIRTIO_MMIO_FEATURE_SEL_SIZE 0 r7.2 = N
    at f1 f3 f4 ⊢
  rw [s7] at f1
  rw [d7.2.1] at f3
  rw [d7.2.2] at f4
  -- configuration space, FEATURES_OK
  generalize (virtio_console_config.mk _ _ _ _) = cfg
  generalize hw13 : (mmio_read sim_device Reg.Status (mmio_or sim_device Reg.Status FEATURES_OK
    (set_config_space (mmio_read sim_device Reg.ConfigEmergWr
      (mmio_read sim_device Reg.ConfigMaxNrPorts (mmio_read sim_device Reg.Config
        (mmio_read sim_device Reg.Config N).2).2).2).2 cfg))) = r13
  have d13 : r13.2.dev = { N.dev with status := (N.dev.status % U32_MOD ||| FEATURES_OK) % U32_MOD } := by
    rw [← hw13]; rfl
  have e5 : ¬ r13.1 ≠ RESET ||| ACKNOWLEDGE ||| DRIVER ||| FEATURES_OK := by
    apply not_not.mpr
    rw [← hw13]
    show ((N.dev.status % U32_MOD ||| FEATURES_OK) % U32_MOD) % U32_MOD = _
    rw [f1]; decide
  rw [if_neg e5]
  -- queue activation
  obtain ⟨a1, a2, _⟩ := activate_queues_sim K K.VIRTIO_CONSOLE_NUM_VQS 0 r13.2 (by omega)
    (by
      intro q _ hq
      rw [d13]
      show N.dev.queue_ready q % U32_MOD = 0 ∧ N.dev.queue_num_max q % U32_MOD ≠ 0
      rw [f3, f4]
      exact hqueues q (by omega))
  rw [if_neg (by rw [a1]; simp)]
  rw [d13] at a2
  generalize activate_queues K sim_device K.VIRTIO_CONSOLE_NUM_VQS 0 r13.2 = A at a2 ⊢
  -- DRIVER_OK
  have e6 : ¬ (mmio_read sim_device Reg.Status (mmio_or sim_device Reg.Status DRIVER_OK A.2)).1 ≠
      RESET ||| ACKNOWLEDGE ||| DRIVER ||| FEATURES_OK ||| DRIVER_OK := by
    apply not_not.mpr
    show ((A.2.dev.status % U32_MOD ||| DRIVER_OK) % U32_MOD) % U32_MOD = _
    rw [a2]
    show ((((N.dev.status % U32_MOD ||| FEATURES_OK) % U32_MOD) % U32_MOD ||| DRIVER_OK)
      % U32_MOD) % U32_MOD = _
    rw [f1]; decide
  rw [if_neg e6]
  refine ⟨rfl, ?_⟩
  show (A.2.dev.status % U32_MOD ||| DRIVER_OK) % U32_MOD = _
  rw [a2]
  show ((((N.dev.status % U32_MOD ||| FEATURES_OK) % U32_MOD) % U32_MOD ||| DRIVER_OK)
    % U32_MOD) = _
  rw [f1]; decide

theorem mmio_init_sim_missing (K : Consts) (w : World SimDev) (k : Nat)
    (hW : K.VIRTIO_MMIO_FEATURE_SEL_SIZE ≤ 2)
    (hprobe : sim_probe_ok K w.dev)
    (hid : w.console.device_id = K.VIRTIO_CONSOLE_DEVICE_ID)
    (hbits : w.console.negotiated_feature_bits = 0)
    (hwant : K.VIRTIO_CONSOLE_FEATURES.testBit k = true)
    (hlack : k < 32 * K.VIRTIO_MMIO_FEATURE_SEL_SIZE → w.dev.features.testBit k = false) :
    (virtio_console_mmio_init K sim_device w).1 = false ∧
    (virtio_console_mmio_init K sim_device w).2.console.negotiated_feature_bits ≠
      K.VIRTIO_CONSOLE_FEATURES ∧
    (virtio_console_mmio_init K sim_device w).2.dev.status =
      (ACKNOWLEDGE ||| DRIVER ||| FAILED) ∧
    ∃ evs, (virtio_console_mmio_init K sim_device w).2.log =
        Access.orw Reg.Status FAILED (ACKNOWLEDGE ||| DRIVER) :: evs ++ w.log ∧
      ∀ e ∈ evs, e.sets_features_ok = false := by
  obtain ⟨p1, p2, p3⟩ := hprobe
  unfold virtio_console_mmio_init
  dsimp only
  -- probe
  have e1 : ¬ (mmio_read sim_device Reg.MagicValue w).1 ≠ K.VIRTIO_MAGIC_VALUE :=
    not_not.mpr p1
  rw [if_neg e1]
  generalize hw1 : (mmio_read sim_device Reg.MagicValue w).2 = w1
  have d1 : w1.dev = w.dev := by rw [← hw1]; exact sim_read_dev _ _
  have c1 : w1.console = w.console := by rw [← hw1]; rfl
  have l1 : LogExt no_features_ok w.log w1.log := by
    rw [← hw1]; exact (LogExt.refl _ _).cons _ rfl
  have e2 : ¬ (mmio_read sim_device Reg.Version w1).1 ≠ K.VIRTIO_VERSION_NO_LEGACY := by
    apply not_not.mpr
    show w1.dev.version % U32_MOD = _
    rw [d1]; exact p2
  rw [if_neg e2]
  generalize hw2 : (mmio_read sim_device Reg.Version w1).2 = w2
  have d2 : w2.dev = w.dev := by rw [← hw2, sim_read_dev, d1]
  have c2 : w2.console = w.console := by rw [← hw2, sim_read_console, c1]
  have l2 : LogExt no_features_ok w.log w2.log := by
    rw [← hw2]; exact l1.cons _ rfl
  have e3 : ¬ (mmio_read sim_device Reg.DeviceID w2).1 ≠
      (mmio_read sim_device Reg.DeviceID w2).2.console.device_id := by
    apply not_not.mpr
    show w2.dev.device_id % U32_MOD = w2.console.device_id
    rw [d2, c2, hid]; exact p3
  rw [if_neg e3]
  generalize hw3 : (mmio_read sim_device Reg.DeviceID w2).2 = w3
  have d3 : w3.dev = w.dev := by rw [← hw3, sim_read_dev, d2]
  have c3 : w3.console = w.console := by rw [← hw3, sim_read_console, c2]
  have l3 : LogExt no_features_ok w.log w3.log := by
    rw [← hw3]; exact l2.cons _ rfl
  -- reset, acknowledge, driver
  generalize hw7 : (mmio_read sim_device Reg.Status (mmio_or sim_device Reg.Status DRIVER
    (mmio_or sim_device Reg.Status ACKNOWLEDGE
      (mmio_write sim_device Reg.Status RESET w3)))) = r7
  have e4 : ¬ r7.1 ≠ RESET ||| ACKNOWLEDGE ||| DRIVER := by
    apply not_not.mpr
    rw [← hw7]
    show (((RESET % U32_MOD) % U32_MOD ||| ACKNOWLEDGE) % U32_MOD % U32_MOD ||| DRIVER)
      % U32_MOD % U32_MOD = _
    decide
  rw [if_neg e4]
  have s7 : r7.2.dev.status = 3 := by
    rw [← hw7]
    show (((RESET % U32_MOD) % U32_MOD ||| ACKNOWLEDGE) % U32_MOD % U32_MOD ||| DRIVER)
      % U32_MOD = _
    decide
  have d7 : r7.2.dev.features = w.dev.features := by
    rw [← hw7, ← d3]; rfl
  have c7 : r7.2.console = w.console := by rw [← hw7, ← c3]; rfl
  have l7 : LogExt no_features_ok w.log r7.2.log := by
    rw [← hw7]
    exact (((l3.cons _ no_features_ok_reset).cons _ (no_features_ok_orw _ _ (by decide))).cons _
      (no_features_ok_orw _ _ (by decide))).cons _ rfl
  -- feature negotiation
  obtain ⟨⟨f1, _, _, _, _, _⟩, fb⟩ :=
    negotiate_features_sim K K.VIRTIO_MMIO_FEATURE_SEL_SIZE 0 r7.2 (by omega)
  have lN := l7.trans ((negotiate_features_log K sim_device K.VIRTIO_MMIO_FEATURE_SEL_SIZE 0
    r7.2).mono not_status_no_features_ok)
  have hNbits : (negotiate_features K sim_device K.VIRTIO_MMIO_FEATURE_SEL_SIZE 0
      r7.2).console.negotiated_feature_bits ≠ K.VIRTIO_CONSOLE_FEATURES := by
    intro heq
    have hk := fb k
    rw [heq, hwant, c7, hbits, d7] at hk
    by_cases hlt : k < 32 * K.VIRTIO_MMIO_FEATURE_SEL_SIZE
    · rw [hlack hlt] at hk
      simp at hk
    · have : ¬ (32 * 0 ≤ k ∧ k < 32 * (0 + K.VIRTIO_MMIO_FEATURE_SEL_SIZE)) := by omega
      rw [decide_eq_false this] at hk
      simp at hk
  rw [if_pos hNbits]
  rw [s7] at f1
  generalize negotiate_features K sim_device K.VIRTIO_MMIO_FEATURE_SEL_SIZE 0 r7.2 = N
    at f1 hNbits lN ⊢
  refine ⟨rfl, hNbits, ?_, ?_⟩
  · show (N.dev.status % U32_MOD ||| FAILED) % U32_MOD = _
    rw [f1]; decide
  · obtain ⟨evs, h1, h2⟩ := lN
    refine ⟨evs, ?_, h2⟩
    show Access.orw Reg.Status FAILED (N.dev.status % U32_MOD) :: N.log = _
    rw [f1, h1]
    rfl

/-! ## Theorems about the memory pool -/

/-- C1, as stated, fails: in a pool of size 10 at offset 3 a request of 8 bytes
does not fit in the tail (3 + 8 > 10) and is no larger than the pool (8 <= 10),
yet `virtio_memory_pool_alloc` returns `NULL`, because the wrap-around path is
guarded by `alloc_size <= pool->offset`. -/
theorem alloc_wrap_iff_le_size_counterexample :
    ((3 : Nat) ≤ 10 ∧ 3 + 8 > 10 ∧ ulong_add 3 8 > 10) ∧
    ¬ ((virtio_memory_pool_alloc ⟨4096, 10, 3⟩ 8).1 = some 4096 ↔ 8 ≤ 10) ∧
    (virtio_memory_pool_alloc ⟨4096, 10, 3⟩ 8).1 = none := by
  decide

/-- C1, amended: for a pool with `offset <= size` and a request `n` that does not
fit in the tail (the unsigned sum `offset + n` exceeds `size`),
`virtio_memory_pool_alloc` succeeds and returns the pool base, leaving the
offset at `n`, if and only if `n <= offset`; otherwise it returns `NULL` and
leaves the pool as it was. -/
theorem alloc_wrap_iff_le_offset (p : virtio_memory_pool) (n : Nat)
    (hsize : p.size < ULONG_MOD) (hinv : p.offset ≤ p.size)
    (htail : ulong_add p.offset n > p.size) :
    (virtio_memory_pool_alloc p n = (some p.base, { p with offset := n }) ↔ n ≤ p.offset) ∧
    (¬ n ≤ p.offset → virtio_memory_pool_alloc p n = (none, p)) := by
  have hnot : ¬ ulong_add p.offset n ≤ p.size := by omega
  constructor
  · constructor
    · intro h
      by_contra hn
      have hnone : virtio_memory_pool_alloc p n = (none, p) := by
        unfold virtio_memory_pool_alloc
        by_cases h1 : n > p.size
        · simp [h1]
        · simp [h1, hnot, hn]
      rw [hnone] at h
      simp at h
    · intro hle
      have h1 : ¬ n > p.size := by omega
      have hn : n < ULONG_MOD := by omega
      unfold virtio_memory_pool_alloc
      simp [h1, hnot, hle, ulong_add_zero_left hn]
  · intro hn
    unfold virtio_memory_pool_alloc
    by_cases h1 : n > p.size
    · simp [h1]
    · simp [h1, hnot, hn]

/-- Witness of `alloc_wrap_iff_le_offset`: size 10, offset 8, request 5. -/
theorem alloc_wrap_iff_le_offset_witness :
    (virtio_memory_pool_alloc ⟨4096, 10, 8⟩ 5 = (some 4096, ⟨4096, 10, 5⟩) ↔ 5 ≤ 8) ∧
    (¬ 5 ≤ 8 → virtio_memory_pool_alloc ⟨4096, 10, 8⟩ 5 = (none, ⟨4096, 10, 8⟩)) :=
  alloc_wrap_iff_le_offset ⟨4096, 10, 8⟩ 5 (by decide) (by decide) (by decide)

/-- C2: for a pool with `offset <= size` and a request `n <= size` on which
`virtio_memory_pool_alloc` succeeds with address `a` and pool `p'`: if
`offset + n <= size` (the sum as the code evaluates it, in `unsigned long`) then
`a = base + offset` and the new offset is `offset + n`; otherwise `a = base` and
the new offset is `n`.  In both cases base and size are unchanged. -/
theorem alloc_success_result (p p' : virtio_memory_pool) (n a : Nat)
    (hsize : p.size < ULONG_MOD) (hinv : p.offset ≤ p.size) (hn : n ≤ p.size)
    (hok : virtio_memory_pool_alloc p n = (some a, p')) :
    (if ulong_add p.offset n ≤ p.size
      then a = p.base + p.offset ∧ p'.offset = ulong_add p.offset n
      else a = p.base ∧ p'.offset = n) ∧
    p'.base = p.base ∧ p'.size = p.size := by
  have h1 : ¬ n > p.size := by omega
  have hn64 : n < ULONG_MOD := by omega
  unfold virtio_memory_pool_alloc at hok
  by_cases h2 : ulong_add p.offset n ≤ p.size
  · simp [h1, h2] at hok
    obtain ⟨ha, hp⟩ := hok
    subst hp
    simp [h2, ha]
  · by_cases h3 : n ≤ p.offset
    · simp [h1, h2, h3, ulong_add_zero_left hn64] at hok
      obtain ⟨ha, hp⟩ := hok
      subst hp
      simp [h2, ha]
    · simp [h1, h2, h3] at hok

/-- Witness of `alloc_success_result`: the wrap path, size 10, offset 8,
request 5. -/
theorem alloc_success_result_witness :
    (if ulong_add 8 5 ≤ 10
      then 4096 = 4096 + 8 ∧ (5 : Nat) = ulong_add 8 5
      else 4096 = 4096 ∧ (5 : Nat) = 5) ∧
    4096 = 4096 ∧ 10 = 10 :=
  alloc_success_result ⟨4096, 10, 8⟩ ⟨4096, 10, 5⟩ 5 4096
    (by decide) (by decide) (by decide) (by decide)

/-- C3: `virtio_memory_pool_alloc` returns `NULL` exactly when `n > size`, or
when both `offset + n > size` (the sum as the code evaluates it, in
`unsigned long`) and `n > offset`; a request larger than the pool fails whatever
the offset; and whenever `NULL` is returned the pool is left unchanged. -/
theorem alloc_null_iff (p : virtio_memory_pool) (n : Nat) :
    ((virtio_memory_pool_alloc p n).1 = none ↔
      (n > p.size ∨ (ulong_add p.offset n > p.size ∧ n > p.offset))) ∧
    (∀ o : Nat, n > p.size → (virtio_memory_pool_alloc { p with offset := o } n).1 = none) ∧
    ((virtio_memory_pool_alloc p n).1 = none → (virtio_memory_pool_alloc p n).2 = p) := by
  refine ⟨?_, ?_, ?_⟩
  · unfold virtio_memory_pool_alloc
    by_cases h1 : n > p.size
    · simp [h1]
    · by_cases h2 : ulong_add p.offset n ≤ p.size
      · have : ¬ p.size < ulong_add p.offset n := by omega
        simp [h1, h2, this]
      · by_cases h3 : n ≤ p.offset
        · have : ¬ p.offset < n := by omega
          simp [h1, h2, h3, this]
        · have h4 : p.size < ulong_add p.offset n := by omega
          have h5 : p.offset < n := by omega
          simp [h1, h2, h3, h4, h5]
  · intro o h
    unfold virtio_memory_pool_alloc
    simp [h]
  · unfold virtio_memory_pool_alloc
    by_cases h1 : n > p.size
    · simp [h1]
    · by_cases h2 : ulong_add p.offset n ≤ p.size
      · simp [h1, h2]
      · by_cases h3 : n ≤ p.offset
        · simp [h1, h2, h3]
        · simp [h1, h2, h3]

/-- C4: the invariant `0 <= offset <= size` holds after
`virtio_memory_pool_init`, and every call of `virtio_memory_pool_alloc`,
successful or failing, preserves it, for every request size. -/
theorem pool_inv_init_and_alloc :
    (∀ base size : Nat, pool_inv (virtio_memory_pool_init base size)) ∧
    (∀ (p : virtio_memory_pool) (n : Nat),
      pool_inv p → pool_inv (virtio_memory_pool_alloc p n).2) := by
  constructor
  · intro base size
    simp [pool_inv, virtio_memory_pool_init]
  · intro p n hp
    obtain ⟨_, hp⟩ := hp
    unfold virtio_memory_pool_alloc pool_inv
    by_cases h1 : n > p.size
    · simp [h1, hp]
    · by_cases h2 : ulong_add p.offset n ≤ p.size
      · simp [h1, h2]
      · by_cases h3 : n ≤ p.offset
        · have := ulong_add_le 0 n
          simp [h1, h2, h3]
          omega
        · simp [h1, h2, h3, hp]

/-- Witness of `pool_inv_init_and_alloc`: the pool of size 10 at offset 8 and
the request 5, which wraps. -/
theorem pool_inv_init_and_alloc_witness :
    pool_inv ⟨4096, 10, 8⟩ ∧ pool_inv (virtio_memory_pool_alloc ⟨4096, 10, 8⟩ 5).2 :=
  ⟨by decide, pool_inv_init_and_alloc.2 ⟨4096, 10, 8⟩ 5 (by decide)⟩

/-! ## Theorems about the handshake -/

/-- C5: against a simulated device that supplies the expected MagicValue, Version
and DeviceID, offers exactly the desired feature set, retains the status written
to it and reports `QueueReady == 0` and `QueueNumMax != 0` for each queue,
`virtio_console_mmio_init` (on a console whose `device_id` and
`negotiated_feature_bits` are as `virtio_console_init` sets them) and
`virtio_console_init` return true, and the status register ends as exactly
`ACKNOWLEDGE | DRIVER | FEATURES_OK | DRIVER_OK`.  The desired features fit in
the feature words negotiated, of which there are at most two, and the number of
queues fits the 32-bit `QueueSel` register. -/
theorem handshake_succeeds (K : Consts) (w : World SimDev) (shmem_base mmio_base : Nat)
    (hW : K.VIRTIO_MMIO_FEATURE_SEL_SIZE ≤ 2)
    (hF : K.VIRTIO_CONSOLE_FEATURES < 2 ^ (32 * K.VIRTIO_MMIO_FEATURE_SEL_SIZE))
    (hQ : K.VIRTIO_CONSOLE_NUM_VQS ≤ U32_MOD)
    (hprobe : sim_probe_ok K w.dev)
    (hfeat : w.dev.features = K.VIRTIO_CONSOLE_FEATURES)
    (hqueues : sim_queues_ok K w.dev) :
    (w.console.device_id = K.VIRTIO_CONSOLE_DEVICE_ID →
      w.console.negotiated_feature_bits = 0 →
      (virtio_console_mmio_init K sim_device w).1 = true ∧
      (virtio_console_mmio_init K sim_device w).2.dev.status =
        (ACKNOWLEDGE ||| DRIVER ||| FEATURES_OK ||| DRIVER_OK)) ∧
    (virtio_console_init K sim_device shmem_base mmio_base w).1 = true ∧
    (virtio_console_init K sim_device shmem_base mmio_base w).2.dev.status =
      (ACKNOWLEDGE ||| DRIVER ||| FEATURES_OK ||| DRIVER_OK) ∧
    (virtio_console_init K sim_device shmem_base mmio_base w).2.dev.status &&& FAILED = 0 := by
  refine ⟨fun hid hbits => mmio_init_sim_ok K w hW hF hQ hprobe hfeat hqueues hid hbits, ?_⟩
  have h := mmio_init_sim_ok K (virtio_console_init_queues K shmem_base mmio_base w) hW hF hQ
    hprobe hfeat hqueues rfl rfl
  refine ⟨h.1, h.2, ?_⟩
  have h2 : (virtio_console_init K sim_device shmem_base mmio_base w).2.dev.status =
      (ACKNOWLEDGE ||| DRIVER ||| FEATURES_OK ||| DRIVER_OK) := h.2
  rw [h2]
  decide

/-- Witness of `handshake_succeeds`: the example device offering feature bit 32,
the one desired. -/
theorem handshake_succeeds_witness :
    ((example_world (2 ^ 32)).console.device_id = example_consts.VIRTIO_CONSOLE_DEVICE_ID →
      (example_world (2 ^ 32)).console.negotiated_feature_bits = 0 →
      (virtio_console_mmio_init example_consts sim_device (example_world (2 ^ 32))).1 = true ∧
      (virtio_console_mmio_init example_consts sim_device (example_world (2 ^ 32))).2.dev.status =
        (ACKNOWLEDGE ||| DRIVER ||| FEATURES_OK ||| DRIVER_OK)) ∧
    (virtio_console_init example_consts sim_device 0x50000000 0xa003e00
      (example_world (2 ^ 32))).1 = true ∧
    (virtio_console_init example_consts sim_device 0x50000000 0xa003e00
      (example_world (2 ^ 32))).2.dev.status =
      (ACKNOWLEDGE ||| DRIVER ||| FEATURES_OK ||| DRIVER_OK) ∧
    (virtio_console_init example_consts sim_device 0x50000000 0xa003e00
      (example_world (2 ^ 32))).2.dev.status &&& FAILED = 0 :=
  handshake_succeeds example_consts (example_world (2 ^ 32)) 0x50000000 0xa003e00
    (by decide) (by decide) (by decide) ⟨by decide, by decide, by decide⟩ rfl
    (fun _ _ => ⟨(by decide : (0 : Nat) % U32_MOD = 0), (by decide : (4 : Nat) % U32_MOD ≠ 0)⟩)

/-- C6: against a simulated device that passes the probe and retains the status
written to it, but whose offered feature words lack bit `k` of the desired
feature set, `virtio_console_mmio_init` (on a console whose `device_id` and
`negotiated_feature_bits` are as `virtio_console_init` sets them) returns false
at the feature verification: the negotiated mask differs from the desired set,
the status register ends as `ACKNOWLEDGE | DRIVER | FAILED`, the most recent
register access is `Status |= FAILED` on a status that read `ACKNOWLEDGE |
DRIVER`, and no access of the call writes FEATURES_OK. -/
theorem handshake_fails_on_missing_feature (K : Consts) (w : World SimDev) (k : Nat)
    (hW : K.VIRTIO_MMIO_FEATURE_SEL_SIZE ≤ 2)
    (hprobe : sim_probe_ok K w.dev)
    (hid : w.console.device_id = K.VIRTIO_CONSOLE_DEVICE_ID)
    (hbits : w.console.negotiated_feature_bits = 0)
    (hwant : K.VIRTIO_CONSOLE_FEATURES.testBit k = true)
    (hlack : k < 32 * K.VIRTIO_MMIO_FEATURE_SEL_SIZE → w.dev.features.testBit k = false) :
    (virtio_console_mmio_init K sim_device w).1 = false ∧
    (virtio_console_mmio_init K sim_device w).2.console.negotiated_feature_bits ≠
      K.VIRTIO_CONSOLE_FEATURES ∧
    (virtio_console_mmio_init K sim_device w).2.dev.status =
      (ACKNOWLEDGE ||| DRIVER ||| FAILED) ∧
    ∃ evs, (virtio_console_mmio_init K sim_device w).2.log =
        Access.orw Reg.Status FAILED (ACKNOWLEDGE ||| DRIVER) :: evs ++ w.log ∧
      ∀ e ∈ evs, e.sets_features_ok = false :=
  mmio_init_sim_missing K w k hW hprobe hid hbits hwant hlack

/-- Witness of `handshake_fails_on_missing_feature`: the example device offering
no feature, while bit 32 is desired, and the console as `virtio_console_init`
sets it up. -/
theorem handshake_fails_on_missing_feature_witness :
    (virtio_console_mmio_init example_consts sim_device
      (virtio_console_init_queues example_consts 0x50000000 0xa003e00 (example_world 0))).1 =
        false ∧
    (virtio_console_mmio_init example_consts sim_device
      (virtio_console_init_queues example_consts 0x50000000 0xa003e00
        (example_world 0))).2.console.negotiated_feature_bits ≠
      example_consts.VIRTIO_CONSOLE_FEATURES ∧
    (virtio_console_mmio_init example_consts sim_device
      (virtio_console_init_queues example_consts 0x50000000 0xa003e00
        (example_world 0))).2.dev.status = (ACKNOWLEDGE ||| DRIVER ||| FAILED) ∧
    ∃ evs, (virtio_console_mmio_init example_consts sim_device
      (virtio_console_init_queues example_consts 0x50000000 0xa003e00
        (example_world 0))).2.log =
        Access.orw Reg.Status FAILED (ACKNOWLEDGE ||| DRIVER) :: evs ++
          (virtio_console_init_queues example_consts 0x50000000 0xa003e00
            (example_world 0)).log ∧
      ∀ e ∈ evs, e.sets_features_ok = false :=
  handshake_fails_on_missing_feature example_consts
    (virtio_console_init_queues example_consts 0x50000000 0xa003e00 (example_world 0)) 32
    (by decide) ⟨by decide, by decide, by decide⟩ rfl rfl (by decide) (fun _ => by decide)

/-- C7: for every device behaviour, the accesses `evs` that
`virtio_console_mmio_init` adds to the log satisfy: when it returns false, the
most recent access, hence the last register write, is `Status |= FAILED`, with
no access after it; when it returns true, no access ORs FAILED into the
status. -/
theorem mmio_init_failed_is_last {σ : Type} (K : Consts) (D : Device σ) (w : World σ) :
    ∃ evs : List Access, (virtio_console_mmio_init K D w).2.log = evs ++ w.log ∧
      ((virtio_console_mmio_init K D w).1 = false →
        ∃ v rest, evs = Access.orw Reg.Status FAILED v :: rest) ∧
      ((virtio_console_mmio_init K D w).1 = true → ∀ e ∈ evs, e.sets_failed = false) :=
  failedLast_mmio_init K D w

/-! ## Theorems about the console -/

/-- C8: for every device behaviour, `virtio_console_init` returns the result of
`virtio_console_mmio_init` on the console it has set up, and has
`console.ready == true` on return, whatever the handshake returned; with a device that lacks the desired feature the
function returns false and the console is ready all the same. -/
theorem console_init_result_and_ready {σ : Type} (K : Consts) (D : Device σ)
    (shmem_base mmio_base : Nat) (w : World σ) :
    (virtio_console_init K D shmem_base mmio_base w).1 =
      (virtio_console_mmio_init K D
        (virtio_console_init_queues K shmem_base mmio_base w)).1 ∧
    (virtio_console_init K D shmem_base mmio_base w).2.console.ready = true ∧
    ((virtio_console_init example_consts sim_device 0x50000000 0xa003e00
        (example_world 0)).1 = false ∧
      (virtio_console_init example_consts sim_device 0x50000000 0xa003e00
        (example_world 0)).2.console.ready = true) := by
  refine ⟨rfl, rfl, ?_, rfl⟩
  decide

/-- C9: for every console state with `ready == false` and every string,
`virtio_console_transmit` and `virtio_console_receive` return with the whole
state, that is the console with its virtqueues and pools, the memory, the device
behind the registers and the log of register accesses, exactly as it was, and
`virtio_console_receive` returns `NULL`. -/
theorem not_ready_no_effect {σ : Type} (K : Consts) (D : Device σ) (w : World σ)
    (data : List Nat) (h : w.console.ready = false) :
    virtio_console_transmit K D data w = some w ∧
    virtio_console_receive K D w = (none, w) := by
  constructor
  · simp [virtio_console_transmit, h]
  · simp [virtio_console_receive, h]

/-- Witness of `not_ready_no_effect`: the example console before
`virtio_console_init`, and the string "Hi". -/
theorem not_ready_no_effect_witness :
    virtio_console_transmit example_consts sim_device [72, 105] (example_world 0) =
      some (example_world 0) ∧
    virtio_console_receive example_consts sim_device (example_world 0) =
      (none, example_world 0) :=
  not_ready_no_effect example_consts sim_device (example_world 0) [72, 105] rfl

/-- C10: for a ready console whose transmit queue has the free descriptor `d` on
top of its free list and whose transmit pool grants the request of `L` bytes at
address `a`, and a non-empty string `data` of length `L` (within the range of
the `int` that holds it), `virtio_console_transmit` completes; it has taken `d`
from the free list, the pool is the one the allocation left, the `L` bytes of
`data` are stored from `a` on, descriptor `d` has `addr = a`, `len = L` and is
not device-writable, `d` is the entry of the avail ring at the old index modulo
`N` and the index has advanced by one, and the most recent register access, the
only one of the call, is the write of the `queue_index` of the transmit queue to
`QueueNotify`. -/
theorem transmit_publishes {σ : Type} (K : Consts) (D : Device σ) (w : World σ)
    (data : List Nat) (d : Nat) (rest : List Nat) (a : Nat) (pool' : virtio_memory_pool)
    (hready : w.console.ready = true) (hne : data ≠ []) (hlen : data.length < 2 ^ 31)
    (hfree : (w.console.vqs K.VIRTIO_CONSOLE_TX_VQ_IDX).free_list = d :: rest)
    (halloc : virtio_memory_pool_alloc (w.console.vqs K.VIRTIO_CONSOLE_TX_VQ_IDX).pool
      data.length = (some a, pool')) :
    ∃ w' : World σ, virtio_console_transmit K D data w = some w' ∧
      (w'.console.vqs K.VIRTIO_CONSOLE_TX_VQ_IDX).free_list = rest ∧
      (w'.console.vqs K.VIRTIO_CONSOLE_TX_VQ_IDX).pool = pool' ∧
      (∀ i, i < data.length → w'.mem (a + i) = data.getD i 0) ∧
      ((w'.console.vqs K.VIRTIO_CONSOLE_TX_VQ_IDX).desc_table d).addr = a ∧
      ((w'.console.vqs K.VIRTIO_CONSOLE_TX_VQ_IDX).desc_table d).len = data.length ∧
      ((w'.console.vqs K.VIRTIO_CONSOLE_TX_VQ_IDX).desc_table d).device_writable = false ∧
      (w'.console.vqs K.VIRTIO_CONSOLE_TX_VQ_IDX).avail_ring
        ((w.console.vqs K.VIRTIO_CONSOLE_TX_VQ_IDX).avail_idx % K.VIRTQ_NUM_DESC) = d ∧
      (w'.console.vqs K.VIRTIO_CONSOLE_TX_VQ_IDX).avail_idx =
        ((w.console.vqs K.VIRTIO_CONSOLE_TX_VQ_IDX).avail_idx + 1) % U16_MOD ∧
      w'.log = Access.wr Reg.QueueNotify
        ((w.console.vqs K.VIRTIO_CONSOLE_TX_VQ_IDX).queue_index % U32_MOD) :: w.log ∧
      w'.dev = D.write Reg.QueueNotify
        ((w.console.vqs K.VIRTIO_CONSOLE_TX_VQ_IDX).queue_index % U32_MOD) w.dev := by
  have hpos : data.length ≠ 0 := by
    intro h0
    exact hne (List.length_eq_zero.mp h0)
  have hint : int_of_size data.length ≠ 0 := by
    rw [int_of_size_small hlen]
    exact_mod_cast hpos
  have hrun : virtio_console_transmit K D data w =
      some (virtio_mmio_queue_notify D (w.console.vqs K.VIRTIO_CONSOLE_TX_VQ_IDX).queue_index
        (set_vq { w with mem := strcpy w.mem a data } K.VIRTIO_CONSOLE_TX_VQ_IDX
          (virtq_add_avail_buf K
            (virtq_set_desc
              { w.console.vqs K.VIRTIO_CONSOLE_TX_VQ_IDX with free_list := rest, pool := pool' }
              d (virtq_desc_set_read_only
                (virtq_desc_init ((w.console.vqs K.VIRTIO_CONSOLE_TX_VQ_IDX).desc_table d) a
                  data.length)))
            d))) := by
    simp [virtio_console_transmit, hready, hint, virtq_get_free_desc_id, hfree,
      int_of_size_small hlen, ulong_of_int_natCast hlen, u32_of_int_natCast hlen, halloc,
      virtq_get_desc_by_id, virtq_add_avail_buf, virtq_set_desc, hne]
  refine ⟨_, hrun, ?_⟩
  simp [set_vq, virtio_mmio_queue_notify, mmio_write, virtq_add_avail_buf, virtq_set_desc,
    virtq_desc_set_read_only, virtq_desc_init,
    virtq_desc.device_writable]
  intro i hi
  simp [strcpy, hi]

/-- Witness of `transmit_publishes`: "Hello" on the example ready console, whose
transmit pool of 4096 bytes starts at `0x50001400`. -/
theorem transmit_publishes_witness :
    ∃ w' : World SimDev,
      virtio_console_transmit example_consts sim_device example_hello example_ready_world =
        some w' ∧
      (w'.console.vqs 1).free_list = [2, 1, 0] ∧
      (w'.console.vqs 1).pool = ⟨0x50001400, 4096, 5⟩ ∧
      (∀ i, i < 5 → w'.mem (0x50001400 + i) = example_hello.getD i 0) ∧
      ((w'.console.vqs 1).desc_table 3).addr = 0x50001400 ∧
      ((w'.console.vqs 1).desc_table 3).len = 5 ∧
      ((w'.console.vqs 1).desc_table 3).device_writable = false ∧
      (w'.console.vqs 1).avail_ring (0 % 4) = 3 ∧
      (w'.console.vqs 1).avail_idx = (0 + 1) % U16_MOD ∧
      w'.log = Access.wr Reg.QueueNotify (1 % U32_MOD) :: [] ∧
      w'.dev = sim_device.write Reg.QueueNotify (1 % U32_MOD) (example_sim (2 ^ 32)) :=
  transmit_publishes example_consts sim_device example_ready_world example_hello 3 [2, 1, 0]
    0x50001400 ⟨0x50001400, 4096, 5⟩ rfl (by decide) (by decide) rfl (by decide)

/-! ## Allocation bounds and the transmit path -/

/-- What `virtio_console_transmit` computes once the descriptor `d` is popped and
the pool has granted the buffer at `a`. -/
theorem transmit_run {σ : Type} (K : Consts) (D : Device σ) (w : World σ)
    (data : List Nat) (d : Nat) (rest : List Nat) (a : Nat) (pool' : virtio_memory_pool)
    (hready : w.console.ready = true) (hne : data ≠ []) (hlen : data.length < 2 ^ 31)
    (hfree : (w.console.vqs K.VIRTIO_CONSOLE_TX_VQ_IDX).free_list = d :: rest)
    (halloc : virtio_memory_pool_alloc (w.console.vqs K.VIRTIO_CONSOLE_TX_VQ_IDX).pool
      data.length = (some a, pool')) :
    virtio_console_transmit K D data w =
      some (virtio_mmio_queue_notify D (w.console.vqs K.VIRTIO_CONSOLE_TX_VQ_IDX).queue_index
        (set_vq { w with mem := strcpy w.mem a data } K.VIRTIO_CONSOLE_TX_VQ_IDX
          (virtq_add_avail_buf K
            (virtq_set_desc
              { w.console.vqs K.VIRTIO_CONSOLE_TX_VQ_IDX with free_list := rest, pool := pool' }
              d (virtq_desc_set_read_only
                (virtq_desc_init ((w.console.vqs K.VIRTIO_CONSOLE_TX_VQ_IDX).desc_table d) a
                  data.length)))
            d))) := by
  have hpos : data.length ≠ 0 := by
    intro h0
    exact hne (List.length_eq_zero.mp h0)
  have hint : int_of_size data.length ≠ 0 := by
    rw [int_of_size_small hlen]
    exact_mod_cast hpos
  simp [virtio_console_transmit, hready, hint, virtq_get_free_desc_id, hfree,
    int_of_size_small hlen, ulong_of_int_natCast hlen, u32_of_int_natCast hlen, halloc,
    virtq_get_desc_by_id, virtq_add_avail_buf, virtq_set_desc, hne]

/-- C19: for a pool with `offset <= size` and `size < 2^63`, whenever
`virtio_memory_pool_alloc` succeeds with the address `base + k`, the range
`[base + k, base + k + n)` lies inside the pool, `k + n <= size`, and the new
offset is `k + n`. -/
theorem alloc_stays_inside_pool (p p' : virtio_memory_pool) (n a : Nat)
    (hsize : p.size < 2 ^ 63) (hinv : p.offset ≤ p.size)
    (hok : virtio_memory_pool_alloc p n = (some a, p')) :
    ∃ k, a = p.base + k ∧ k + n ≤ p.size ∧ p'.offset = k + n := by
  unfold virtio_memory_pool_alloc at hok
  by_cases h1 : n > p.size
  · simp [h1] at hok
  · have hsum : ulong_add p.offset n = p.offset + n :=
      ulong_add_eq_of_small hsize hinv (by omega)
    have h0 : ulong_add 0 n = n := ulong_add_zero_left (by unfold ULONG_MOD; omega)
    by_cases h2 : ulong_add p.offset n ≤ p.size
    · simp [h1, h2] at hok
      obtain ⟨ha, hp⟩ := hok
      subst hp
      exact ⟨p.offset, ha.symm, by omega, hsum⟩
    · by_cases h3 : n ≤ p.offset
      · simp [h1, h2, h3] at hok
        obtain ⟨ha, hp⟩ := hok
        subst hp
        exact ⟨0, by simp [← ha], by omega, by simp [h0]⟩
      · simp [h1, h2, h3] at hok

/-- Witness of `alloc_stays_inside_pool`: size 10, offset 8, request 5, which
wraps to the base. -/
theorem alloc_stays_inside_pool_witness :
    ∃ k, 4096 = 4096 + k ∧ k + 5 ≤ 10 ∧ (5 : Nat) = k + 5 :=
  alloc_stays_inside_pool ⟨4096, 10, 8⟩ ⟨4096, 10, 5⟩ 5 4096 (by decide) (by decide)
    (by decide)

/-- C11 (the code at the failing input): on a ready console whose transmit queue
has no free descriptor, `virtio_console_transmit` of a non-empty string does not
return at a guard: it has no call of `virtq_has_free_slots` and goes on to
`virtq_get_free_desc_id`, whose precondition (a non-empty free list) is
violated, so the outcome is undefined (`none`), not the unchanged state. -/
theorem transmit_without_free_descriptor {σ : Type} (K : Consts) (D : Device σ) (w : World σ)
    (data : List Nat) (hready : w.console.ready = true) (hne : data ≠ [])
    (hlen : data.length < 2 ^ 31)
    (hfull : virtq_has_free_slots (w.console.vqs K.VIRTIO_CONSOLE_TX_VQ_IDX) = false) :
    virtio_console_transmit K D data w = none ∧
    virtio_console_transmit K D data w ≠ some w := by
  have hpos : data.length ≠ 0 := by
    intro h0
    exact hne (List.length_eq_zero.mp h0)
  have hint : int_of_size data.length ≠ 0 := by
    rw [int_of_size_small hlen]
    exact_mod_cast hpos
  have hnil : (w.console.vqs K.VIRTIO_CONSOLE_TX_VQ_IDX).free_list = [] := by
    simpa [virtq_has_free_slots] using hfull
  have hrun : virtio_console_transmit K D data w = none := by
    simp [virtio_console_transmit, hready, hint, virtq_get_free_desc_id, hnil]
  exact ⟨hrun, by rw [hrun]; simp⟩

/-- Witness of `transmit_without_free_descriptor`: "Hello" on the example ready
console with an empty transmit free list. -/
theorem transmit_without_free_descriptor_witness :
    virtio_console_transmit example_consts sim_device example_hello example_full_world = none ∧
    virtio_console_transmit example_consts sim_device example_hello example_full_world ≠
      some example_full_world :=
  transmit_without_free_descriptor example_consts sim_device example_full_world
    example_hello rfl (by decide) (by decide) (by decide)

/-- C20 (the code at the failing input): when `virtio_console_transmit` copies a
string of length `L` into the `L` bytes allocated at `a`, `strcpy` also stores
the terminating NUL at `a + L`, one byte past the allocation; the bytes below
`a` and above `a + L` are unchanged. -/
theorem transmit_writes_past_allocation {σ : Type} (K : Consts) (D : Device σ) (w : World σ)
    (data : List Nat) (d : Nat) (rest : List Nat) (a : Nat) (pool' : virtio_memory_pool)
    (hready : w.console.ready = true) (hne : data ≠ []) (hlen : data.length < 2 ^ 31)
    (hfree : (w.console.vqs K.VIRTIO_CONSOLE_TX_VQ_IDX).free_list = d :: rest)
    (halloc : virtio_memory_pool_alloc (w.console.vqs K.VIRTIO_CONSOLE_TX_VQ_IDX).pool
      data.length = (some a, pool')) :
    ∃ w' : World σ, virtio_console_transmit K D data w = some w' ∧
      w'.mem (a + data.length) = 0 ∧
      (∀ x, x < a ∨ a + data.length < x → w'.mem x = w.mem x) := by
  refine ⟨_, transmit_run K D w data d rest a pool' hready hne hlen hfree halloc, ?_, ?_⟩
  · simp [set_vq, virtio_mmio_queue_notify, mmio_write, strcpy]
  · intro x hx
    have h1 : ¬ (a ≤ x ∧ x < a + data.length) := by omega
    have h2 : ¬ x = a + data.length := by omega
    simp [set_vq, virtio_mmio_queue_notify, mmio_write, strcpy, h1, h2]

/-- Witness of `transmit_writes_past_allocation`: "Hello" on the example ready
console over a memory of bytes 255; the byte at `0x50001400 + 5`, outside the
five bytes allocated, held 255 and holds 0 afterwards. -/
theorem transmit_writes_past_allocation_witness :
    example_dirty_world.mem (0x50001400 + 5) = 255 ∧
    ∃ w' : World SimDev,
      virtio_console_transmit example_consts sim_device example_hello example_dirty_world =
        some w' ∧
      w'.mem (0x50001400 + 5) = 0 ∧
      (∀ x, x < 0x50001400 ∨ 0x50001400 + 5 < x → w'.mem x = example_dirty_world.mem x) :=
  ⟨rfl, transmit_writes_past_allocation example_consts sim_device example_dirty_world
    example_hello 3 [2, 1, 0] 0x50001400 ⟨0x50001400, 4096, 5⟩ rfl (by decide) (by decide) rfl
    (by decide)⟩

/-- C12 (the code at the failing input): when the pool allocation of
`virtio_console_transmit` fails, the descriptor popped just before is neither put
back on the free list nor published, so `|free_list| + |published-not-reclaimed|`
has dropped by one; and with a pool smaller than a receive buffer the pre-fill of
`virtio_console_init` has lost a descriptor the same way: three free, none
published, for a queue of four. -/
theorem transmit_alloc_failure_leaks_descriptor {σ : Type} (K : Consts) (D : Device σ)
    (w : World σ) (data : List Nat) (d : Nat) (rest : List Nat)
    (hready : w.console.ready = true) (hne : data ≠ []) (hlen : data.length < 2 ^ 31)
    (hfree : (w.console.vqs K.VIRTIO_CONSOLE_TX_VQ_IDX).free_list = d :: rest)
    (halloc : (virtio_memory_pool_alloc (w.console.vqs K.VIRTIO_CONSOLE_TX_VQ_IDX).pool
      data.length).1 = none) :
    (∃ w' : World σ, virtio_console_transmit K D data w = some w' ∧
      (w'.console.vqs K.VIRTIO_CONSOLE_TX_VQ_IDX).free_list = rest ∧
      virtq_in_flight (w'.console.vqs K.VIRTIO_CONSOLE_TX_VQ_IDX) =
        virtq_in_flight (w.console.vqs K.VIRTIO_CONSOLE_TX_VQ_IDX) ∧
      (w'.console.vqs K.VIRTIO_CONSOLE_TX_VQ_IDX).free_list.length +
          virtq_in_flight (w'.console.vqs K.VIRTIO_CONSOLE_TX_VQ_IDX) + 1 =
        (w.console.vqs K.VIRTIO_CONSOLE_TX_VQ_IDX).free_list.length +
          virtq_in_flight (w.console.vqs K.VIRTIO_CONSOLE_TX_VQ_IDX)) ∧
    ((small_pool_world.console.vqs 0).free_list.length = 3 ∧
      virtq_in_flight (small_pool_world.console.vqs 0) = 0 ∧
      small_pool_consts.VIRTQ_NUM_DESC = 4) := by
  have hpos : data.length ≠ 0 := by
    intro h0
    exact hne (List.length_eq_zero.mp h0)
  have hint : int_of_size data.length ≠ 0 := by
    rw [int_of_size_small hlen]
    exact_mod_cast hpos
  refine ⟨⟨set_vq w K.VIRTIO_CONSOLE_TX_VQ_IDX
      { w.console.vqs K.VIRTIO_CONSOLE_TX_VQ_IDX with
        free_list := rest
        pool := (virtio_memory_pool_alloc (w.console.vqs K.VIRTIO_CONSOLE_TX_VQ_IDX).pool
          data.length).2 }, ?_, ?_, ?_, ?_⟩, ?_⟩
  · simp [virtio_console_transmit, hready, hint, virtq_get_free_desc_id, hfree,
      int_of_size_small hlen, ulong_of_int_natCast hlen, halloc, hne]
  · simp [set_vq]
  · simp [set_vq, virtq_in_flight]
  · simp [set_vq, virtq_in_flight, hfree]
    omega
  · decide

/-- Witness of `transmit_alloc_failure_leaks_descriptor`: "Hello, world", 12
bytes, on the console initialised with a transmit pool of 8 bytes: four free
descriptors and none in flight before, three free and none in flight after. -/
theorem transmit_alloc_failure_leaks_descriptor_witness :
    ((small_pool_world.console.vqs 1).free_list.length = 4 ∧
      virtq_in_flight (small_pool_world.console.vqs 1) = 0) ∧
    (∃ w' : World SimDev,
      virtio_console_transmit small_pool_consts sim_device example_hello_world
        small_pool_world = some w' ∧
      (w'.console.vqs 1).free_list = [2, 1, 0] ∧
      virtq_in_flight (w'.console.vqs 1) = virtq_in_flight (small_pool_world.console.vqs 1) ∧
      (w'.console.vqs 1).free_list.length + virtq_in_flight (w'.console.vqs 1) + 1 =
        (small_pool_world.console.vqs 1).free_list.length +
          virtq_in_flight (small_pool_world.console.vqs 1)) :=
  ⟨by decide,
    (transmit_alloc_failure_leaks_descriptor small_pool_consts sim_device small_pool_world
      example_hello_world 3 [2, 1, 0] (by decide) (by decide) (by decide) (by decide)
      (by decide)).1⟩

/-! ## Receive with a configuration-change interrupt -/

/-- C13, as stated, fails: on the example ready console with a used entry pending
on the receive queue and the configuration-change bit set in the interrupt
status, `virtio_console_receive` returns `NULL` and the used entry is still
pending on return: nothing was popped and nothing was reclaimed. -/
theorem receive_config_change_counterexample :
    example_config_change_world.console.ready = true ∧
    virtq_used_has_buf (example_config_change_world.console.vqs 0) = true ∧
    (mmio_read sim_device Reg.InterruptStatus example_config_change_world).1 &&&
      example_consts.VIRTIO_MMIO_INT_CONFIG ≠ 0 ∧
    (virtio_console_receive example_consts sim_device example_config_change_world).1 = none ∧
    virtq_used_has_buf ((virtio_console_receive example_consts sim_device
      example_config_change_world).2.console.vqs 0) = true ∧
    ((virtio_console_receive example_consts sim_device
      example_config_change_world).2.console.vqs 0).free_list =
      (example_config_change_world.console.vqs 0).free_list := by
  decide

/-- C13, amended: for a ready console, when `virtio_console_receive` reads an
interrupt status with the configuration-change bit set, it returns `NULL` for
this call and processes no used entry: the console, with both virtqueues and
their free lists, and the memory are as before; the call has only read
`InterruptStatus` and written the value read to `InterruptACK`. -/
theorem receive_config_change_processes_nothing {σ : Type} (K : Consts) (D : Device σ)
    (w : World σ) (hready : w.console.ready = true)
    (hcfg : (mmio_read D Reg.InterruptStatus w).1 &&& K.VIRTIO_MMIO_INT_CONFIG ≠ 0) :
    (virtio_console_receive K D w).1 = none ∧
    (virtio_console_receive K D w).2.console = w.console ∧
    (virtio_console_receive K D w).2.mem = w.mem ∧
    (virtio_console_receive K D w).2.log =
      Access.wr Reg.InterruptACK ((mmio_read D Reg.InterruptStatus w).1 % U32_MOD) ::
        Access.rd Reg.InterruptStatus (mmio_read D Reg.InterruptStatus w).1 :: w.log ∧
    (∀ q, virtq_used_has_buf ((virtio_console_receive K D w).2.console.vqs q) =
      virtq_used_has_buf (w.console.vqs q)) := by
  have hrun : virtio_console_receive K D w =
      (none, mmio_write D Reg.InterruptACK (mmio_read D Reg.InterruptStatus w).1
        (mmio_read D Reg.InterruptStatus w).2) := by
    simp only [virtio_console_receive, hready, Bool.not_true, Bool.false_eq_true, if_false]
    rw [if_pos hcfg]
  rw [hrun]
  refine ⟨rfl, rfl, rfl, rfl, fun _ => rfl⟩

/-- Witness of `receive_config_change_processes_nothing`: the example console
with a pending used entry and the configuration-change bit raised. -/
theorem receive_config_change_processes_nothing_witness :
    (virtio_console_receive example_consts sim_device example_config_change_world).1 = none ∧
    (virtio_console_receive example_consts sim_device example_config_change_world).2.console =
      example_config_change_world.console ∧
    (virtio_console_receive example_consts sim_device example_config_change_world).2.mem =
      example_config_change_world.mem ∧
    (virtio_console_receive example_consts sim_device example_config_change_world).2.log =
      Access.wr Reg.InterruptACK
        ((mmio_read sim_device Reg.InterruptStatus example_config_change_world).1 % U32_MOD) ::
        Access.rd Reg.InterruptStatus
          (mmio_read sim_device Reg.InterruptStatus example_config_change_world).1 ::
        example_config_change_world.log ∧
    (∀ q, virtq_used_has_buf ((virtio_console_receive example_consts sim_device
      example_config_change_world).2.console.vqs q) =
      virtq_used_has_buf (example_config_change_world.console.vqs q)) :=
  receive_config_change_processes_nothing example_consts sim_device
    example_config_change_world rfl (by decide)

/-! ## The words of a 64-bit address -/

/-- The low and high words written for a 64-bit address recombine to it. -/
theorem addr_words (A : Nat) :
    (((((A % U64_MOD) >>> 32) &&& 0xFFFFFFFF) % U32_MOD) <<< 32) |||
        ((A % U64_MOD &&& 0xFFFFFFFF) % U32_MOD) = A % U64_MOD ∧
    (A % U64_MOD &&& 0xFFFFFFFF) % U32_MOD < U32_MOD ∧
    (((A % U64_MOD) >>> 32) &&& 0xFFFFFFFF) % U32_MOD < U32_MOD := by
  refine ⟨?_, Nat.mod_lt _ (by decide), Nat.mod_lt _ (by decide)⟩
  have hm : (0xFFFFFFFF : Nat) = 2 ^ 32 - 1 := by norm_num
  apply Nat.eq_of_testBit_eq
  intro k
  simp only [U32_MOD, U64_MOD, hm, Nat.testBit_or, Nat.testBit_shiftLeft, Nat.testBit_mod_two_pow,
    Nat.testBit_and, Nat.testBit_shiftRight, Nat.testBit_two_pow_sub_one]
  by_cases h1 : k < 32
  · have h2 : ¬ k ≥ 32 := by omega
    have h3 : k < 64 := by omega
    simp [h1, h2, h3]
  · have h2 : k ≥ 32 := by omega
    have e : 32 + (k - 32) = k := by omega
    by_cases h3 : k < 64
    · have h4 : k - 32 < 32 := by omega
      simp [h1, h2, h3, h4, e]
    · have h4 : ¬ k - 32 < 32 := by omega
      simp [h1, h3, h4]

/-! ## The receive pre-fill -/

theorem negotiate_features_log_before_config {σ : Type} (K : Consts) (D : Device σ) (n i : Nat)
    (w : World σ) : LogExt before_config w.log (negotiate_features K D n i w).log := by
  induction n generalizing i w with
  | zero => exact LogExt.refl _ _
  | succ n ih =>
    rw [negotiate_features]
    refine LogExt.trans ?_ (ih _ _)
    simp only [negotiate_word, set_negotiated_feature_bits, mmio_write, mmio_read]
    refine LogExt.cons (LogExt.cons (LogExt.cons (LogExt.cons (LogExt.refl _ _) _ ?_) _ ?_) _ ?_) _ ?_ <;>
      simp [before_config, Access.reads_config, Access.sets_features_ok]

theorem negotiate_features_console {σ : Type} (K : Consts) (D : Device σ) (n i : Nat)
    (w : World σ) :
    (negotiate_features K D n i w).console.device_id = w.console.device_id ∧
    (negotiate_features K D n i w).console.vqs = w.console.vqs := by
  induction n generalizing i w with
  | zero => exact ⟨rfl, rfl⟩
  | succ n ih =>
    rw [negotiate_features]
    obtain ⟨h1, h2⟩ := ih (i + 1) (negotiate_word K D i w)
    exact ⟨h1.trans rfl, h2.trans rfl⟩

theorem activate_queue_log_no_config {σ : Type} (K : Consts) (D : Device σ) (q : Nat)
    (w : World σ) :
    LogExt no_config_read w.log (activate_queue K D q w).2.log ∧
    (activate_queue K D q w).2.console = w.console := by
  unfold activate_queue
  dsimp only
  split
  · refine ⟨?_, rfl⟩
    simp only [mmio_or, mmio_read, mmio_write]
    refine LogExt.cons (LogExt.cons (LogExt.cons (LogExt.refl _ _) _ ?_) _ ?_) _ ?_ <;>
      simp [no_config_read, Access.reads_config]
  · split
    · refine ⟨?_, rfl⟩
      simp only [mmio_or, mmio_read, mmio_write]
      refine LogExt.cons (LogExt.cons (LogExt.cons (LogExt.cons (LogExt.refl _ _) _ ?_) _ ?_) _ ?_) _ ?_ <;>
        simp [no_config_read, Access.reads_config]
    · refine ⟨?_, rfl⟩
      simp only [mmio_read, mmio_write]
      refine LogExt.cons (LogExt.cons (LogExt.cons (LogExt.cons (LogExt.cons (LogExt.cons (LogExt.cons (LogExt.cons (LogExt.cons (LogExt.cons (LogExt.refl _ _) _ ?_) _ ?_) _ ?_) _ ?_) _ ?_) _ ?_) _ ?_) _ ?_) _ ?_) _ ?_ <;>
        simp [no_config_read, Access.reads_config]

theorem activate_queues_log_no_config {σ : Type} (K : Consts) (D : Device σ) (n q : Nat)
    (w : World σ) :
    LogExt no_config_read w.log (activate_queues K D n q w).2.log ∧
    (activate_queues K D n q w).2.console = w.console := by
  induction n generalizing q w with
  | zero => exact ⟨LogExt.refl _ _, rfl⟩
  | succ n ih =>
    rw [activate_queues]
    obtain ⟨h1, h2⟩ := activate_queue_log_no_config K D q w
    split
    · exact ⟨h1, h2⟩
    · obtain ⟨h3, h4⟩ := ih (q + 1) (activate_queue K D q w).2
      exact ⟨h1.trans h3, h4.trans h2⟩

theorem configOrder_early {σ : Type} (K : Consts) (D : Device σ) {l0 : List Access}
    {w : World σ} (h : LogExt before_config l0 w.log) :
    ConfigOrder K l0 (false, mmio_or D Reg.Status FAILED w) := by
  left
  obtain ⟨evs, h1, h2⟩ := h.cons (Access.orw Reg.Status FAILED
    ((D.read Reg.Status w.dev).1 % U32_MOD))
    ⟨rfl, by simp [Access.sets_features_ok]; decide⟩
  exact ⟨_, h1, h2⟩

theorem configOrder_late {σ : Type} (K : Consts) {l0 : List Access} {wN : World σ}
    (hpre : LogExt before_config l0 wN.log) (v emerg_wr max_nr_ports rows cols : Nat)
    (r : Bool × World σ)
    (hpost : LogExt no_config_read (Access.orw Reg.Status FEATURES_OK v ::
      Access.rd Reg.ConfigEmergWr emerg_wr :: Access.rd Reg.ConfigMaxNrPorts max_nr_ports ::
      Access.rd Reg.Config rows :: Access.rd Reg.Config cols :: wN.log) r.2.log)
    (hbits : r.2.console.negotiated_feature_bits = K.VIRTIO_CONSOLE_FEATURES) :
    ConfigOrder K l0 r := by
  right
  obtain ⟨pre, h1, h2⟩ := hpre
  obtain ⟨post, h3, h4⟩ := hpost
  refine ⟨pre, post, v, emerg_wr, max_nr_ports, rows, cols, ?_, h2, h4, hbits⟩
  rw [h3, h1]
  simp

theorem before_config_orw (m v : Nat) (hm : m &&& FEATURES_OK = 0) :
    before_config (Access.orw Reg.Status m v) := by
  simp [before_config, Access.reads_config, Access.sets_features_ok, hm]

theorem before_config_reset : before_config (Access.wr Reg.Status (RESET % U32_MOD)) := by
  unfold before_config
  decide

theorem configOrder_mmio_init {σ : Type} (K : Consts) (D : Device σ) (w : World σ) :
    ConfigOrder K w.log (virtio_console_mmio_init K D w) := by
  have h0 : LogExt before_config w.log w.log := LogExt.refl _ _
  unfold virtio_console_mmio_init
  dsimp only
  have h1 : LogExt before_config w.log (mmio_read D Reg.MagicValue w).2.log :=
    h0.cons _ ⟨rfl, rfl⟩
  split
  · exact configOrder_early K D h1
  have h2 : LogExt before_config w.log
      (mmio_read D Reg.Version (mmio_read D Reg.MagicValue w).2).2.log := h1.cons _ ⟨rfl, rfl⟩
  split
  · exact configOrder_early K D h2
  have h3 : LogExt before_config w.log (mmio_read D Reg.DeviceID
      (mmio_read D Reg.Version (mmio_read D Reg.MagicValue w).2).2).2.log :=
    h2.cons _ ⟨rfl, rfl⟩
  split
  · exact configOrder_early K D h3
  generalize (mmio_read D Reg.DeviceID
      (mmio_read D Reg.Version (mmio_read D Reg.MagicValue w).2).2).2 = w3 at h3 ⊢
  have h7 : LogExt before_config w.log (mmio_read D Reg.Status (mmio_or D Reg.Status DRIVER
      (mmio_or D Reg.Status ACKNOWLEDGE (mmio_write D Reg.Status RESET w3)))).2.log :=
    (((h3.cons _ before_config_reset).cons _ (before_config_orw _ _ (by decide))).cons _
      (before_config_orw _ _ (by decide))).cons _ ⟨rfl, rfl⟩
  split
  · exact configOrder_early K D h7
  generalize (mmio_read D Reg.Status (mmio_or D Reg.Status DRIVER
      (mmio_or D Reg.Status ACKNOWLEDGE (mmio_write D Reg.Status RESET w3)))).2 = w7 at h7 ⊢
  have hN := h7.trans (negotiate_features_log_before_config K D
    K.VIRTIO_MMIO_FEATURE_SEL_SIZE 0 w7)
  split
  · exact configOrder_early K D hN
  rename_i hbits
  have hbits' : (negotiate_features K D K.VIRTIO_MMIO_FEATURE_SEL_SIZE 0
      w7).console.negotiated_feature_bits = K.VIRTIO_CONSOLE_FEATURES := not_not.mp hbits
  generalize negotiate_features K D K.VIRTIO_MMIO_FEATURE_SEL_SIZE 0 w7 = wN at hN hbits' ⊢
  generalize (virtio_console_config.mk _ _ _ _) = cfg
  have h13 : LogExt no_config_read
      (mmio_or D Reg.Status FEATURES_OK (set_config_space (mmio_read D Reg.ConfigEmergWr
        (mmio_read D Reg.ConfigMaxNrPorts (mmio_read D Reg.Config
          (mmio_read D Reg.Config wN).2).2).2).2 cfg)).log
      (mmio_read D Reg.Status (mmio_or D Reg.Status FEATURES_OK (set_config_space
        (mmio_read D Reg.ConfigEmergWr (mmio_read D Reg.ConfigMaxNrPorts (mmio_read D Reg.Config
          (mmio_read D Reg.Config wN).2).2).2).2 cfg))).2.log :=
    (LogExt.refl _ _).cons _ rfl
  split
  · exact configOrder_late K hN _ _ _ _ _ _ (h13.cons _ rfl) hbits'
  generalize hw14 : (mmio_read D Reg.Status (mmio_or D Reg.Status FEATURES_OK (set_config_space
      (mmio_read D Reg.ConfigEmergWr (mmio_read D Reg.ConfigMaxNrPorts (mmio_read D Reg.Config
        (mmio_read D Reg.Config wN).2).2).2).2 cfg))).2 = w14 at h13 ⊢
  have hb14 : w14.console.negotiated_feature_bits = K.VIRTIO_CONSOLE_FEATURES := by
    rw [← hw14]; exact hbits'
  obtain ⟨a1, a2⟩ := activate_queues_log_no_config K D K.VIRTIO_CONSOLE_NUM_VQS 0 w14
  have h15 := h13.trans a1
  have hbA : (activate_queues K D K.VIRTIO_CONSOLE_NUM_VQS 0 w14).2.console.negotiated_feature_bits =
      K.VIRTIO_CONSOLE_FEATURES := by rw [a2]; exact hb14
  split
  · exact configOrder_late K hN _ _ _ _ _ _ h15 hbA
  generalize (activate_queues K D K.VIRTIO_CONSOLE_NUM_VQS 0 w14).2 = wA at h15 hbA ⊢
  have h16 := h15.cons (Access.orw Reg.Status DRIVER_OK ((D.read Reg.Status wA.dev).1 % U32_MOD))
    rfl
  have h17 := h16.cons (Access.rd Reg.Status
    ((D.read Reg.Status (mmio_or D Reg.Status DRIVER_OK wA).dev).1 % U32_MOD)) rfl
  split
  · exact configOrder_late K hN _ _ _ _ _ _ (h17.cons (Access.orw Reg.Status FAILED _) rfl) hbA
  · exact configOrder_late K hN _ _ _ _ _ _ h17 hbA

/-- C18, as stated, fails.  In the successful run against the example device the
first read of the configuration space is access 15 of the run and precedes
`Status |= FEATURES_OK`, which is access 19.  And against a device that does not
retain FEATURES_OK the run fails at the Features OK check, returning false right
after the read-back of the status, yet it has read the configuration space. -/
theorem config_read_order_counterexample :
    ((virtio_console_mmio_init example_consts sim_device
        (virtio_console_init_queues example_consts 0x50000000 0xa003e00
          (example_world (2 ^ 32)))).1 = true ∧
      (virtio_console_mmio_init example_consts sim_device
        (virtio_console_init_queues example_consts 0x50000000 0xa003e00
          (example_world (2 ^ 32)))).2.log.reverse.findIdx Access.reads_config = 15 ∧
      (virtio_console_mmio_init example_consts sim_device
        (virtio_console_init_queues example_consts 0x50000000 0xa003e00
          (example_world (2 ^ 32)))).2.log.reverse.findIdx Access.sets_features_ok = 19) ∧
    ((virtio_console_mmio_init example_consts forgetful_device
        (virtio_console_init_queues example_consts 0x50000000 0xa003e00
          (example_world (2 ^ 32)))).1 = false ∧
      (virtio_console_mmio_init example_consts forgetful_device
        (virtio_console_init_queues example_consts 0x50000000 0xa003e00
          (example_world (2 ^ 32)))).2.log.take 7 =
        [Access.orw Reg.Status FAILED 3,
          Access.rd Reg.Status 3,
          Access.orw Reg.Status FEATURES_OK 3,
          Access.rd Reg.ConfigEmergWr 0,
          Access.rd Reg.ConfigMaxNrPorts 1,
          Access.rd Reg.Config 1572944,
          Access.rd Reg.Config 1572944]) := by
  decide

/-- C18, amended: in every run of `virtio_console_mmio_init`, for every device,
the accesses of the run either contain no read of the configuration space and
no write of FEATURES_OK (the runs that fail at or before the verification of the
negotiated features), or they contain exactly four reads of the configuration
space, the cols/rows word twice, `max_nr_ports` and `emerg_wr`, made after the
negotiated features have been verified to be the desired set and directly
before `Status |= FEATURES_OK`: before them nothing wrote FEATURES_OK, after them
nothing reads the configuration space. -/
theorem config_read_before_features_ok {σ : Type} (K : Consts) (D : Device σ) (w : World σ) :
    (∃ evs, (virtio_console_mmio_init K D w).2.log = evs ++ w.log ∧
      ∀ e ∈ evs, e.reads_config = false ∧ e.sets_features_ok = false) ∨
    (∃ (pre post : List Access) (v emerg_wr max_nr_ports rows cols : Nat),
      (virtio_console_mmio_init K D w).2.log =
        post ++ (Access.orw Reg.Status FEATURES_OK v ::
          Access.rd Reg.ConfigEmergWr emerg_wr ::
          Access.rd Reg.ConfigMaxNrPorts max_nr_ports ::
          Access.rd Reg.Config rows ::
          Access.rd Reg.Config cols :: pre) ++ w.log ∧
      (∀ e ∈ pre, e.reads_config = false ∧ e.sets_features_ok = false) ∧
      (∀ e ∈ post, e.reads_config = false) ∧
      (virtio_console_mmio_init K D w).2.console.negotiated_feature_bits =
        K.VIRTIO_CONSOLE_FEATURES) :=
  configOrder_mmio_init K D w

/-! ## The loops of receive -/

/-- With no used entry pending, the used-ring loop does nothing. -/
theorem drain_used_no_buf (K : Consts) (vq_id fuel : Nat) (vq : virtq) (mem : Nat → Nat)
    (msg : Option Nat) (h : virtq_used_has_buf vq = false) :
    drain_used K vq_id fuel vq mem msg = (vq, mem, msg) := by
  cases fuel with
  | zero => rfl
  | succ fuel => simp [drain_used, h]

/-- On a queue other than the receive queue, the used-ring loop leaves the memory
and `received_msg` as they are. -/
theorem drain_used_other (K : Consts) (vq_id fuel : Nat) (vq : virtq) (mem : Nat → Nat)
    (msg : Option Nat) (h : vq_id ≠ K.VIRTIO_CONSOLE_RX_VQ_IDX) :
    (drain_used K vq_id fuel vq mem msg).2 = (mem, msg) := by
  induction fuel generalizing vq with
  | zero => rfl
  | succ fuel ih =>
    simp only [drain_used]
    split
    · rfl
    · exact ih _

/-- The queue that the used-ring loop leaves when the used ring holds the ids
`ids` from `last_used_idx` on: all of them are consumed and pushed on the free
list, the last one on top. -/
theorem drain_used_queue (K : Consts) (vq_id : Nat) (ids : List Nat) (fuel : Nat) (vq : virtq)
    (mem : Nat → Nat) (msg : Option Nat)
    (hfuel : ids.length ≤ fuel)
    (hl : vq.last_used_idx < U16_MOD) (hk : ids.length < U16_MOD)
    (hu : vq.used_idx = (vq.last_used_idx + ids.length) % U16_MOD)
    (hring : ∀ j, j < ids.length →
      vq.used_ring (((vq.last_used_idx + j) % U16_MOD) % K.VIRTQ_NUM_DESC) = ids.getD j 0) :
    (drain_used K vq_id fuel vq mem msg).1 =
      { vq with last_used_idx := vq.used_idx, free_list := ids.reverse ++ vq.free_list } := by
  induction ids generalizing fuel vq mem msg with
  | nil =>
    have hul : vq.used_idx = vq.last_used_idx := by
      rw [hu]; simp [Nat.mod_eq_of_lt hl]
    rw [drain_used_no_buf K vq_id fuel vq mem msg (by simp [virtq_used_has_buf, hul])]
    cases vq
    simp_all
  | cons d rest ih =>
    obtain ⟨f, rfl⟩ : ∃ f, fuel = f + 1 := ⟨fuel - 1, by simp at hfuel; omega⟩
    simp only [List.length_cons] at hfuel hk hu hring
    have hne : vq.used_idx ≠ vq.last_used_idx := by
      rw [hu]; unfold U16_MOD at *; omega
    have hcond : ¬ ((!virtq_used_has_buf vq) = true) := by
      simp [virtq_used_has_buf, hne]
    have hd : vq.used_ring (vq.last_used_idx % K.VIRTQ_NUM_DESC) = d := by
      have := hring 0 (by omega)
      simpa [Nat.mod_eq_of_lt hl] using this
    have key : ∀ (mem' : Nat → Nat) (msg' : Option Nat),
        (drain_used K vq_id f (virtq_put_free_desc (virtq_get_used_buf_id K vq).2
          (virtq_get_used_buf_id K vq).1) mem' msg').1 =
        { vq with last_used_idx := vq.used_idx,
                  free_list := (d :: rest).reverse ++ vq.free_list } := by
      intro mem' msg'
      rw [ih f _ mem' msg' (by omega)
        (by simp only [virtq_put_free_desc, virtq_get_used_buf_id]; exact Nat.mod_lt _ (by decide))
        (by omega)
        (by
          simp only [virtq_put_free_desc, virtq_get_used_buf_id]
          rw [hu]; unfold U16_MOD at *; omega)
        (by
          intro j hj
          simp only [virtq_put_free_desc, virtq_get_used_buf_id]
          have e : ((vq.last_used_idx + 1) % U16_MOD + j) % U16_MOD =
              (vq.last_used_idx + (j + 1)) % U16_MOD := by
            unfold U16_MOD; omega
          rw [e, hring (j + 1) (by omega)]
          simp)]
      simp [virtq_put_free_desc, virtq_get_used_buf_id, hd]
    simp only [drain_used]
    rw [if_neg hcond]
    split
    · cases msg with
      | none => exact key _ _
      | some r => exact key _ _
    · exact key _ _

/-- The queue that the used-ring loop leaves does not depend on the memory or on
`received_msg`. -/
theorem drain_used_fst_indep (K : Consts) (vq_id fuel : Nat) (vq : virtq)
    (mem mem' : Nat → Nat) (msg msg' : Option Nat) :
    (drain_used K vq_id fuel vq mem msg).1 = (drain_used K vq_id fuel vq mem' msg').1 := by
  induction fuel generalizing vq mem mem' msg msg' with
  | zero => rfl
  | succ fuel ih =>
    simp only [drain_used]
    split
    · rfl
    · split
      · cases msg <;> cases msg' <;> exact ih _ _ _ _ _
      · exact ih _ _ _ _ _

/-- What the loop over the queues leaves in `console.vqs[q]`: for a queue it
visits, the queue that the used-ring loop leaves. -/
theorem receive_queues_vqs (K : Consts) (n i : Nat) (console : virtio_console)
    (mem : Nat → Nat) (msg : Option Nat) (q : Nat) :
    (receive_queues K n i console mem msg).1.vqs q =
      if i ≤ q ∧ q < i + n then
        (drain_used K q (virtq_used_pending (console.vqs q)) (console.vqs q) mem msg).1
      else console.vqs q := by
  induction n generalizing i console mem msg with
  | zero =>
    have : ¬ (i ≤ q ∧ q < i + 0) := by omega
    rw [if_neg this]
    rfl
  | succ n ih =>
    by_cases hq : q = i
    · subst hq
      have h1 : ¬ (q + 1 ≤ q ∧ q < q + 1 + n) := by omega
      have h2 : q ≤ q ∧ q < q + (n + 1) := by omega
      rw [if_pos h2]
      simp only [receive_queues]
      by_cases hb : (!virtq_used_has_buf (console.vqs q)) = true
      · rw [if_pos hb, ih, if_neg h1, drain_used_no_buf _ _ _ _ _ _ (by simpa using hb)]
      · rw [if_neg hb, ih, if_neg h1]
        simp
    · simp only [receive_queues]
      by_cases hb : (!virtq_used_has_buf (console.vqs i)) = true
      · rw [if_pos hb, ih]
        by_cases hin : i ≤ q ∧ q < i + (n + 1)
        · rw [if_pos hin, if_pos (by omega)]
        · rw [if_neg hin, if_neg (by omega)]
      · rw [if_neg hb, ih]
        have hupd : Function.update console.vqs i
            (drain_used K i (virtq_used_pending (console.vqs i)) (console.vqs i) mem msg).1 q =
            console.vqs q := by simp [Function.update, hq]
        by_cases hin : i ≤ q ∧ q < i + (n + 1)
        · rw [if_pos hin, if_pos (by omega)]
          simp only [hupd]
          exact drain_used_fst_indep _ _ _ _ _ _ _ _
        · rw [if_neg hin, if_neg (by omega)]
          exact hupd

/-- What the loop over the queues leaves as memory and `received_msg`: what the
used-ring loop leaves for the receive queue, if the loop visits it. -/
theorem receive_queues_msg (K : Consts) (n i : Nat) (console : virtio_console)
    (mem : Nat → Nat) (msg : Option Nat) :
    (receive_queues K n i console mem msg).2 =
      if i ≤ K.VIRTIO_CONSOLE_RX_VQ_IDX ∧ K.VIRTIO_CONSOLE_RX_VQ_IDX < i + n then
        (drain_used K K.VIRTIO_CONSOLE_RX_VQ_IDX
          (virtq_used_pending (console.vqs K.VIRTIO_CONSOLE_RX_VQ_IDX))
          (console.vqs K.VIRTIO_CONSOLE_RX_VQ_IDX) mem msg).2
      else (mem, msg) := by
  induction n generalizing i console mem msg with
  | zero =>
    have : ¬ (i ≤ K.VIRTIO_CONSOLE_RX_VQ_IDX ∧ K.VIRTIO_CONSOLE_RX_VQ_IDX < i + 0) := by omega
    rw [if_neg this]
    rfl
  | succ n ih =>
    by_cases hq : i = K.VIRTIO_CONSOLE_RX_VQ_IDX
    · have h1 : ¬ (i + 1 ≤ K.VIRTIO_CONSOLE_RX_VQ_IDX ∧ K.VIRTIO_CONSOLE_RX_VQ_IDX < i + 1 + n) := by
        omega
      have h2 : i ≤ K.VIRTIO_CONSOLE_RX_VQ_IDX ∧ K.VIRTIO_CONSOLE_RX_VQ_IDX < i + (n + 1) := by
        omega
      rw [if_pos h2, ← hq]
      simp only [receive_queues]
      rw [← hq] at h1
      by_cases hb : (!virtq_used_has_buf (console.vqs i)) = true
      · rw [if_pos hb, ih, ← hq, if_neg h1, drain_used_no_buf _ _ _ _ _ _ (by simpa using hb)]
      · rw [if_neg hb, ih, ← hq, if_neg h1]
    · have hne : K.VIRTIO_CONSOLE_RX_VQ_IDX ≠ i := fun h => hq h.symm
      simp only [receive_queues]
      by_cases hb : (!virtq_used_has_buf (console.vqs i)) = true
      · rw [if_pos hb, ih]
        by_cases hin : i ≤ K.VIRTIO_CONSOLE_RX_VQ_IDX ∧ K.VIRTIO_CONSOLE_RX_VQ_IDX < i + (n + 1)
        · rw [if_pos hin, if_pos (by omega)]
        · rw [if_neg hin, if_neg (by omega)]
      · have hother := drain_used_other K i (virtq_used_pending (console.vqs i)) (console.vqs i)
          mem msg hq
        have h1 : (drain_used K i (virtq_used_pending (console.vqs i)) (console.vqs i)
            mem msg).2.1 = mem := by rw [hother]
        have h2 : (drain_used K i (virtq_used_pending (console.vqs i)) (console.vqs i)
            mem msg).2.2 = msg := by rw [hother]
        have hupd : Function.update console.vqs i
            (drain_used K i (virtq_used_pending (console.vqs i)) (console.vqs i) mem msg).1
            K.VIRTIO_CONSOLE_RX_VQ_IDX = console.vqs K.VIRTIO_CONSOLE_RX_VQ_IDX := by
          simp [Function.update, hne]
        rw [if_neg hb, ih, h1, h2]
        by_cases hin : i ≤ K.VIRTIO_CONSOLE_RX_VQ_IDX ∧ K.VIRTIO_CONSOLE_RX_VQ_IDX < i + (n + 1)
        · rw [if_pos hin, if_pos (by omega)]
          simp only [hupd]
        · rw [if_neg hin, if_neg (by omega)]

/-- What `virtio_console_receive` computes for a ready console when the interrupt
status read has no configuration-change bit: the result of the loop over the
queues, started with `received_msg == NULL`. -/
theorem receive_run {σ : Type} (K : Consts) (D : Device σ) (w : World σ)
    (hready : w.console.ready = true)
    (hint : (D.read Reg.InterruptStatus w.dev).1 % U32_MOD &&& K.VIRTIO_MMIO_INT_CONFIG = 0) :
    (virtio_console_receive K D w).1 =
      (receive_queues K K.VIRTIO_CONSOLE_NUM_VQS 0 w.console w.mem none).2.2 ∧
    (virtio_console_receive K D w).2.console =
      (receive_queues K K.VIRTIO_CONSOLE_NUM_VQS 0 w.console w.mem none).1 ∧
    (virtio_console_receive K D w).2.mem =
      (receive_queues K K.VIRTIO_CONSOLE_NUM_VQS 0 w.console w.mem none).2.1 := by
  simp [virtio_console_receive, hready, mmio_read, mmio_write, hint]

/-! ## The transmit round trip -/

/-- After the device has marked one more entry used on a queue whose used ring was
drained, one used entry is pending. -/
theorem pending_after_mark (K : Consts) (vq : virtq) (id : Nat)
    (hu : vq.used_idx = vq.last_used_idx) :
    virtq_used_pending (device_mark_used K vq id) = 1 := by
  simp only [virtq_used_pending, device_mark_used, hu]
  unfold U16_MOD at *
  omega

/-- C15, amended: for a ready console whose transmit queue has no used entry
pending and a non-empty string for which `virtio_console_transmit` pops
descriptor `d` and is granted a buffer, the call publishes `d` on the transmit
queue; once the device has marked `d` used, with no receive-queue entry used and
no configuration-change bit in the interrupt status, the next
`virtio_console_receive` returns `NULL`, puts `d` back on the transmit free list,
which is then the list before the transmit, of the same size, and leaves
`virtq_used_has_buf` false on the transmit queue.  The receive and transmit
queue indices are distinct and the transmit index is below the number of
queues. -/
theorem transmit_round_trip {σ : Type} (K : Consts) (D : Device σ) (w : World σ) (s : σ)
    (data : List Nat) (d : Nat) (rest : List Nat) (a : Nat) (pool' : virtio_memory_pool)
    (hready : w.console.ready = true) (hne : data ≠ []) (hlen : data.length < 2 ^ 31)
    (hrxtx : K.VIRTIO_CONSOLE_RX_VQ_IDX ≠ K.VIRTIO_CONSOLE_TX_VQ_IDX)
    (htx : K.VIRTIO_CONSOLE_TX_VQ_IDX < K.VIRTIO_CONSOLE_NUM_VQS)
    (hfree : (w.console.vqs K.VIRTIO_CONSOLE_TX_VQ_IDX).free_list = d :: rest)
    (halloc : virtio_memory_pool_alloc (w.console.vqs K.VIRTIO_CONSOLE_TX_VQ_IDX).pool
      data.length = (some a, pool'))
    (hu : (w.console.vqs K.VIRTIO_CONSOLE_TX_VQ_IDX).used_idx =
      (w.console.vqs K.VIRTIO_CONSOLE_TX_VQ_IDX).last_used_idx)
    (hl : (w.console.vqs K.VIRTIO_CONSOLE_TX_VQ_IDX).last_used_idx < U16_MOD)
    (hrx : virtq_used_has_buf (w.console.vqs K.VIRTIO_CONSOLE_RX_VQ_IDX) = false)
    (hint : (D.read Reg.InterruptStatus s).1 % U32_MOD &&& K.VIRTIO_MMIO_INT_CONFIG = 0) :
    ∃ w1, virtio_console_transmit K D data w = some w1 ∧
      (w1.console.vqs K.VIRTIO_CONSOLE_TX_VQ_IDX).avail_ring
        ((w.console.vqs K.VIRTIO_CONSOLE_TX_VQ_IDX).avail_idx % K.VIRTQ_NUM_DESC) = d ∧
      (w1.console.vqs K.VIRTIO_CONSOLE_TX_VQ_IDX).free_list = rest ∧
      (virtio_console_receive K D (device_returns K w1 K.VIRTIO_CONSOLE_TX_VQ_IDX d s)).1 = none ∧
      ((virtio_console_receive K D
        (device_returns K w1 K.VIRTIO_CONSOLE_TX_VQ_IDX d s)).2.console.vqs
          K.VIRTIO_CONSOLE_TX_VQ_IDX).free_list = d :: rest ∧
      ((virtio_console_receive K D
        (device_returns K w1 K.VIRTIO_CONSOLE_TX_VQ_IDX d s)).2.console.vqs
          K.VIRTIO_CONSOLE_TX_VQ_IDX).free_list.length =
        (w.console.vqs K.VIRTIO_CONSOLE_TX_VQ_IDX).free_list.length ∧
      virtq_used_has_buf ((virtio_console_receive K D
        (device_returns K w1 K.VIRTIO_CONSOLE_TX_VQ_IDX d s)).2.console.vqs
          K.VIRTIO_CONSOLE_TX_VQ_IDX) = false := by
  refine ⟨_, transmit_run K D w data d rest a pool' hready hne hlen hfree halloc, ?_⟩
  generalize hvq1 : virtq_add_avail_buf K
    (virtq_set_desc
      { w.console.vqs K.VIRTIO_CONSOLE_TX_VQ_IDX with free_list := rest, pool := pool' }
      d (virtq_desc_set_read_only
        (virtq_desc_init ((w.console.vqs K.VIRTIO_CONSOLE_TX_VQ_IDX).desc_table d) a
          data.length))) d = vq1
  have hfl1 : vq1.free_list = rest := by rw [← hvq1]; rfl
  have hu1 : vq1.used_idx = vq1.last_used_idx := by rw [← hvq1]; exact hu
  have hl1 : vq1.last_used_idx < U16_MOD := by rw [← hvq1]; exact hl
  have hring1 : vq1.avail_ring
      ((w.console.vqs K.VIRTIO_CONSOLE_TX_VQ_IDX).avail_idx % K.VIRTQ_NUM_DESC) = d := by
    rw [← hvq1]; simp [virtq_add_avail_buf, virtq_set_desc]
  generalize hw1 : virtio_mmio_queue_notify D
    (w.console.vqs K.VIRTIO_CONSOLE_TX_VQ_IDX).queue_index
    (set_vq { w with mem := strcpy w.mem a data } K.VIRTIO_CONSOLE_TX_VQ_IDX vq1) = w1
  have hc1 : w1.console.vqs K.VIRTIO_CONSOLE_TX_VQ_IDX = vq1 := by
    rw [← hw1]; simp [virtio_mmio_queue_notify, mmio_write, set_vq]
  have hc1rx : w1.console.vqs K.VIRTIO_CONSOLE_RX_VQ_IDX =
      w.console.vqs K.VIRTIO_CONSOLE_RX_VQ_IDX := by
    rw [← hw1]; simp [virtio_mmio_queue_notify, mmio_write, set_vq, Function.update, hrxtx]
  have hr1 : w1.console.ready = true := by
    rw [← hw1]; simpa [virtio_mmio_queue_notify, mmio_write, set_vq] using hready
  generalize hw2 : device_returns K w1 K.VIRTIO_CONSOLE_TX_VQ_IDX d s = w2
  have hc2 : w2.console.vqs K.VIRTIO_CONSOLE_TX_VQ_IDX = device_mark_used K vq1 d := by
    rw [← hw2]; simp [device_returns, set_vq, hc1]
  have hc2rx : w2.console.vqs K.VIRTIO_CONSOLE_RX_VQ_IDX =
      w.console.vqs K.VIRTIO_CONSOLE_RX_VQ_IDX := by
    rw [← hw2, ← hc1rx]; simp [device_returns, set_vq, Function.update, hrxtx]
  have hr2 : w2.console.ready = true := by
    rw [← hw2]; simpa [device_returns, set_vq] using hr1
  have hd2 : w2.dev = s := by rw [← hw2]; rfl
  obtain ⟨hres, hcon, -⟩ := receive_run K D w2 hr2 (by rw [hd2]; exact hint)
  have hmsg : (virtio_console_receive K D w2).1 = none := by
    rw [hres, receive_queues_msg]
    split
    · rw [hc2rx, drain_used_no_buf _ _ _ _ _ _ hrx]
    · rfl
  have hq : (virtio_console_receive K D w2).2.console.vqs K.VIRTIO_CONSOLE_TX_VQ_IDX =
      { device_mark_used K vq1 d with
        last_used_idx := (device_mark_used K vq1 d).used_idx
        free_list := [d].reverse ++ (device_mark_used K vq1 d).free_list } := by
    rw [hcon, receive_queues_vqs, if_pos ⟨Nat.zero_le _, by omega⟩, hc2]
    refine drain_used_queue K _ [d] _ _ _ _ ?_ hl1 (by unfold U16_MOD; simp) ?_ ?_
    · rw [pending_after_mark K vq1 d hu1]; simp
    · simp [device_mark_used, hu1]
    · intro j hj
      have hj0 : j = 0 := by simpa using hj
      subst hj0
      simp [device_mark_used, hu1, Nat.mod_eq_of_lt hl1]
  refine ⟨by rw [hc1]; exact hring1, by rw [hc1]; exact hfl1, hmsg, ?_, ?_, ?_⟩
  · rw [hq]; simp [device_mark_used, hfl1]
  · rw [hq, hfree]; simp [device_mark_used, hfl1]
  · rw [hq]; simp [virtq_used_has_buf]

/-- Witness of `transmit_round_trip`: the example ready console with one free
transmit descriptor and a pool of 4096 bytes transmits "Hello"; the device marks
descriptor 3 used and raises the used-buffer interrupt. -/
theorem transmit_round_trip_witness :
    ∃ w1 : World SimDev,
      virtio_console_transmit example_consts sim_device example_hello example_one_free_world =
        some w1 ∧
      (w1.console.vqs 1).avail_ring (0 % 4) = 3 ∧
      (w1.console.vqs 1).free_list = [] ∧
      (virtio_console_receive example_consts sim_device
        (device_returns example_consts w1 1 3
          { example_sim (2 ^ 32) with interrupt_status := 1 })).1 = none ∧
      ((virtio_console_receive example_consts sim_device
        (device_returns example_consts w1 1 3
          { example_sim (2 ^ 32) with interrupt_status := 1 })).2.console.vqs 1).free_list =
        [3] ∧
      ((virtio_console_receive example_consts sim_device
        (device_returns example_consts w1 1 3
          { example_sim (2 ^ 32) with interrupt_status := 1 })).2.console.vqs 1).free_list.length =
        1 ∧
      virtq_used_has_buf ((virtio_console_receive example_consts sim_device
        (device_returns example_consts w1 1 3
          { example_sim (2 ^ 32) with interrupt_status := 1 })).2.console.vqs 1) = false :=
  transmit_round_trip example_consts sim_device example_one_free_world
    { example_sim (2 ^ 32) with interrupt_status := 1 } example_hello 3 [] 0x50001400
    ⟨0x50001400, 4096, 5⟩ rfl (by decide) (by decide) (by decide) (by decide) rfl (by decide)
    rfl (by decide) (by decide) (by decide)

/-- C15, as stated, fails: the example ready console with one free transmit
descriptor transmits "Hello" and publishes descriptor 3; the device marks it used
and raises the used-buffer interrupt together with the configuration-change
interrupt, no receive-queue entry being used.  The next
`virtio_console_receive` returns `NULL` and does not put the descriptor back: the
transmit free list stays empty, one short of its size before the transmit, and
`virtq_used_has_buf` is still true. -/
theorem transmit_round_trip_counterexample :
    ∃ w1 : World SimDev,
      example_one_free_world.console.ready = true ∧
      (example_one_free_world.console.vqs 1).free_list = [3] ∧
      virtio_console_transmit example_consts sim_device example_hello example_one_free_world =
        some w1 ∧
      (w1.console.vqs 1).avail_ring 0 = 3 ∧
      (w1.console.vqs 1).avail_idx = 1 ∧
      virtq_used_has_buf
        ((device_returns example_consts w1 1 3
          { example_sim (2 ^ 32) with interrupt_status := 3 }).console.vqs 0) = false ∧
      (virtio_console_receive example_consts sim_device
        (device_returns example_consts w1 1 3
          { example_sim (2 ^ 32) with interrupt_status := 3 })).1 = none ∧
      ((virtio_console_receive example_consts sim_device
        (device_returns example_consts w1 1 3
          { example_sim (2 ^ 32) with interrupt_status := 3 })).2.console.vqs 1).free_list =
        [] ∧
      virtq_used_has_buf ((virtio_console_receive example_consts sim_device
        (device_returns example_consts w1 1 3
          { example_sim (2 ^ 32) with interrupt_status := 3 })).2.console.vqs 1) = true :=
  ⟨_, by decide, by decide,
    transmit_run example_consts sim_device example_one_free_world example_hello 3 [] 0x50001400
      ⟨0x50001400, 4096, 5⟩ rfl (by decide) (by decide) rfl (by decide),
    by decide, by decide, by decide, by decide, by decide, by decide⟩

/-! ## Receive accumulation -/

/-- C14: the code overruns the first receive buffer.  On the console that
`virtio_console_init` leaves with 4 receive buffers of 64 bytes, the device
fills the buffer of descriptor 3 with 60 letters a, that of descriptor 1 with
"defgh" and that of descriptor 2 with "xy", each null-terminated inside its
buffer, and marks 3, 1 and 2 used in that order, with no configuration-change
bit.  `virtio_console_receive` returns the address of the first buffer and all
three ids are back on the free list, but the string returned is not the
concatenation of the three payloads: appending "defgh" to the 60 bytes of the
first buffer writes past its 64 bytes into the buffer of descriptor 2, whose
payload "xy" is lost.  With only 3 and 1 marked used, the call returns the 65
bytes of the first two payloads and leaves "h" where the device had put "xy". -/
theorem receive_accumulation_overruns_buffer :
    ((example_overflow_world [3, 1, 2]).console.ready = true ∧
      example_consts.VIRTIO_CONSOLE_RX_BUFFER_SIZE = 64 ∧
      (((example_overflow_world [3, 1, 2]).console.vqs 0).desc_table 3).addr = 0x50000200 ∧
      (((example_overflow_world [3, 1, 2]).console.vqs 0).desc_table 1).addr = 0x50000280 ∧
      (((example_overflow_world [3, 1, 2]).console.vqs 0).desc_table 2).addr = 0x50000240 ∧
      holds_string (example_overflow_world [3, 1, 2]).mem 0x50000200 example_long_payload ∧
      holds_string (example_overflow_world [3, 1, 2]).mem 0x50000280 [100, 101, 102, 103, 104] ∧
      holds_string (example_overflow_world [3, 1, 2]).mem 0x50000240 [120, 121] ∧
      virtq_used_pending ((example_overflow_world [3, 1, 2]).console.vqs 0) = 3 ∧
      (mmio_read sim_device Reg.InterruptStatus (example_overflow_world [3, 1, 2])).1 &&&
        example_consts.VIRTIO_MMIO_INT_CONFIG = 0) ∧
    ((virtio_console_receive example_consts sim_device (example_overflow_world [3, 1, 2])).1 =
        some 0x50000200 ∧
      ((virtio_console_receive example_consts sim_device
        (example_overflow_world [3, 1, 2])).2.console.vqs 0).free_list = [2, 1, 3] ∧
      c_string (virtio_console_receive example_consts sim_device
        (example_overflow_world [3, 1, 2])).2.mem 0x50000200 4096 ≠
        example_long_payload ++ [100, 101, 102, 103, 104] ++ [120, 121] ∧
      c_string (virtio_console_receive example_consts sim_device
        (example_overflow_world [3, 1, 2])).2.mem 0x50000200 4096 =
        example_long_payload ++ [100, 101, 102, 103, 104] ++ [104]) ∧
    ((virtio_console_receive example_consts sim_device (example_overflow_world [3, 1])).1 =
        some 0x50000200 ∧
      c_string (virtio_console_receive example_consts sim_device
        (example_overflow_world [3, 1])).2.mem 0x50000200 4096 =
        example_long_payload ++ [100, 101, 102, 103, 104] ∧
      holds_string (example_overflow_world [3, 1]).mem 0x50000240 [120, 121] ∧
      c_string (virtio_console_receive example_consts sim_device
        (example_overflow_world [3, 1])).2.mem 0x50000240 4096 = [104]) := by
  decide

/-- The scenario of the specification for the receive accumulation: 4 receive
buffers of 64 bytes, the device fills the buffers of the descriptors 3 and 2
with "ab" and "cd" and marks both used; `virtio_console_receive` returns the
first buffer, which holds "abcd", and both descriptors are back on the free
list. -/
theorem receive_accumulation_scenario :
    (virtio_console_receive example_consts sim_device
      (example_filled_world [(0x50000200, [97, 98]), (0x50000240, [99, 100])] [3, 2])).1 =
      some 0x50000200 ∧
    c_string (virtio_console_receive example_consts sim_device
      (example_filled_world [(0x50000200, [97, 98]), (0x50000240, [99, 100])] [3, 2])).2.mem
      0x50000200 4096 = [97, 98, 99, 100] ∧
    ((virtio_console_receive example_consts sim_device
      (example_filled_world [(0x50000200, [97, 98]), (0x50000240, [99, 100])]
        [3, 2])).2.console.vqs 0).free_list = [2, 3] := by
  decide

/-- A string with a first byte is held at `a` when the byte at `a` is that byte,
not NUL, and the rest of the string is held at `a + 1`. -/
theorem holds_string_cons (mem : Nat → Nat) (a b : Nat) (s : List Nat) :
    holds_string mem a (b :: s) ↔ mem a = b ∧ b ≠ 0 ∧ holds_string mem (a + 1) s := by
  unfold holds_string
  constructor
  · rintro ⟨h1, h2, h3⟩
    refine ⟨by simpa using h1 0 (by simp), h3 b (by simp), ?_, ?_, ?_⟩
    · intro i hi
      have := h1 (i + 1) (by simpa using hi)
      rw [show a + 1 + i = a + (i + 1) by omega, this]
      simp
    · rw [show a + 1 + s.length = a + (b :: s).length by simp; omega]
      exact h2
    · intro c hc
      exact h3 c (by simp [hc])
  · rintro ⟨h1, h2, h3, h4, h5⟩
    refine ⟨?_, ?_, ?_⟩
    · intro i hi
      cases i with
      | zero => simpa using h1
      | succ i =>
        have := h3 i (by simpa using hi)
        rw [show a + (i + 1) = a + 1 + i by omega, this]
        simp
    · rw [show a + (b :: s).length = a + 1 + s.length by simp; omega]
      exact h4
    · intro c hc
      rcases List.mem_cons.mp hc with rfl | hc
      · exact h2
      · exact h5 c hc

/-- The length `strlen` finds for a string held in memory, when the scan is long
enough to reach its NUL. -/
theorem c_strlen_holds (mem : Nat → Nat) (a : Nat) (s : List Nat) (limit : Nat)
    (h : holds_string mem a s) (hlen : s.length ≤ limit) :
    c_strlen mem a limit = s.length := by
  induction s generalizing a limit with
  | nil =>
    cases limit with
    | zero => rfl
    | succ limit =>
      have h0 : mem a = 0 := by simpa using h.2.1
      simp [c_strlen, h0]
  | cons b s ih =>
    obtain ⟨h1, h2, h3⟩ := (holds_string_cons mem a b s).mp h
    obtain ⟨l, rfl⟩ : ∃ l, limit = l + 1 := ⟨limit - 1, by simp at hlen; omega⟩
    have hne : mem a ≠ 0 := by rw [h1]; exact h2
    simp only [c_strlen, if_neg hne, List.length_cons]
    rw [ih (a + 1) l h3 (by simpa using hlen)]

/-- The bytes `c_string` reads for a string held in memory. -/
theorem c_string_holds (mem : Nat → Nat) (a : Nat) (s : List Nat) (limit : Nat)
    (h : holds_string mem a s) (hlen : s.length ≤ limit) :
    c_string mem a limit = s := by
  unfold c_string
  rw [c_strlen_holds mem a s limit h hlen]
  apply List.ext_getElem
  · simp
  · intro i h1 h2
    simp only [List.getElem_map, List.getElem_range]
    rw [h.1 i h2]
    simp [List.getD, h2]

/-- The function `strcpy` leaves at `dst` the string it copied. -/
theorem holds_string_strcpy (mem : Nat → Nat) (dst : Nat) (s : List Nat)
    (hs : ∀ b ∈ s, b ≠ 0) : holds_string (strcpy mem dst s) dst s := by
  refine ⟨?_, ?_, hs⟩
  · intro i hi
    simp [strcpy, hi]
  · simp [strcpy]

/-- The function `strcpy` changes only the bytes of the copy and of its NUL. -/
theorem strcpy_frame (mem : Nat → Nat) (dst : Nat) (s : List Nat) (x : Nat)
    (hx : x < dst ∨ dst + s.length < x) : strcpy mem dst s x = mem x := by
  unfold strcpy
  rw [if_neg (by omega), if_neg (by omega)]

/-- A string held in memory is held in every memory that agrees on its bytes and
its NUL. -/
theorem holds_string_congr (mem mem' : Nat → Nat) (a : Nat) (s : List Nat)
    (hagree : ∀ x, a ≤ x → x ≤ a + s.length → mem' x = mem x)
    (h : holds_string mem a s) : holds_string mem' a s := by
  refine ⟨?_, ?_, h.2.2⟩
  · intro i hi
    rw [hagree (a + i) (by omega) (by omega)]
    exact h.1 i hi
  · rw [hagree (a + s.length) (by omega) (by omega)]
    exact h.2.1

/-- The function `strcat` is `strcpy` of the source string to the end of the
destination string. -/
theorem strcat_eq (mem : Nat → Nat) (dst src limit : Nat) (acc p : List Nat)
    (hacc : holds_string mem dst acc) (hp : holds_string mem src p)
    (h1 : acc.length ≤ limit) (h2 : p.length ≤ limit) :
    strcat mem dst src limit = strcpy mem (dst + acc.length) p := by
  unfold strcat
  rw [c_strlen_holds mem dst acc limit hacc h1, c_string_holds mem src p limit hp h2]

/-- After `strcat` the destination holds the two strings, one after the other. -/
theorem holds_string_strcat (mem : Nat → Nat) (dst src limit : Nat) (acc p : List Nat)
    (hacc : holds_string mem dst acc) (hp : holds_string mem src p)
    (h1 : acc.length ≤ limit) (h2 : p.length ≤ limit) :
    holds_string (strcat mem dst src limit) dst (acc ++ p) := by
  rw [strcat_eq mem dst src limit acc p hacc hp h1 h2]
  refine ⟨?_, ?_, ?_⟩
  · intro i hi
    by_cases hlt : i < acc.length
    · rw [strcpy_frame _ _ _ _ (Or.inl (by omega)), hacc.1 i hlt]
      simp [List.getD, List.getElem?_append_left hlt]
    · have hge : acc.length ≤ i := by omega
      have hi2 : i - acc.length < p.length := by
        simp only [List.length_append] at hi
        omega
      have e : dst + i - (dst + acc.length) = i - acc.length := by omega
      simp only [strcpy]
      rw [if_pos ⟨by omega, by omega⟩, e]
      simp [List.getD, List.getElem?_append_right hge]
  · simp only [strcpy, List.length_append]
    rw [if_neg (by omega), if_pos (by omega)]
  · intro b hb
    rcases List.mem_append.mp hb with hb | hb
    · exact hacc.2.2 b hb
    · exact hp.2.2 b hb

/-- With the ids `d :: rest` pending, the queue has a used entry, the next id
read is `d`, and after it is consumed the ids `rest` are pending. -/
theorem used_ring_holds_cons (K : Consts) (vq : virtq) (d : Nat) (rest : List Nat)
    (h : used_ring_holds K vq (d :: rest)) :
    virtq_used_has_buf vq = true ∧ (virtq_get_used_buf_id K vq).1 = d ∧
    used_ring_holds K (virtq_put_free_desc (virtq_get_used_buf_id K vq).2 d) rest := by
  obtain ⟨hl, hk, hu, hring⟩ := h
  simp only [List.length_cons] at hk hu hring
  have hne : vq.used_idx ≠ vq.last_used_idx := by
    rw [hu]; unfold U16_MOD at *; omega
  refine ⟨by simp [virtq_used_has_buf, hne], ?_, ?_, by omega, ?_, ?_⟩
  · have := hring 0 (by omega)
    simpa [virtq_get_used_buf_id, Nat.mod_eq_of_lt hl] using this
  · simp only [virtq_put_free_desc, virtq_get_used_buf_id]
    exact Nat.mod_lt _ (by decide)
  · simp only [virtq_put_free_desc, virtq_get_used_buf_id]
    rw [hu]; unfold U16_MOD at *; omega
  · intro j hj
    simp only [virtq_put_free_desc, virtq_get_used_buf_id]
    have e : ((vq.last_used_idx + 1) % U16_MOD + j) % U16_MOD =
        (vq.last_used_idx + (j + 1)) % U16_MOD := by
      unfold U16_MOD; omega
    rw [e, hring (j + 1) (by omega)]
    simp

/-- One iteration of the used-ring loop on the receive queue when a message is
already being accumulated at `r`: the buffer of the next used id is appended
with `strcat`. -/
theorem drain_used_rx_some (K : Consts) (f : Nat) (vq : virtq) (mem : Nat → Nat) (r : Nat)
    (h : virtq_used_has_buf vq = true) :
    drain_used K K.VIRTIO_CONSOLE_RX_VQ_IDX (f + 1) vq mem (some r) =
      drain_used K K.VIRTIO_CONSOLE_RX_VQ_IDX f
        (virtq_put_free_desc (virtq_get_used_buf_id K vq).2 (virtq_get_used_buf_id K vq).1)
        (strcat mem r (vq.desc_table (virtq_get_used_buf_id K vq).1).addr vq.pool.size)
        (some r) := by
  simp [drain_used, h, virtq_get_desc_by_id, virtq_get_used_buf_id, virtq_put_free_desc]

/-- One iteration of the used-ring loop on the receive queue when
`received_msg == NULL`: the buffer of the next used id becomes the message. -/
theorem drain_used_rx_none (K : Consts) (f : Nat) (vq : virtq) (mem : Nat → Nat)
    (h : virtq_used_has_buf vq = true) :
    drain_used K K.VIRTIO_CONSOLE_RX_VQ_IDX (f + 1) vq mem none =
      drain_used K K.VIRTIO_CONSOLE_RX_VQ_IDX f
        (virtq_put_free_desc (virtq_get_used_buf_id K vq).2 (virtq_get_used_buf_id K vq).1)
        mem (ptr_of_addr (vq.desc_table (virtq_get_used_buf_id K vq).1).addr) := by
  simp [drain_used, h, virtq_get_desc_by_id, virtq_get_used_buf_id, virtq_put_free_desc]

/-- The used-ring loop on the receive queue, with the message accumulated so far
held at `r` as `acc`: when the pending buffers hold the payloads of `bufs`, lie
outside the `VIRTIO_CONSOLE_RX_BUFFER_SIZE` bytes at `r`, and `acc` with all the
payloads and the NUL fits in those bytes, the loop leaves at `r` the string
`acc` followed by the payloads in used-ring order. -/
theorem drain_used_accumulates (K : Consts) (bufs : List (Nat × List Nat)) (fuel : Nat)
    (vq : virtq) (mem : Nat → Nat) (r : Nat) (acc : List Nat)
    (hfuel : bufs.length ≤ fuel)
    (hring : used_ring_holds K vq (bufs.map Prod.fst))
    (hacc : holds_string mem r acc)
    (hbuf : ∀ b ∈ bufs, holds_string mem (vq.desc_table b.1).addr b.2 ∧
      ((vq.desc_table b.1).addr + b.2.length < r ∨
        r + K.VIRTIO_CONSOLE_RX_BUFFER_SIZE ≤ (vq.desc_table b.1).addr))
    (hfit : acc.length + (bufs.map Prod.snd).flatten.length < K.VIRTIO_CONSOLE_RX_BUFFER_SIZE)
    (hB : K.VIRTIO_CONSOLE_RX_BUFFER_SIZE ≤ vq.pool.size) :
    (drain_used K K.VIRTIO_CONSOLE_RX_VQ_IDX fuel vq mem (some r)).2.2 = some r ∧
    holds_string (drain_used K K.VIRTIO_CONSOLE_RX_VQ_IDX fuel vq mem (some r)).2.1 r
      (acc ++ (bufs.map Prod.snd).flatten) := by
  induction bufs generalizing fuel vq mem acc with
  | nil =>
    obtain ⟨hl, -, hu, -⟩ := hring
    have hul : vq.used_idx = vq.last_used_idx := by
      rw [hu]; simp [Nat.mod_eq_of_lt hl]
    rw [drain_used_no_buf K _ fuel vq mem _ (by simp [virtq_used_has_buf, hul])]
    simpa using hacc
  | cons b rest ih =>
    obtain ⟨f, rfl⟩ : ∃ f, fuel = f + 1 := ⟨fuel - 1, by simp at hfuel; omega⟩
    obtain ⟨hhas, hid, hrest⟩ := used_ring_holds_cons K vq b.1 (rest.map Prod.fst) hring
    obtain ⟨hb, hdisj⟩ := hbuf b (by simp)
    simp only [List.map_cons, List.flatten_cons, List.length_append] at hfit
    have hlim1 : acc.length ≤ vq.pool.size := by omega
    have hlim2 : b.2.length ≤ vq.pool.size := by omega
    rw [drain_used_rx_some K f vq mem r hhas, hid]
    have hstep := ih f (virtq_put_free_desc (virtq_get_used_buf_id K vq).2 b.1)
      (strcat mem r (vq.desc_table b.1).addr vq.pool.size) (acc ++ b.2)
      (by simpa using hfuel) hrest
      (holds_string_strcat mem r _ _ acc b.2 hacc hb hlim1 hlim2)
      (by
        intro c hc
        obtain ⟨hc1, hc2⟩ := hbuf c (by simp [hc])
        refine ⟨?_, hc2⟩
        apply holds_string_congr mem _ _ _ _ hc1
        intro x hx1 hx2
        rw [strcat_eq mem r _ _ acc b.2 hacc hb hlim1 hlim2]
        apply strcpy_frame
        have hc2 : (vq.desc_table c.1).addr + c.2.length < r ∨
            r + K.VIRTIO_CONSOLE_RX_BUFFER_SIZE ≤ (vq.desc_table c.1).addr := hc2
        have hx1 : (vq.desc_table c.1).addr ≤ x := hx1
        have hx2 : x ≤ (vq.desc_table c.1).addr + c.2.length := hx2
        omega)
      (by simp only [List.length_append]; omega)
      hB
    simpa [List.append_assoc] using hstep

/-- The number of pending used entries when the used ring holds the ids `ids`. -/
theorem pending_of_holds (K : Consts) (vq : virtq) (ids : List Nat)
    (h : used_ring_holds K vq ids) : virtq_used_pending vq = ids.length := by
  obtain ⟨hl, hk, hu, -⟩ := h
  simp only [virtq_used_pending, hu]
  unfold U16_MOD at *
  omega

/-- A payload of a list is not longer than the concatenation of the payloads. -/
theorem length_le_flatten (bufs : List (Nat × List Nat)) (b : Nat × List Nat) (hb : b ∈ bufs) :
    b.2.length ≤ (bufs.map Prod.snd).flatten.length := by
  induction bufs with
  | nil => simp at hb
  | cons c rest ih =>
    simp only [List.map_cons, List.flatten_cons, List.length_append]
    rcases List.mem_cons.mp hb with rfl | h
    · omega
    · have := ih h
      omega

/-- Receive accumulation within one buffer: for a ready console, when the
interrupt status read has no configuration-change bit and the used ring of the
receive queue holds the pending ids `d` and then those of `rest`, the buffer of
`d`, not at address 0, holding the payload `p` and the buffers of `rest` holding
their payloads, each null-terminated, these buffers lying outside the
`VIRTIO_CONSOLE_RX_BUFFER_SIZE` bytes of the first, and the concatenation of all
the payloads with its NUL fitting in those bytes: `virtio_console_receive`
returns the address of the first buffer, which then holds the concatenation of
the payloads in used-ring order, all the ids are pushed on the free list of the
receive queue, and no used entry is left pending. -/
theorem receive_accumulates_within_buffer {σ : Type} (K : Consts) (D : Device σ) (w : World σ)
    (d : Nat) (p : List Nat) (rest : List (Nat × List Nat))
    (hready : w.console.ready = true)
    (hint : (D.read Reg.InterruptStatus w.dev).1 % U32_MOD &&& K.VIRTIO_MMIO_INT_CONFIG = 0)
    (hrx : K.VIRTIO_CONSOLE_RX_VQ_IDX < K.VIRTIO_CONSOLE_NUM_VQS)
    (hring : used_ring_holds K (w.console.vqs K.VIRTIO_CONSOLE_RX_VQ_IDX)
      (d :: rest.map Prod.fst))
    (hnull : ((w.console.vqs K.VIRTIO_CONSOLE_RX_VQ_IDX).desc_table d).addr ≠ 0)
    (hfirst : holds_string w.mem
      ((w.console.vqs K.VIRTIO_CONSOLE_RX_VQ_IDX).desc_table d).addr p)
    (hbuf : ∀ b ∈ rest,
      holds_string w.mem ((w.console.vqs K.VIRTIO_CONSOLE_RX_VQ_IDX).desc_table b.1).addr b.2 ∧
      (((w.console.vqs K.VIRTIO_CONSOLE_RX_VQ_IDX).desc_table b.1).addr +
          K.VIRTIO_CONSOLE_RX_BUFFER_SIZE ≤
          ((w.console.vqs K.VIRTIO_CONSOLE_RX_VQ_IDX).desc_table d).addr ∨
        ((w.console.vqs K.VIRTIO_CONSOLE_RX_VQ_IDX).desc_table d).addr +
          K.VIRTIO_CONSOLE_RX_BUFFER_SIZE ≤
          ((w.console.vqs K.VIRTIO_CONSOLE_RX_VQ_IDX).desc_table b.1).addr))
    (hfit : p.length + (rest.map Prod.snd).flatten.length < K.VIRTIO_CONSOLE_RX_BUFFER_SIZE)
    (hB : K.VIRTIO_CONSOLE_RX_BUFFER_SIZE ≤
      (w.console.vqs K.VIRTIO_CONSOLE_RX_VQ_IDX).pool.size) :
    (virtio_console_receive K D w).1 =
      some ((w.console.vqs K.VIRTIO_CONSOLE_RX_VQ_IDX).desc_table d).addr ∧
    holds_string (virtio_console_receive K D w).2.mem
      ((w.console.vqs K.VIRTIO_CONSOLE_RX_VQ_IDX).desc_table d).addr
      (p ++ (rest.map Prod.snd).flatten) ∧
    c_string (virtio_console_receive K D w).2.mem
      ((w.console.vqs K.VIRTIO_CONSOLE_RX_VQ_IDX).desc_table d).addr
      (w.console.vqs K.VIRTIO_CONSOLE_RX_VQ_IDX).pool.size = p ++ (rest.map Prod.snd).flatten ∧
    ((virtio_console_receive K D w).2.console.vqs K.VIRTIO_CONSOLE_RX_VQ_IDX).free_list =
      (rest.map Prod.fst).reverse ++
        d :: (w.console.vqs K.VIRTIO_CONSOLE_RX_VQ_IDX).free_list ∧
    virtq_used_has_buf
      ((virtio_console_receive K D w).2.console.vqs K.VIRTIO_CONSOLE_RX_VQ_IDX) = false := by
  obtain ⟨hres, hcon, hmem⟩ := receive_run K D w hready hint
  generalize hvq : w.console.vqs K.VIRTIO_CONSOLE_RX_VQ_IDX = vq at *
  have hpend := pending_of_holds K vq _ hring
  simp only [List.length_cons, List.length_map] at hpend
  obtain ⟨hhas, hid, hrest⟩ := used_ring_holds_cons K vq d (rest.map Prod.fst) hring
  have hin : 0 ≤ K.VIRTIO_CONSOLE_RX_VQ_IDX ∧
      K.VIRTIO_CONSOLE_RX_VQ_IDX < 0 + K.VIRTIO_CONSOLE_NUM_VQS := ⟨Nat.zero_le _, by omega⟩
  have hdrain : (receive_queues K K.VIRTIO_CONSOLE_NUM_VQS 0 w.console w.mem none).2 =
      (drain_used K K.VIRTIO_CONSOLE_RX_VQ_IDX rest.length
        (virtq_put_free_desc (virtq_get_used_buf_id K vq).2 d) w.mem
        (some (vq.desc_table d).addr)).2 := by
    rw [receive_queues_msg, if_pos hin, hvq, hpend, drain_used_rx_none K _ vq w.mem hhas, hid]
    simp [ptr_of_addr, hnull]
  have hacc := drain_used_accumulates K rest rest.length
    (virtq_put_free_desc (virtq_get_used_buf_id K vq).2 d) w.mem (vq.desc_table d).addr p
    (le_refl _) hrest hfirst
    (by
      intro b hb
      obtain ⟨h1, h2⟩ := hbuf b hb
      refine ⟨h1, ?_⟩
      have hlen := length_le_flatten rest b hb
      have h2 : (vq.desc_table b.1).addr + K.VIRTIO_CONSOLE_RX_BUFFER_SIZE ≤
          (vq.desc_table d).addr ∨
          (vq.desc_table d).addr + K.VIRTIO_CONSOLE_RX_BUFFER_SIZE ≤
            (vq.desc_table b.1).addr := h2
      show (vq.desc_table b.1).addr + b.2.length < (vq.desc_table d).addr ∨
        (vq.desc_table d).addr + K.VIRTIO_CONSOLE_RX_BUFFER_SIZE ≤ (vq.desc_table b.1).addr
      omega)
    hfit hB
  have hq : (virtio_console_receive K D w).2.console.vqs K.VIRTIO_CONSOLE_RX_VQ_IDX =
      { vq with
        last_used_idx := vq.used_idx
        free_list := (d :: rest.map Prod.fst).reverse ++ vq.free_list } := by
    rw [hcon, receive_queues_vqs, if_pos hin, hvq]
    exact drain_used_queue K _ (d :: rest.map Prod.fst) _ vq _ _
      (by rw [pending_of_holds K vq _ hring]) hring.1 hring.2.1 hring.2.2.1 hring.2.2.2
  have hheld : holds_string (virtio_console_receive K D w).2.mem (vq.desc_table d).addr
      (p ++ (rest.map Prod.snd).flatten) := by
    rw [hmem, hdrain]
    exact hacc.2
  refine ⟨?_, hheld, ?_, ?_, ?_⟩
  · rw [hres, hdrain]
    exact hacc.1
  · exact c_string_holds _ _ _ _ hheld (by simp only [List.length_append]; omega)
  · rw [hq]
    simp
  · rw [hq]
    simp [virtq_used_has_buf]

/-- Witness of `receive_accumulates_within_buffer`, the scenario of the
specification: 4 receive buffers of 64 bytes, the device fills the buffers of
the descriptors 3 and 2 with "ab" and "cd" and marks both used; the call returns
the first buffer, which holds "abcd", and both ids are back on the free list. -/
theorem receive_accumulates_within_buffer_witness :
    (virtio_console_receive example_consts sim_device
      (example_filled_world [(0x50000200, [97, 98]), (0x50000240, [99, 100])] [3, 2])).1 =
      some 0x50000200 ∧
    holds_string (virtio_console_receive example_consts sim_device
      (example_filled_world [(0x50000200, [97, 98]), (0x50000240, [99, 100])] [3, 2])).2.mem
      0x50000200 [97, 98, 99, 100] ∧
    c_string (virtio_console_receive example_consts sim_device
      (example_filled_world [(0x50000200, [97, 98]), (0x50000240, [99, 100])] [3, 2])).2.mem
      0x50000200 4096 = [97, 98, 99, 100] ∧
    ((virtio_console_receive example_consts sim_device
      (example_filled_world [(0x50000200, [97, 98]), (0x50000240, [99, 100])]
        [3, 2])).2.console.vqs 0).free_list = [2, 3] ∧
    virtq_used_has_buf ((virtio_console_receive example_consts sim_device
      (example_filled_world [(0x50000200, [97, 98]), (0x50000240, [99, 100])]
        [3, 2])).2.console.vqs 0) = false :=
  receive_accumulates_within_buffer example_consts sim_device
    (example_filled_world [(0x50000200, [97, 98]), (0x50000240, [99, 100])] [3, 2])
    3 [97, 98] [(2, [99, 100])] (by decide) (by decide) (by decide) (by decide) (by decide)
    (by decide) (by decide) (by decide) (by decide)

/-! ## Queue activation in the handshake -/

/-- The body of the queue activation loop for queue `q` leaves the console as it
is and either activates the queue, with result true, or refuses it, with result
false. -/
theorem activate_queue_log {σ : Type} (K : Consts) (D : Device σ) (q : Nat) (w : World σ) :
    (activate_queue K D q w).2.console = w.console ∧
    (((activate_queue K D q w).1 = true ∧
        ∃ seg, queue_activated q (w.console.vqs q) seg ∧
          (activate_queue K D q w).2.log = seg ++ w.log) ∨
      ((activate_queue K D q w).1 = false ∧
        ∃ seg, queue_refused q seg ∧ (activate_queue K D q w).2.log = seg ++ w.log)) := by
  refine ⟨(activate_queue_log_no_config K D q w).2, ?_⟩
  by_cases h1 : (mmio_read D Reg.QueueReady (mmio_write D Reg.QueueSel q w)).1 ≠ 0
  · right
    unfold activate_queue
    dsimp only
    rw [if_pos h1]
    exact ⟨rfl, _, ⟨_, Or.inl ⟨_, h1, rfl⟩⟩, rfl⟩
  · have h1' : (mmio_read D Reg.QueueReady (mmio_write D Reg.QueueSel q w)).1 = 0 :=
      not_not.mp h1
    by_cases h2 : (mmio_read D Reg.QueueNumMax
        (mmio_read D Reg.QueueReady (mmio_write D Reg.QueueSel q w)).2).1 = 0
    · right
      unfold activate_queue
      dsimp only
      rw [if_neg h1, if_pos h2]
      refine ⟨rfl, _, ⟨(D.read Reg.Status (mmio_read D Reg.QueueNumMax
        (mmio_read D Reg.QueueReady (mmio_write D Reg.QueueSel q w)).2).2.dev).1 % U32_MOD,
        Or.inr rfl⟩, ?_⟩
      simp only [mmio_or, mmio_read, mmio_write] at h1' h2 ⊢
      rw [h2, h1']
      rfl
    · left
      unfold activate_queue
      dsimp only
      rw [if_neg h1, if_neg h2]
      refine ⟨rfl, _, ⟨_, _, _, _, _, _, _, h2, rfl,
        addr_words _, addr_words _, addr_words _⟩, ?_⟩
      have h0 : 1 % U32_MOD = 1 := by decide
      simp only [mmio_read, mmio_write] at h1' ⊢
      rw [h1', h0]
      rfl

/-- The queue activation loop, started at queue `q` with `n` queues to go: it
activates queues `q`, `q + 1`, ... in turn, the accesses of each being those of
`queue_activated`, until all `n` are activated, with result true, or one is
refused, with result false and the refusal as the last accesses. -/
theorem activate_queues_log {σ : Type} (K : Consts) (D : Device σ) (n q : Nat) (w : World σ) :
    ∃ (segs : List (List Access)) (post : List Access),
      (activate_queues K D n q w).2.log = post ++ segs.reverse.flatten ++ w.log ∧
      segs.length ≤ n ∧
      (∀ j, j < segs.length →
        queue_activated (q + j) (w.console.vqs (q + j)) (segs.getD j [])) ∧
      (((activate_queues K D n q w).1 = true ∧ segs.length = n ∧ post = []) ∨
        ((activate_queues K D n q w).1 = false ∧ segs.length < n ∧
          queue_refused (q + segs.length) post)) := by
  induction n generalizing q w with
  | zero => exact ⟨[], [], by simp [activate_queues], le_refl _, by simp, Or.inl ⟨rfl, rfl, rfl⟩⟩
  | succ n ih =>
    rw [activate_queues]
    obtain ⟨hc, hq⟩ := activate_queue_log K D q w
    rcases hq with ⟨hres, seg, hseg, hlog⟩ | ⟨hres, seg, hseg, hlog⟩
    · have hne : ¬ ((activate_queue K D q w).1 = false) := by simp [hres]
      rw [if_neg hne]
      obtain ⟨segs, post, h1, h2, h3, h4⟩ := ih (q + 1) (activate_queue K D q w).2
      refine ⟨seg :: segs, post, ?_, by simpa using h2, ?_, ?_⟩
      · rw [h1, hlog]
        simp [List.append_assoc]
      · intro j hj
        cases j with
        | zero => simpa using hseg
        | succ j =>
          have := h3 j (by simpa using hj)
          rw [hc, show q + 1 + j = q + (j + 1) by omega] at this
          simpa using this
      · rcases h4 with ⟨a, b, c⟩ | ⟨a, b, c⟩
        · exact Or.inl ⟨a, by simp [b], c⟩
        · refine Or.inr ⟨a, by simpa using b, ?_⟩
          rw [show q + (seg :: segs).length = q + 1 + segs.length by simp; omega]
          exact c
    · rw [if_pos hres]
      exact ⟨[], seg, by simp [hlog], Nat.zero_le _, by simp,
        Or.inr ⟨hres, by simp, by simpa using hseg⟩⟩

/-- The accesses of a handshake step that ends with `Status |= FAILED` before the
queue activation touch no queue register. -/
theorem no_queue_access_fail {σ : Type} (D : Device σ) {l0 : List Access} {w : World σ}
    (h : LogExt no_queue_access l0 w.log) :
    ∃ evs, (mmio_or D Reg.Status FAILED w).log = evs ++ l0 ∧
      ∀ e ∈ evs, e.queue_access = false := by
  obtain ⟨evs, h1, h2⟩ := h.cons (Access.orw Reg.Status FAILED
    ((D.read Reg.Status w.dev).1 % U32_MOD)) rfl
  exact ⟨_, h1, h2⟩

/-- The feature negotiation touches no queue register. -/
theorem negotiate_features_log_no_queue {σ : Type} (K : Consts) (D : Device σ) (n i : Nat)
    (w : World σ) : LogExt no_queue_access w.log (negotiate_features K D n i w).log := by
  induction n generalizing i w with
  | zero => exact LogExt.refl _ _
  | succ n ih =>
    rw [negotiate_features]
    refine LogExt.trans ?_ (ih _ _)
    simp only [negotiate_word, set_negotiated_feature_bits, mmio_write, mmio_read]
    refine LogExt.cons (LogExt.cons (LogExt.cons (LogExt.cons (LogExt.refl _ _) _ ?_) _ ?_) _ ?_) _ ?_ <;>
      simp [no_queue_access, Access.queue_access, Access.reg]

/-- The handshake has one of the outcomes of `QueueActivation`. -/
theorem queueActivation_mmio_init {σ : Type} (K : Consts) (D : Device σ) (w : World σ) :
    QueueActivation K w.console.vqs w.log (virtio_console_mmio_init K D w) := by
  have h0 : LogExt no_queue_access w.log w.log := LogExt.refl _ _
  unfold virtio_console_mmio_init
  dsimp only
  have h1 : LogExt no_queue_access w.log (mmio_read D Reg.MagicValue w).2.log :=
    h0.cons _ rfl
  split
  · exact Or.inl ⟨rfl, no_queue_access_fail D h1⟩
  have h2 : LogExt no_queue_access w.log
      (mmio_read D Reg.Version (mmio_read D Reg.MagicValue w).2).2.log := h1.cons _ rfl
  split
  · exact Or.inl ⟨rfl, no_queue_access_fail D h2⟩
  have h3 : LogExt no_queue_access w.log (mmio_read D Reg.DeviceID
      (mmio_read D Reg.Version (mmio_read D Reg.MagicValue w).2).2).2.log := h2.cons _ rfl
  have c3 : (mmio_read D Reg.DeviceID
      (mmio_read D Reg.Version (mmio_read D Reg.MagicValue w).2).2).2.console.vqs =
      w.console.vqs := rfl
  split
  · exact Or.inl ⟨rfl, no_queue_access_fail D h3⟩
  generalize (mmio_read D Reg.DeviceID
      (mmio_read D Reg.Version (mmio_read D Reg.MagicValue w).2).2).2 = w3 at h3 c3 ⊢
  have h7 : LogExt no_queue_access w.log (mmio_read D Reg.Status (mmio_or D Reg.Status DRIVER
      (mmio_or D Reg.Status ACKNOWLEDGE (mmio_write D Reg.Status RESET w3)))).2.log :=
    (((h3.cons _ (by rfl)).cons _ (by rfl)).cons _ (by rfl)).cons _ (by rfl)
  have c7 : (mmio_read D Reg.Status (mmio_or D Reg.Status DRIVER
      (mmio_or D Reg.Status ACKNOWLEDGE (mmio_write D Reg.Status RESET w3)))).2.console.vqs =
      w.console.vqs := c3
  split
  · exact Or.inl ⟨rfl, no_queue_access_fail D h7⟩
  generalize (mmio_read D Reg.Status (mmio_or D Reg.Status DRIVER
      (mmio_or D Reg.Status ACKNOWLEDGE (mmio_write D Reg.Status RESET w3)))).2 = w7 at h7 c7 ⊢
  have hN := h7.trans (negotiate_features_log_no_queue K D
    K.VIRTIO_MMIO_FEATURE_SEL_SIZE 0 w7)
  have cN : (negotiate_features K D K.VIRTIO_MMIO_FEATURE_SEL_SIZE 0 w7).console.vqs =
      w.console.vqs :=
    (negotiate_features_console K D K.VIRTIO_MMIO_FEATURE_SEL_SIZE 0 w7).2.trans c7
  split
  · exact Or.inl ⟨rfl, no_queue_access_fail D hN⟩
  generalize negotiate_features K D K.VIRTIO_MMIO_FEATURE_SEL_SIZE 0 w7 = wN at hN cN ⊢
  generalize (virtio_console_config.mk _ _ _ _) = cfg
  have h13 : LogExt no_queue_access w.log
      (mmio_or D Reg.Status FEATURES_OK (set_config_space (mmio_read D Reg.ConfigEmergWr
        (mmio_read D Reg.ConfigMaxNrPorts (mmio_read D Reg.Config
          (mmio_read D Reg.Config wN).2).2).2).2 cfg)).log :=
    ((((hN.cons _ (by rfl)).cons _ (by rfl)).cons _ (by rfl)).cons _ (by rfl)).cons _ (by rfl)
  have c13 : (mmio_or D Reg.Status FEATURES_OK (set_config_space (mmio_read D Reg.ConfigEmergWr
        (mmio_read D Reg.ConfigMaxNrPorts (mmio_read D Reg.Config
          (mmio_read D Reg.Config wN).2).2).2).2 cfg)).console.vqs = w.console.vqs := cN
  generalize mmio_or D Reg.Status FEATURES_OK (set_config_space (mmio_read D Reg.ConfigEmergWr
        (mmio_read D Reg.ConfigMaxNrPorts (mmio_read D Reg.Config
          (mmio_read D Reg.Config wN).2).2).2).2 cfg) = w13 at h13 c13 ⊢
  split
  · exact Or.inl ⟨rfl, no_queue_access_fail D (h13.cons _ rfl)⟩
  rename_i hst
  have hst' : (mmio_read D Reg.Status w13).1 = RESET ||| ACKNOWLEDGE ||| DRIVER ||| FEATURES_OK :=
    not_not.mp hst
  obtain ⟨pre, hpre1, hpre2⟩ := h13
  have hl14 : (mmio_read D Reg.Status w13).2.log =
      Access.rd Reg.Status (RESET ||| ACKNOWLEDGE ||| DRIVER ||| FEATURES_OK) :: pre ++ w.log := by
    rw [← hst']
    show _ :: w13.log = _
    rw [hpre1]
    rfl
  have c14 : (mmio_read D Reg.Status w13).2.console.vqs = w.console.vqs := c13
  generalize (mmio_read D Reg.Status w13).2 = w14 at hl14 c14 ⊢
  obtain ⟨segs, post, l1, l2, l3, l4⟩ := activate_queues_log K D K.VIRTIO_CONSOLE_NUM_VQS 0 w14
  have l3' : ∀ q, q < segs.length → queue_activated q (w.console.vqs q) (segs.getD q []) := by
    intro q hq
    have := l3 q hq
    rw [Nat.zero_add, c14] at this
    exact this
  split
  · rename_i hq
    rcases l4 with ⟨a, _, _⟩ | ⟨_, b, c⟩
    · rw [hq] at a
      exact absurd a (by simp)
    · refine Or.inr ⟨pre, segs, post, ?_, hpre2, l2, l3', Or.inr ⟨b, rfl, ?_⟩⟩
      · rw [l1, hl14]
        simp [List.append_assoc]
      · rw [Nat.zero_add] at c
        exact c
  · rename_i hq
    rcases l4 with ⟨_, b, c⟩ | ⟨a, _, _⟩
    · subst c
      generalize hwA : (activate_queues K D K.VIRTIO_CONSOLE_NUM_VQS 0 w14).2 = wA at l1 ⊢
      split
      · refine Or.inr ⟨pre, segs,
          [Access.orw Reg.Status FAILED
              ((D.read Reg.Status (mmio_read D Reg.Status
                (mmio_or D Reg.Status DRIVER_OK wA)).2.dev).1 % U32_MOD),
            Access.rd Reg.Status (mmio_read D Reg.Status (mmio_or D Reg.Status DRIVER_OK wA)).1,
            Access.orw Reg.Status DRIVER_OK ((D.read Reg.Status wA.dev).1 % U32_MOD)],
          ?_, hpre2, l2, l3', Or.inl ⟨b, ?_⟩⟩
        · simp only [mmio_or, mmio_read]
          rw [l1, hl14]
          simp [List.append_assoc]
        · intro e he
          simp only [List.mem_cons, List.mem_singleton, List.not_mem_nil, or_false] at he
          rcases he with rfl | rfl | rfl <;> rfl
      · refine Or.inr ⟨pre, segs,
          [Access.rd Reg.Status (mmio_read D Reg.Status (mmio_or D Reg.Status DRIVER_OK wA)).1,
            Access.orw Reg.Status DRIVER_OK ((D.read Reg.Status wA.dev).1 % U32_MOD)],
          ?_, hpre2, l2, l3', Or.inl ⟨b, ?_⟩⟩
        · simp only [mmio_or, mmio_read]
          rw [l1, hl14]
          simp [List.append_assoc]
        · intro e he
          simp only [List.mem_cons, List.mem_singleton, List.not_mem_nil, or_false] at he
          rcases he with rfl | rfl <;> rfl
    · exact absurd a hq

/-- C17: queue activation in the handshake.  Every run of
`virtio_console_mmio_init` either fails before the queue activation, with no
access to a queue register, or reaches it, right after the read-back of the
status that verifies FEATURES_OK, and then handles the queues 0, 1, ... in turn.
For each queue `q` it activates, it first writes `q` to `QueueSel`, reads
`QueueReady` as 0 and `QueueNumMax` as non-zero, then writes the six address
registers, Low and High below `2^32` with `(High << 32) | Low` the 64-bit
address of the descriptor table, of the avail ring and of the used ring of queue
`q` of the console, and only then writes `QueueReady = 1` (`queue_activated`).
Either all `VIRTIO_CONSOLE_NUM_VQS` queues are activated so and no later access
touches a queue register, or the next queue is refused: its index is written to
`QueueSel`, `QueueReady` reads non-zero or `QueueNumMax` reads 0, no address
register is written for it, the last access of the run is `Status |= FAILED`
(`queue_refused`) and the result is false. -/
theorem handshake_activates_queues {σ : Type} (K : Consts) (D : Device σ) (w : World σ) :
    ((virtio_console_mmio_init K D w).1 = false ∧
      ∃ evs, (virtio_console_mmio_init K D w).2.log = evs ++ w.log ∧
        ∀ e ∈ evs, e.queue_access = false) ∨
    (∃ (pre : List Access) (segs : List (List Access)) (post : List Access),
      (virtio_console_mmio_init K D w).2.log =
        post ++ segs.reverse.flatten ++
          (Access.rd Reg.Status (RESET ||| ACKNOWLEDGE ||| DRIVER ||| FEATURES_OK) :: pre) ++
          w.log ∧
      (∀ e ∈ pre, e.queue_access = false) ∧
      segs.length ≤ K.VIRTIO_CONSOLE_NUM_VQS ∧
      (∀ q, q < segs.length → queue_activated q (w.console.vqs q) (segs.getD q [])) ∧
      ((segs.length = K.VIRTIO_CONSOLE_NUM_VQS ∧ ∀ e ∈ post, e.queue_access = false) ∨
        (segs.length < K.VIRTIO_CONSOLE_NUM_VQS ∧
          (virtio_console_mmio_init K D w).1 = false ∧
          queue_refused segs.length post))) :=
  queueActivation_mmio_init K D w

/-- Witness of `handshake_activates_queues`: the handshake of the example console,
as `virtio_console_init` has laid out its queues, against the example device
reaches the queue activation and succeeds; its 20 accesses to queue registers
activate queue 0, whose areas are at `0x50000000`, `0x50000080` and
`0x50000100`, then queue 1, whose areas are at `0x50001200`, `0x50001280` and
`0x50001300`.  Against the device whose queue 1 is already ready it activates
queue 0, refuses queue 1 without writing an address register and returns
false. -/
theorem handshake_activates_queues_witness :
    (∃ (pre : List Access) (segs : List (List Access)) (post : List Access),
      (virtio_console_mmio_init example_consts sim_device
        (virtio_console_init_queues example_consts 0x50000000 0xa003e00
          (example_world (2 ^ 32)))).2.log =
        post ++ segs.reverse.flatten ++
          (Access.rd Reg.Status (RESET ||| ACKNOWLEDGE ||| DRIVER ||| FEATURES_OK) :: pre) ++
          (virtio_console_init_queues example_consts 0x50000000 0xa003e00
            (example_world (2 ^ 32))).log ∧
      (∀ e ∈ pre, e.queue_access = false) ∧
      segs.length ≤ example_consts.VIRTIO_CONSOLE_NUM_VQS ∧
      (∀ q, q < segs.length →
        queue_activated q
          ((virtio_console_init_queues example_consts 0x50000000 0xa003e00
            (example_world (2 ^ 32))).console.vqs q) (segs.getD q [])) ∧
      ((segs.length = example_consts.VIRTIO_CONSOLE_NUM_VQS ∧
          ∀ e ∈ post, e.queue_access = false) ∨
        (segs.length < example_consts.VIRTIO_CONSOLE_NUM_VQS ∧
          (virtio_console_mmio_init example_consts sim_device
            (virtio_console_init_queues example_consts 0x50000000 0xa003e00
              (example_world (2 ^ 32)))).1 = false ∧
          queue_refused segs.length post))) ∧
    ((virtio_console_mmio_init example_consts sim_device
        (virtio_console_init_queues example_consts 0x50000000 0xa003e00
          (example_world (2 ^ 32)))).1 = true ∧
      (virtio_console_mmio_init example_consts sim_device
        (virtio_console_init_queues example_consts 0x50000000 0xa003e00
          (example_world (2 ^ 32)))).2.log.take 23 =
        [Access.rd Reg.Status 15,
          Access.orw Reg.Status DRIVER_OK 11,
          Access.wr Reg.QueueReady 1,
          Access.wr Reg.QueueDeviceHigh 0,
          Access.wr Reg.QueueDeviceLow 0x50001300,
          Access.wr Reg.QueueDriverHigh 0,
          Access.wr Reg.QueueDriverLow 0x50001280,
          Access.wr Reg.QueueDescHigh 0,
          Access.wr Reg.QueueDescLow 0x50001200,
          Access.rd Reg.QueueNumMax 4,
          Access.rd Reg.QueueReady 0,
          Access.wr Reg.QueueSel 1,
          Access.wr Reg.QueueReady 1,
          Access.wr Reg.QueueDeviceHigh 0,
          Access.wr Reg.QueueDeviceLow 0x50000100,
          Access.wr Reg.QueueDriverHigh 0,
          Access.wr Reg.QueueDriverLow 0x50000080,
          Access.wr Reg.QueueDescHigh 0,
          Access.wr Reg.QueueDescLow 0x50000000,
          Access.rd Reg.QueueNumMax 4,
          Access.rd Reg.QueueReady 0,
          Access.wr Reg.QueueSel 0,
          Access.rd Reg.Status 11]) ∧
    ((virtio_console_mmio_init example_consts sim_device
        (virtio_console_init_queues example_consts 0x50000000 0xa003e00
          { example_world (2 ^ 32) with dev := example_busy_sim })).1 = false ∧
      (virtio_console_mmio_init example_consts sim_device
        (virtio_console_init_queues example_consts 0x50000000 0xa003e00
          { example_world (2 ^ 32) with dev := example_busy_sim })).2.log.take 14 =
        [Access.orw Reg.Status FAILED 11,
          Access.rd Reg.QueueReady 1,
          Access.wr Reg.QueueSel 1,
          Access.wr Reg.QueueReady 1,
          Access.wr Reg.QueueDeviceHigh 0,
          Access.wr Reg.QueueDeviceLow 0x50000100,
          Access.wr Reg.QueueDriverHigh 0,
          Access.wr Reg.QueueDriverLow 0x50000080,
          Access.wr Reg.QueueDescHigh 0,
          Access.wr Reg.QueueDescLow 0x50000000,
          Access.rd Reg.QueueNumMax 4,
          Access.rd Reg.QueueReady 0,
          Access.wr Reg.QueueSel 0,
          Access.rd Reg.Status 11]) :=
  ⟨(handshake_activates_queues example_consts sim_device
      (virtio_console_init_queues example_consts 0x50000000 0xa003e00
        (example_world (2 ^ 32)))).resolve_left (fun h => absurd h.1 (by decide)),
    by decide, by decide⟩

end BaoVirtio
